import Mathlib

/-!
# Hydroponics controller: schedule engine and schedule editors

A shallow embedding of the dosing execution engine, the day-bitmap helpers and
the schedule editors of `refactoredHydroponicsControllerV2` (`src/main.cpp`,
`src/Globals.cpp`, `src/Hardware.cpp`, `src/DisplayUI.cpp`), followed by the
properties proved about them.

Conventions of the embedding

* The firmware's globals are the fields of one record, `State`; every source
  function becomes a function from `State` to `State` (or to `Option State`
  when the source can index an array out of bounds or convert a float that
  does not fit: `none` stands for undefined behaviour of the source).
* `uint8_t`, `uint16_t` and `unsigned long` values are natural numbers.
  `unsigned long` is 32 bits wide on the target, and every subtraction of two
  timestamps is reduced modulo 2^32 (`usub32`).
* `int` and `long` values (encoder position, cursor indices, counts) are
  integers. The source does no arithmetic on them that could leave the 32-bit
  range for an encoder position a knob can reach, and signed overflow would be
  undefined in the source, so they are not reduced.
* Fixed-size arrays are functions from the index; an access outside the
  declared capacity makes the enclosing function return `none`.
* `float` is IEEE-754 binary32 with round-to-nearest-even, modelled over the
  rationals (`F32`); `double` is binary64.
* Calls that only draw on the display, print on the serial port, wait
  (`delay`) or write the persistent store leave `State` unchanged and are
  omitted; `millis()` and `rtc.now()` are passed in as arguments.
-/

namespace Hydro

/-! ## Constants (`include/Globals.h`, `src/main.cpp`) -/

/-- Capacity of `dosingSchedules` (`MAX_DOSING_SCHEDULES`). -/
abbrev MAX_DOSING_SCHEDULES : Nat := 24

/-- Capacity of `outletSchedules` (`MAX_OUTLET_SCHEDULES`). -/
abbrev MAX_OUTLET_SCHEDULES : Nat := 10

/-- Cooldown of a dosing slot in milliseconds (`DOSING_COOLDOWN`). -/
abbrev DOSING_COOLDOWN : Nat := 60000

/-- Number of values of a 32-bit `unsigned long`. -/
abbrev ULONG_RANGE : Nat := 4294967296

/-- Difference `a - b` of two `unsigned long` values, modulo 2^32. -/
def usub32 (a b : Nat) : Nat :=
  (a % ULONG_RANGE + (ULONG_RANGE - b % ULONG_RANGE)) % ULONG_RANGE

/-! ## Floating point -/

/-- Largest `e` with `2 ^ e ≤ a`, for a positive rational `a`. -/
def floorLog2 (a : ℚ) : ℤ :=
  let e0 : ℤ := (Nat.log2 a.num.natAbs : ℤ) - (Nat.log2 a.den : ℤ)
  if a < (2 : ℚ) ^ e0 then e0 - 1 else e0

/-- Nearest integer to `x`, a tie going to the even neighbour. -/
def roundHalfEven (x : ℚ) : ℤ :=
  let f := ⌊x⌋
  let r := x - f
  if r < 1 / 2 then f
  else if 1 / 2 < r then f + 1
  else if f % 2 = 0 then f else f + 1

/-- Round-to-nearest-even of `q` to a binary format with `p` significand bits
whose smallest subnormal is `2 ^ eminUlp` (exponent range unbounded above). -/
def roundBin (p : ℕ) (eminUlp : ℤ) (q : ℚ) : ℚ :=
  if q = 0 then 0
  else
    let e := floorLog2 |q|
    let u : ℤ := max (e - ((p : ℤ) - 1)) eminUlp
    (roundHalfEven (q / (2 : ℚ) ^ u) : ℚ) * (2 : ℚ) ^ u

/-- Rounding to `double` (binary64) of a rational below the overflow limit. -/
def roundF64 (q : ℚ) : ℚ := roundBin 53 (-1074) q

/-- Values of a C `float`: a finite number, an infinity or a NaN. The sign of
a zero or of an infinity never changes what `startDosing` computes (see
`f32ToULong`), so it is not recorded. -/
inductive F32 where
  | fin (q : ℚ)
  | inf
  | nan
  deriving DecidableEq

/-- The `float` nearest to the rational `q`; overflow gives an infinity. -/
def F32.ofRat (q : ℚ) : F32 :=
  let r := roundBin 24 (-149) q
  if |r| < (2 : ℚ) ^ (128 : ℕ) then F32.fin r else F32.inf

/-- Division of two `float`s. -/
def F32.div : F32 → F32 → F32
  | F32.nan, _ => F32.nan
  | _, F32.nan => F32.nan
  | F32.inf, F32.inf => F32.nan
  | F32.inf, F32.fin _ => F32.inf
  | F32.fin _, F32.inf => F32.fin 0
  | F32.fin x, F32.fin y =>
    if y = 0 then (if x = 0 then F32.nan else F32.inf) else F32.ofRat (x / y)

/-- Product of two `float`s. -/
def F32.mul : F32 → F32 → F32
  | F32.nan, _ => F32.nan
  | _, F32.nan => F32.nan
  | F32.inf, F32.inf => F32.inf
  | F32.inf, F32.fin y => if y = 0 then F32.nan else F32.inf
  | F32.fin x, F32.inf => if x = 0 then F32.nan else F32.inf
  | F32.fin x, F32.fin y => F32.ofRat (x * y)

/-- The cast `(unsigned long) x` of a `float`: truncation toward zero, defined
only when the truncated value fits in 32 bits. -/
def f32ToULong : F32 → Option Nat
  | F32.fin r =>
    let t : ℤ := if 0 ≤ r then ⌊r⌋ else ⌈r⌉
    if 0 ≤ t ∧ t < (ULONG_RANGE : ℤ) then some t.toNat else none
  | F32.inf => none
  | F32.nan => none

/-! ## Enumerations and records (`include/Globals.h`) -/

/-- The menu identifiers, in the order of `enum MenuState`. -/
inductive MenuState where
  | MENU_MAIN
  | MENU_SCHEDULING
  | MENU_DOSING_SCHEDULE
  | MENU_DOSING_VIEW
  | MENU_DOSING_ADD
  | MENU_DOSING_ADD_SELECT_DAYS
  | MENU_DOSING_ADD_SET_TIME
  | MENU_DOSING_ADD_SET_AMOUNT
  | MENU_DOSING_DELETE
  | MENU_DOSING_DELETE_CONFIRM
  | MENU_DOSING_DELETE_ALL
  | MENU_OUTLET_SCHEDULE
  | MENU_OUTLET_VIEW
  | MENU_OUTLET_ADD
  | MENU_OUTLET_ADD_SELECT_DAYS
  | MENU_OUTLET_ADD_VALUES
  | MENU_OUTLET_ADD_CONFIRM
  | MENU_OUTLET_DELETE
  | MENU_OUTLET_DELETE_SELECT
  | MENU_OUTLET_DELETE_CONFIRM
  | MENU_OUTLET_DELETE_ALL
  | MENU_OUTLET_DELETE_ALL_CONFIRM
  | MENU_MANUAL_DOSING
  | MENU_MANUAL_SELECT_PUMP
  | MENU_MANUAL_SET_AMOUNT
  | MENU_MANUAL_CONFIRM
  | MENU_PUMP_CALIBRATION
  | MENU_CALIBRATE_P1
  | MENU_CALIBRATE_P1_START
  | MENU_CALIBRATE_P1_CONFIRM
  | MENU_CALIBRATE_P2
  | MENU_CALIBRATE_P2_START
  | MENU_CALIBRATE_P2_CONFIRM
  | MENU_CALIBRATE_P3
  | MENU_CALIBRATE_P3_START
  | MENU_CALIBRATE_P3_CONFIRM
  | MENU_CALIBRATE_P4
  | MENU_CALIBRATE_P4_START
  | MENU_CALIBRATE_P4_CONFIRM
  | MENU_TOPUP_SOLUTION
  | MENU_TOPUP_SET_AMOUNTS
  | MENU_TOPUP_AMOUNTS_CONFIRM
  | MENU_TOPUP_SET_PUMP_PIN
  | MENU_TOPUP_PUMP_CONFIRM
  | MENU_REPLACE_SOLUTION
  | MENU_REPLACE_SET_AMOUNTS
  | MENU_REPLACE_SET_DRAIN
  | MENU_REPLACE_SET_FILL
  | MENU_REPLACE_SET_SCHEDULE
  | MENU_REPLACE_CONFIRM
  | MENU_RESET_WIFI
  | MENU_RESET_WIFI_CONFIRM
  | MENU_FACTORY_RESET
  | MENU_FACTORY_RESET_CONFIRM
  deriving DecidableEq, Repr

/-- The state of the dosing execution engine (`enum DosingState`). -/
inductive DosingState where
  | DOSING_IDLE
  | DOSING_RUNNING
  | DOSING_COMPLETE
  deriving DecidableEq, Repr

/-- The cursor of the menu system (`struct MenuNavigationState`). -/
structure MenuNavigationState where
  currentMenu : MenuState := MenuState.MENU_MAIN
  selectedIndex : Int := 0
  lastDrawnIndex : Int := -1
  scrollOffset : Int := 0
  inEditMode : Bool := false
  editValue : Int := 0
  lastActivity : Nat := 0
  needsRedraw : Bool := true
  needsFullRedraw : Bool := true
  tempPumpNumber : Nat := 1
  tempAmount : Nat := 0
  tempRelay : Nat := 1
  isCalibrating : Bool := false
  tempIndex : Int := -1
  tempDaysBitmap : Nat := 0
  daySelectIndex : Nat := 0
  editingHour : Bool := true
  currentPage : Int := 0
  outletIntervalIsHours : Bool := false
  outletIntervalValue : Nat := 1
  deriving DecidableEq, Repr

/-- One dosing schedule record (`struct DosingSchedule`); `amountML` is in
tenths of a millilitre. -/
structure DosingSchedule where
  pumpNumber : Nat := 0
  daysOfWeek : Nat := 0
  hour : Nat := 0
  minute : Nat := 0
  amountML : Nat := 0
  isInterval : Bool := false
  intervalMinutes : Nat := 0
  enabled : Bool := false
  deriving DecidableEq, Repr

/-- One outlet schedule record (`struct OutletSchedule`). -/
structure OutletSchedule where
  relayNumber : Nat := 0
  daysOfWeek : Nat := 0
  hourOn : Nat := 0
  minuteOn : Nat := 0
  hourOff : Nat := 0
  minuteOff : Nat := 0
  isInterval : Bool := false
  intervalMinutes : Nat := 0
  enabled : Bool := false
  deriving DecidableEq, Repr

/-- Calibration of one pump (`struct PumpCalibration`). -/
structure PumpCalibration where
  pwmSpeed : Nat := 0
  timeMs : Nat := 0
  mlPerSecond : F32 := F32.fin 0
  isCalibrated : Bool := false
  deriving DecidableEq

/-- The part of `struct HardwareState` that the schedule engine and the menu
dispatcher use: the four pump speeds (percent) and the button flag. -/
structure HardwareState where
  pump1Speed : Nat := 0
  pump2Speed : Nat := 0
  pump3Speed : Nat := 0
  pump4Speed : Nat := 0
  encoderButton : Bool := false
  deriving DecidableEq, Repr

/-- Bookkeeping of the running dose (`struct DosingExecution`). -/
structure DosingExecution where
  state : DosingState := DosingState.DOSING_IDLE
  activePump : Nat := 0
  startTime : Nat := 0
  runDuration : Nat := 0
  targetML : Nat := 0
  scheduleIndex : Nat := 0
  deriving DecidableEq, Repr

/-- What `rtc.now()` returns, as far as the engine reads it: weekday
(0 = Sunday), hour and minute. One reading is used for a whole scan. -/
structure DateTime where
  dayOfTheWeek : Nat
  hour : Nat
  minute : Nat
  deriving DecidableEq, Repr

/-- The globals of the firmware that the modelled functions read or write,
with the function-local `static` variables `lastCheck` (of
`checkDosingSchedules`), `lastPos` (of `handleOutletAddMenu`),
`lastEncoderPos` (of `handleMenuNavigation`) and the two `lastPage` (of
`handleDosingViewMenu` and `handleOutletViewMenu`). -/
structure State where
  menuNav : MenuNavigationState := {}
  hardware : HardwareState := {}
  dosingSchedules : Nat → DosingSchedule := fun _ => {}
  outletSchedules : Nat → OutletSchedule := fun _ => {}
  pumpCalibrations : Nat → PumpCalibration := fun _ => {}
  dosingScheduleCount : Int := 0
  outletScheduleCount : Int := 0
  tempDosingSchedule : DosingSchedule := {}
  tempOutletSchedule : OutletSchedule := {}
  encoderPosition : Int := 0
  activeDosing : DosingExecution := {}
  lastDosingExecution : Nat → Nat := fun _ => 0
  lastCheck : Nat := 0
  outletAddLastPos : Int := 0
  navLastEncoderPos : Int := 0
  dosingViewLastPage : Int := -1
  outletViewLastPage : Int := -1

/-! ## Day bitmap helpers (`src/Globals.cpp`) -/

/-- Source: `isDayEnabled`, `(daysBitmap & (1 << dayIndex)) != 0`. -/
def isDayEnabled (daysBitmap dayIndex : Nat) : Bool :=
  (daysBitmap &&& (1 <<< dayIndex)) != 0

/-- Source: `toggleDay`, `daysBitmap ^= (1 << dayIndex)` stored back into a
`uint8_t`. -/
def toggleDay (daysBitmap dayIndex : Nat) : Nat :=
  (daysBitmap ^^^ (1 <<< dayIndex)) % 256

/-- Source: `isScheduleActiveToday`, the weekday bit of the clock reading. -/
def isScheduleActiveToday (now : DateTime) (daysBitmap : Nat) : Bool :=
  isDayEnabled daysBitmap now.dayOfTheWeek

/-! ## Pump output (`src/Hardware.cpp`) -/

/-- Source: `setPumpSpeed`. The speed is capped at 100 and recorded for pumps
1 to 4; any other pump number returns without effect. -/
def setPumpSpeed (s : State) (pump speed : Nat) : State :=
  let speed := if speed > 100 then 100 else speed
  match pump with
  | 1 => { s with hardware := { s.hardware with pump1Speed := speed } }
  | 2 => { s with hardware := { s.hardware with pump2Speed := speed } }
  | 3 => { s with hardware := { s.hardware with pump3Speed := speed } }
  | 4 => { s with hardware := { s.hardware with pump4Speed := speed } }
  | _ => s

/-- Source: `getPumpSpeed`. -/
def getPumpSpeed (s : State) (pump : Nat) : Nat :=
  match pump with
  | 1 => s.hardware.pump1Speed
  | 2 => s.hardware.pump2Speed
  | 3 => s.hardware.pump3Speed
  | 4 => s.hardware.pump4Speed
  | _ => 0

/-! ## Dosing execution engine (`src/main.cpp`) -/

/-- The run time `startDosing` computes:
`(unsigned long)((targetML / mlPerSec) * 1000)` with
`float targetML = amountML / 10.0` (a `double` quotient narrowed to `float`). -/
def dosingRunMs (amountML : Nat) (mlPerSec : F32) : Option Nat :=
  let targetML : F32 := F32.ofRat (roundF64 ((amountML : ℚ) / 10))
  f32ToULong (F32.mul (F32.div targetML mlPerSec) (F32.fin 1000))

/-- Source: `startDosing`. Undefined when `scheduleIndex` is outside the
schedule array, when `pumpNumber - 1` is outside `pumpCalibrations[4]`, or
when the computed run time does not convert to `unsigned long`. -/
def startDosing (s : State) (scheduleIndex currentTime : Nat) : Option State :=
  if MAX_DOSING_SCHEDULES ≤ scheduleIndex then none
  else
    let sched := s.dosingSchedules scheduleIndex
    if sched.pumpNumber < 1 ∨ 4 < sched.pumpNumber then none
    else
      let cal := s.pumpCalibrations (sched.pumpNumber - 1)
      match dosingRunMs sched.amountML cal.mlPerSecond with
      | none => none
      | some runMs =>
        let s1 : State :=
          { s with
            activeDosing :=
              { state := DosingState.DOSING_RUNNING
                activePump := sched.pumpNumber
                startTime := currentTime
                runDuration := runMs
                targetML := sched.amountML
                scheduleIndex := scheduleIndex } }
        let s2 := setPumpSpeed s1 sched.pumpNumber cal.pwmSpeed
        some { s2 with
          lastDosingExecution :=
            Function.update s2.lastDosingExecution scheduleIndex currentTime }

/-- The test the scan loop of `checkDosingSchedules` applies to slot `i`:
enabled, today's weekday bit set, hour and minute equal to the clock's, and
the slot's last start at least `DOSING_COOLDOWN` ms before `currentTime`. -/
def dosingDue (s : State) (now : DateTime) (currentTime i : Nat) : Bool :=
  let sched := s.dosingSchedules i
  if !sched.enabled then false
  else if !isScheduleActiveToday now sched.daysOfWeek then false
  else if sched.hour != now.hour || sched.minute != now.minute then false
  else if usub32 currentTime (s.lastDosingExecution i) < DOSING_COOLDOWN then false
  else true

/-- The `for` loop of `checkDosingSchedules` from index `i` on, with `n`
iterations left: the first due slot is started and the loop is left. -/
def checkDosingLoop (s : State) (now : DateTime) (currentTime : Nat) :
    Nat → Nat → Option State
  | 0, _ => some s
  | n + 1, i =>
    if dosingDue s now currentTime i then startDosing s i currentTime
    else checkDosingLoop s now currentTime n (i + 1)

/-- Source: `checkDosingSchedules`. -/
def checkDosingSchedules (s : State) (now : DateTime) (currentTime : Nat) :
    Option State :=
  if s.activeDosing.state = DosingState.DOSING_RUNNING then some s
  else if usub32 currentTime s.lastCheck < 1000 then some s
  else
    checkDosingLoop { s with lastCheck := currentTime } now currentTime
      MAX_DOSING_SCHEDULES 0

/-- Source: `updateDosingExecution`. The state passes through
`DOSING_COMPLETE` before it is set to `DOSING_IDLE`. -/
def updateDosingExecution (s : State) (currentTime : Nat) : State :=
  if s.activeDosing.state ≠ DosingState.DOSING_RUNNING then s
  else if usub32 currentTime s.activeDosing.startTime ≥ s.activeDosing.runDuration then
    let s1 := setPumpSpeed s s.activeDosing.activePump 0
    let s2 : State :=
      { s1 with activeDosing :=
          { s1.activeDosing with state := DosingState.DOSING_COMPLETE, activePump := 0 } }
    { s2 with activeDosing := { s2.activeDosing with state := DosingState.DOSING_IDLE } }
  else s

/-- Slot `j` is due at the scan `(now, currentTime)`: its schedule is enabled,
has today's weekday bit set, has the clock's hour and minute, and was last
started at least `DOSING_COOLDOWN` ms ago (32-bit unsigned difference). -/
def SlotDue (s : State) (now : DateTime) (currentTime j : Nat) : Prop :=
  (s.dosingSchedules j).enabled = true ∧
  isDayEnabled (s.dosingSchedules j).daysOfWeek now.dayOfTheWeek = true ∧
  (s.dosingSchedules j).hour = now.hour ∧
  (s.dosingSchedules j).minute = now.minute ∧
  DOSING_COOLDOWN ≤ usub32 currentTime (s.lastDosingExecution j)

/-! ## Traces of the engine -/

/-- One thing that happens to the engine between two scans: a scan, a
completion check, or an edit of the schedule and calibration tables by the
menu system. -/
inductive EngineCall where
  | check (now : DateTime) (currentTime : Nat)
  | update (currentTime : Nat)
  | edit (schedules : Nat → DosingSchedule) (calibrations : Nat → PumpCalibration)

/-- The effect of one engine call. -/
def EngineCall.run (s : State) : EngineCall → Option State
  | EngineCall.check now t => checkDosingSchedules s now t
  | EngineCall.update t => some (updateDosingExecution s t)
  | EngineCall.edit d c => some { s with dosingSchedules := d, pumpCalibrations := c }

/-- The effect of a sequence of engine calls, left to right. -/
def runCalls (s : State) : List EngineCall → Option State
  | [] => some s
  | c :: cs =>
    match c.run s with
    | none => none
    | some s1 => runCalls s1 cs

/-- The scan times of a sequence of engine calls. -/
def checkTimes : List EngineCall → List Nat
  | [] => []
  | EngineCall.check _ t :: cs => t :: checkTimes cs
  | _ :: cs => checkTimes cs

/-! ## Menu helpers (`src/main.cpp`, `src/DisplayUI.cpp`) -/

/-- Source: `navigateToMenu(menu, selectedIndex)`; `ms` is the value `millis()`
returns inside it. -/
def navigateToMenu (s : State) (menu : MenuState) (selectedIndex : Int) (ms : Nat) : State :=
  { s with
    menuNav :=
      { s.menuNav with
        currentMenu := menu
        selectedIndex := selectedIndex
        scrollOffset := 0
        needsRedraw := true
        needsFullRedraw := true
        lastDrawnIndex := -1
        lastActivity := ms }
    encoderPosition := selectedIndex }

/-- Source: `showSplash`. After the message and the pause it forces a full
redraw. -/
def showSplash (s : State) : State :=
  { s with
    menuNav :=
      { s.menuNav with needsFullRedraw := true, needsRedraw := true, lastDrawnIndex := -1 } }

/-- Source: `clampEncoderPosition(minVal, maxVal)`. The lower bound the source
applies is the constant 0, whatever `minVal` is. -/
def clampEncoderPosition (s : State) (_minVal maxVal : Int) : State :=
  let e1 : Int := if s.encoderPosition < 0 then 0 else s.encoderPosition
  let e2 : Int := if e1 > maxVal then maxVal else e1
  { s with encoderPosition := e2, menuNav := { s.menuNav with selectedIndex := e2 } }

/-- The Arduino macro `constrain(amt, low, high)`. -/
def constrain (amt low high : Int) : Int :=
  if amt < low then low else if amt > high then high else amt

/-- The loop `while (x < lo) x += step;` for a positive step. -/
def addWhileBelow (lo step : Int) (hstep : 0 < step) (x : Int) : Int :=
  if _h : x < lo then addWhileBelow lo step hstep (x + step) else x
termination_by (lo - x).toNat
decreasing_by omega

/-- The loop `while (x > hi) x -= step;` for a positive step. -/
def subWhileAbove (hi step : Int) (hstep : 0 < step) (x : Int) : Int :=
  if _h : x > hi then subWhileAbove hi step hstep (x - step) else x
termination_by (x - hi).toNat
decreasing_by omega

/-- The cast `(uint8_t) x` of an `int`. -/
def toUInt8 (x : Int) : Nat := (x % 256).toNat

/-- The cast of an `int` to `uint16_t`. -/
def toUInt16 (x : Int) : Nat := (x % 65536).toNat

/-- The position of index `i` in an array of `cap` elements, if it has one. -/
def arrayIndex (cap : Nat) (i : Int) : Option Nat :=
  if 0 ≤ i ∧ i < (cap : Int) then some i.toNat else none

/-- The body `a[i] = a[i + 1]` of the delete loops, run `n` times from index
`i` upward on an array of `cap` elements. The loops
`for (int i = deleteIdx; i < count - 1; i++)` run it
`(count - 1 - deleteIdx).toNat` times. -/
def shiftLoop {α : Type} (cap : Nat) (a : Nat → α) : Nat → Int → Option (Nat → α)
  | 0, _ => some a
  | n + 1, i =>
    match arrayIndex cap i, arrayIndex cap (i + 1) with
    | some dst, some src => shiftLoop cap (Function.update a dst (a src)) n (i + 1)
    | _, _ => none

/-! ## Navigation functions of the editors (`src/main.cpp`) -/

/-- Source: `handleDosingAddMenu`. -/
def handleDosingAddMenu (s : State) : State :=
  if !s.menuNav.inEditMode then clampEncoderPosition s 0 5
  else
    let delta : Int := s.encoderPosition - s.menuNav.editValue
    if delta ≠ 0 then
      let s1 : State :=
        if s.menuNav.selectedIndex = 0 then
          let p : Int := (s.tempDosingSchedule.pumpNumber : Int) + delta
          let p := addWhileBelow 1 4 (by decide) p
          let p := subWhileAbove 4 4 (by decide) p
          { s with tempDosingSchedule := { s.tempDosingSchedule with pumpNumber := toUInt8 p } }
        else s
      let s2 : State :=
        if s1.menuNav.selectedIndex = 1 then
          let idx : Int := (s1.menuNav.daySelectIndex : Int) + delta
          let idx := addWhileBelow 0 8 (by decide) idx
          let idx := subWhileAbove 7 8 (by decide) idx
          { s1 with menuNav := { s1.menuNav with daySelectIndex := toUInt8 idx } }
        else s1
      let s3 : State :=
        if s2.menuNav.selectedIndex = 2 then
          if s2.menuNav.editingHour then
            let h : Int := (s2.tempDosingSchedule.hour : Int) + delta
            let h := addWhileBelow 0 24 (by decide) h
            let h := subWhileAbove 23 24 (by decide) h
            { s2 with tempDosingSchedule := { s2.tempDosingSchedule with hour := toUInt8 h } }
          else
            let m : Int := (s2.tempDosingSchedule.minute : Int) + delta * 5
            let m := addWhileBelow 0 60 (by decide) m
            let m := subWhileAbove 59 60 (by decide) m
            { s2 with tempDosingSchedule := { s2.tempDosingSchedule with minute := toUInt8 m } }
        else if s2.menuNav.selectedIndex = 3 then
          let newAmt : Int := (s2.tempDosingSchedule.amountML : Int) + delta * 1
          let newAmt : Int :=
            if newAmt < 0 then 5000 else if newAmt > 5000 then 0 else newAmt
          { s2 with
            tempDosingSchedule := { s2.tempDosingSchedule with amountML := toUInt16 newAmt } }
        else s2
      { s3 with
        menuNav := { s3.menuNav with editValue := s3.encoderPosition, needsRedraw := true } }
    else s

/-- Source: `handleOutletAddMenu`; `outletAddLastPos` is its `static int
lastPos`. -/
def handleOutletAddMenu (s : State) : State :=
  let pos : Int := s.encoderPosition
  let delta : Int := pos - s.outletAddLastPos
  let s : State := { s with outletAddLastPos := pos }
  if !s.menuNav.inEditMode then
    let s1 := clampEncoderPosition s 0 6
    { s1 with menuNav := { s1.menuNav with selectedIndex := s1.encoderPosition, scrollOffset := 0 } }
  else if s.menuNav.selectedIndex = 0 then
    if delta ≠ 0 then
      let r : Int := (s.tempOutletSchedule.relayNumber : Int) + delta
      let r := constrain r 1 4
      { s with
        tempOutletSchedule := { s.tempOutletSchedule with relayNumber := toUInt8 r }
        menuNav := { s.menuNav with needsRedraw := true } }
    else s
  else if s.menuNav.selectedIndex = 1 then
    let idx : Int := (s.menuNav.daySelectIndex : Int) + delta
    let idx := addWhileBelow 0 8 (by decide) idx
    let idx := subWhileAbove 7 8 (by decide) idx
    { s with menuNav := { s.menuNav with daySelectIndex := toUInt8 idx } }
  else if s.menuNav.selectedIndex = 2 then
    if !s.tempOutletSchedule.isInterval then s
    else if s.menuNav.editingHour then
      if delta ≠ 0 then
        { s with
          menuNav :=
            { s.menuNav with
              outletIntervalIsHours := !s.menuNav.outletIntervalIsHours
              needsRedraw := true }
          encoderPosition := 0
          outletAddLastPos := 0 }
      else s
    else
      if delta ≠ 0 then
        let v : Int := (s.menuNav.outletIntervalValue : Int) + delta
        let vMax : Int := if s.menuNav.outletIntervalIsHours then 24 else 59
        let v := constrain v 1 vMax
        { s with
          menuNav := { s.menuNav with outletIntervalValue := toUInt8 v, needsRedraw := true } }
      else s
  else if s.menuNav.selectedIndex = 3 then
    if s.tempOutletSchedule.isInterval then s
    else if delta ≠ 0 then
      let s1 : State :=
        if s.menuNav.editingHour then
          let h : Int := constrain ((s.tempOutletSchedule.hourOn : Int) + delta) 0 23
          { s with tempOutletSchedule := { s.tempOutletSchedule with hourOn := toUInt8 h } }
        else
          let m : Int := constrain ((s.tempOutletSchedule.minuteOn : Int) + delta) 0 59
          { s with tempOutletSchedule := { s.tempOutletSchedule with minuteOn := toUInt8 m } }
      { s1 with menuNav := { s1.menuNav with needsRedraw := true } }
    else s
  else if s.menuNav.selectedIndex = 4 then
    if s.tempOutletSchedule.isInterval then s
    else if delta ≠ 0 then
      let s1 : State :=
        if s.menuNav.editingHour then
          let h : Int := constrain ((s.tempOutletSchedule.hourOff : Int) + delta) 0 23
          { s with tempOutletSchedule := { s.tempOutletSchedule with hourOff := toUInt8 h } }
        else
          let m : Int := constrain ((s.tempOutletSchedule.minuteOff : Int) + delta) 0 59
          { s with tempOutletSchedule := { s.tempOutletSchedule with minuteOff := toUInt8 m } }
      { s1 with menuNav := { s1.menuNav with needsRedraw := true } }
    else s
  else s

/-! ## Selection functions of the editors and delete dialogs (`src/main.cpp`) -/

/-- Source: `selectOutletAddMenu`, the button handler of the outlet editor
(fields 0 Relay, 1 Days, 2 Interval, 3 Time ON, 4 Time OFF, 5 Save,
6 Cancel). The source repeats the same statements under `case 3` and
`case 4`; they are one branch here. -/
def selectOutletAddMenu (s : State) (ms : Nat) : Option State :=
  if s.menuNav.selectedIndex = 0 then
    let s1 : State :=
      if !s.menuNav.inEditMode then
        { s with
          menuNav := { s.menuNav with inEditMode := true }
          encoderPosition := (s.tempOutletSchedule.relayNumber : Int) - 1 }
      else
        { s with
          menuNav := { s.menuNav with inEditMode := false }
          encoderPosition := s.menuNav.selectedIndex }
    some { s1 with menuNav := { s1.menuNav with needsRedraw := true } }
  else if s.menuNav.selectedIndex = 1 then
    let s1 : State :=
      if !s.menuNav.inEditMode then
        { s with
          menuNav :=
            { s.menuNav with
              tempDaysBitmap := s.tempOutletSchedule.daysOfWeek
              inEditMode := true
              daySelectIndex := 0 }
          encoderPosition := 0 }
      else if s.menuNav.daySelectIndex = 7 then
        { s with
          menuNav := { s.menuNav with inEditMode := false }
          encoderPosition := s.menuNav.selectedIndex }
      else
        let bitmap := toggleDay s.menuNav.tempDaysBitmap s.menuNav.daySelectIndex
        { s with
          menuNav := { s.menuNav with tempDaysBitmap := bitmap }
          tempOutletSchedule := { s.tempOutletSchedule with daysOfWeek := bitmap } }
    some { s1 with menuNav := { s1.menuNav with needsRedraw := true } }
  else if s.menuNav.selectedIndex = 2 then
    let s1 : State :=
      if !s.menuNav.inEditMode then
        let s2 : State :=
          { s with
            tempOutletSchedule :=
              { s.tempOutletSchedule with isInterval := !s.tempOutletSchedule.isInterval } }
        if s2.tempOutletSchedule.isInterval then
          let isHours : Bool := decide (s2.tempOutletSchedule.intervalMinutes ≥ 60)
          let value : Int :=
            if isHours then max 1 ((s2.tempOutletSchedule.intervalMinutes / 60 : Nat) : Int)
            else max 1 (s2.tempOutletSchedule.intervalMinutes : Int)
          { s2 with
            menuNav :=
              { s2.menuNav with
                outletIntervalIsHours := isHours
                outletIntervalValue := toUInt8 value
                inEditMode := true
                editingHour := true }
            encoderPosition := 0 }
        else s2
      else if s.menuNav.editingHour then
        { s with
          menuNav := { s.menuNav with editingHour := false }
          encoderPosition := 0 }
      else
        let minutes : Nat :=
          if s.menuNav.outletIntervalIsHours then
            toUInt16 ((s.menuNav.outletIntervalValue : Int) * 60)
          else s.menuNav.outletIntervalValue
        { s with
          tempOutletSchedule := { s.tempOutletSchedule with intervalMinutes := minutes }
          menuNav := { s.menuNav with inEditMode := false, editingHour := true }
          encoderPosition := s.menuNav.selectedIndex }
    some { s1 with menuNav := { s1.menuNav with needsRedraw := true } }
  else if s.menuNav.selectedIndex = 3 ∨ s.menuNav.selectedIndex = 4 then
    if s.tempOutletSchedule.isInterval then some s
    else
      let s1 : State :=
        if !s.menuNav.inEditMode then
          { s with
            menuNav := { s.menuNav with inEditMode := true, editingHour := true }
            encoderPosition := 0 }
        else if s.menuNav.editingHour then
          { s with menuNav := { s.menuNav with editingHour := false } }
        else
          { s with menuNav := { s.menuNav with inEditMode := false, editingHour := true } }
      some { s1 with menuNav := { s1.menuNav with needsRedraw := true } }
  else if s.menuNav.selectedIndex = 5 then
    if s.menuNav.tempDaysBitmap = 0 then some (showSplash s)
    else if s.outletScheduleCount ≥ (MAX_OUTLET_SCHEDULES : Int) then some (showSplash s)
    else
      let temp : OutletSchedule :=
        { s.tempOutletSchedule with daysOfWeek := s.menuNav.tempDaysBitmap, enabled := true }
      match arrayIndex MAX_OUTLET_SCHEDULES s.outletScheduleCount with
      | none => none
      | some idx =>
        let s1 : State :=
          { s with
            tempOutletSchedule := temp
            outletSchedules := Function.update s.outletSchedules idx temp
            outletScheduleCount := s.outletScheduleCount + 1 }
        some (navigateToMenu (showSplash s1) MenuState.MENU_OUTLET_SCHEDULE 0 ms)
  else if s.menuNav.selectedIndex = 6 then
    some (navigateToMenu s MenuState.MENU_OUTLET_SCHEDULE 0 ms)
  else some s

/-- Source: `selectOutletDeleteConfirmMenu`, the Yes/No dialog of the outlet
delete flow; the entry to delete is `menuNav.tempIndex`. -/
def selectOutletDeleteConfirmMenu (s : State) (ms : Nat) : Option State :=
  if s.menuNav.selectedIndex = 0 then
    let deleteIdx : Int := s.menuNav.tempIndex
    match shiftLoop MAX_OUTLET_SCHEDULES s.outletSchedules
        (s.outletScheduleCount - 1 - deleteIdx).toNat deleteIdx with
    | none => none
    | some a =>
      some (navigateToMenu
        { s with outletSchedules := a, outletScheduleCount := s.outletScheduleCount - 1 }
        MenuState.MENU_OUTLET_SCHEDULE 0 ms)
  else some (navigateToMenu s MenuState.MENU_OUTLET_SCHEDULE 0 ms)

/-- Source: `handleMenuSelectionLegacy`, branch `case MENU_DOSING_DELETE_CONFIRM`;
the entry to delete is stored in `menuNav.tempPumpNumber`. -/
def legacyDosingDeleteConfirm (s : State) (ms : Nat) : Option State :=
  if s.menuNav.selectedIndex = 0 then
    let deleteIdx : Int := (s.menuNav.tempPumpNumber : Int)
    match shiftLoop MAX_DOSING_SCHEDULES s.dosingSchedules
        (s.dosingScheduleCount - 1 - deleteIdx).toNat deleteIdx with
    | none => none
    | some a =>
      match arrayIndex MAX_DOSING_SCHEDULES (s.dosingScheduleCount - 1) with
      | none => none
      | some last =>
        some (navigateToMenu
          { s with
            dosingSchedules := Function.update a last { a last with enabled := false }
            dosingScheduleCount := s.dosingScheduleCount - 1 }
          MenuState.MENU_DOSING_SCHEDULE 0 ms)
  else
    some (navigateToMenu s MenuState.MENU_DOSING_DELETE (s.menuNav.tempPumpNumber : Int) ms)

/-- Source: `handleMenuSelectionLegacy`, branch `case MENU_DOSING_ADD`, the
button handler of the dosing editor (fields 0 Pump, 1 Days, 2 Time, 3 Amount,
4 Save, 5 Cancel). -/
def legacyDosingAdd (s : State) (ms : Nat) : Option State :=
  if s.menuNav.selectedIndex = 0 then
    let s1 : State :=
      if !s.menuNav.inEditMode then
        { s with
          menuNav := { s.menuNav with inEditMode := true, editValue := 0 }
          encoderPosition := 0 }
      else
        { s with
          menuNav := { s.menuNav with inEditMode := false, editValue := 0 }
          encoderPosition := s.menuNav.selectedIndex }
    some { s1 with menuNav := { s1.menuNav with needsRedraw := true } }
  else if s.menuNav.selectedIndex = 1 then
    let s1 : State :=
      if !s.menuNav.inEditMode then
        { s with
          menuNav := { s.menuNav with inEditMode := true, daySelectIndex := 0, editValue := 0 }
          encoderPosition := 0 }
      else if s.menuNav.daySelectIndex = 7 then
        { s with
          menuNav := { s.menuNav with inEditMode := false, editValue := 0 }
          encoderPosition := s.menuNav.selectedIndex }
      else
        let bit : Nat := (1 <<< s.menuNav.daySelectIndex) % 256
        let bitmap : Nat := (s.menuNav.tempDaysBitmap ^^^ bit) % 256
        { s with
          menuNav := { s.menuNav with tempDaysBitmap := bitmap }
          tempDosingSchedule := { s.tempDosingSchedule with daysOfWeek := bitmap } }
    some { s1 with menuNav := { s1.menuNav with needsRedraw := true } }
  else if s.menuNav.selectedIndex = 2 then
    let s1 : State :=
      if !s.menuNav.inEditMode then
        { s with menuNav := { s.menuNav with inEditMode := true, editingHour := true } }
      else if s.menuNav.editingHour then
        { s with menuNav := { s.menuNav with editingHour := false } }
      else
        { s with menuNav := { s.menuNav with inEditMode := false, editingHour := true } }
    some { s1 with menuNav := { s1.menuNav with needsRedraw := true } }
  else if s.menuNav.selectedIndex = 3 then
    some { s with
      menuNav := { s.menuNav with inEditMode := !s.menuNav.inEditMode, needsRedraw := true } }
  else if s.menuNav.selectedIndex = 4 then
    if s.menuNav.tempDaysBitmap = 0 then some (showSplash s)
    else if s.dosingScheduleCount ≥ (MAX_DOSING_SCHEDULES : Int) then
      some { s with menuNav := { s.menuNav with needsFullRedraw := true } }
    else
      let temp : DosingSchedule :=
        { s.tempDosingSchedule with
          daysOfWeek := s.menuNav.tempDaysBitmap
          enabled := true
          isInterval := false
          intervalMinutes := 0 }
      match arrayIndex MAX_DOSING_SCHEDULES s.dosingScheduleCount with
      | none => none
      | some idx =>
        let s1 : State :=
          { s with
            tempDosingSchedule := temp
            dosingSchedules := Function.update s.dosingSchedules idx temp
            dosingScheduleCount := s.dosingScheduleCount + 1
            menuNav := { s.menuNav with inEditMode := false } }
        some (navigateToMenu s1 MenuState.MENU_DOSING_SCHEDULE 0 ms)
  else if s.menuNav.selectedIndex = 5 then
    some (navigateToMenu
      { s with menuNav := { s.menuNav with inEditMode := false } }
      MenuState.MENU_DOSING_SCHEDULE 0 ms)
  else some s

/-! ## Day formatters (`src/Globals.cpp`) -/

/-- Mask of all seven days (`DAY_ALL`, 0b01111111). -/
abbrev DAY_ALL : Nat := 127

/-- Mask of Monday to Friday (`DAY_WEEKDAYS`, 0b00111110). -/
abbrev DAY_WEEKDAYS : Nat := 62

/-- Mask of Saturday and Sunday (`DAY_WEEKENDS`, 0b01000001). -/
abbrev DAY_WEEKENDS : Nat := 65

/-- The table `dayNames`. -/
def dayNames : List String :=
  ["Sunday", "Monday", "Tuesday", "Wednesday", "Thursday", "Friday", "Saturday"]

/-- The table `dayNamesShort`. -/
def dayNamesShort : List String := ["Sun", "Mon", "Tue", "Wed", "Thu", "Fri", "Sat"]

/-- The local table `shortNames` of `formatDaysCompact`. -/
def shortNames : List String := ["Su", "Mo", "Tu", "We", "Th", "Fr", "Sa"]

/-- The enumeration loop the three formatters share, from day `i` on with `n`
iterations left: for every set bit, `if (result.length() > 0) result += sep;
result += names[i];`. -/
def daysLoop (names : List String) (sep : String) (daysBitmap : Nat) :
    Nat → Nat → String → String
  | 0, _, result => result
  | n + 1, i, result =>
    if isDayEnabled daysBitmap i then
      let result := if result.length > 0 then result ++ sep else result
      daysLoop names sep daysBitmap n (i + 1) (result ++ names.getD i "")
    else daysLoop names sep daysBitmap n (i + 1) result

/-- The string the loop of `getDaysString` builds: short names, separator
",", Sunday to Saturday. -/
def getDaysStringLoop (daysBitmap : Nat) : String :=
  daysLoop dayNamesShort "," daysBitmap 7 0 ""

/-- Source: `getDaysString`. -/
def getDaysString (daysBitmap : Nat) : String :=
  if daysBitmap = DAY_ALL then "All Days"
  else if daysBitmap = DAY_WEEKDAYS then "Weekdays"
  else if daysBitmap = DAY_WEEKENDS then "Weekends"
  else if daysBitmap = 0 then "None"
  else getDaysStringLoop daysBitmap

/-- The string the loop of `getDaysStringLong` builds: long names, separator
", ". -/
def getDaysStringLongLoop (daysBitmap : Nat) : String :=
  daysLoop dayNames ", " daysBitmap 7 0 ""

/-- Source: `getDaysStringLong`. -/
def getDaysStringLong (daysBitmap : Nat) : String :=
  if daysBitmap = DAY_ALL then "All Days"
  else if daysBitmap = DAY_WEEKDAYS then "Mon-Fri"
  else if daysBitmap = DAY_WEEKENDS then "Sat-Sun"
  else if daysBitmap = 0 then "No Days"
  else getDaysStringLongLoop daysBitmap

/-- The string the loop of `formatDaysCompact` builds: two-letter names,
separator ",". -/
def formatDaysCompactLoop (daysBitmap : Nat) : String :=
  daysLoop shortNames "," daysBitmap 7 0 ""

/-- Source: `formatDaysCompact`. -/
def formatDaysCompact (daysBitmap : Nat) : String :=
  if daysBitmap = DAY_ALL then "All Days"
  else if daysBitmap = DAY_WEEKDAYS then "Mo-Fr"
  else if daysBitmap = DAY_WEEKENDS then "Sa,Su"
  else if daysBitmap = 0 then "None"
  else formatDaysCompactLoop daysBitmap

/-! ## Idle timeout (`src/main.cpp`) -/

/-- Idle time after which the menu returns home, in ms (`MENU_TIMEOUT`). -/
abbrev MENU_TIMEOUT : Nat := 30000

/-- Rows of a scrolling list that fit on the screen (`MENU_ITEMS_PER_PAGE`). -/
abbrev MENU_ITEMS_PER_PAGE : Int := 8

/-- Source: `resetToMainScreen`; `ms` is the value `millis()` returns inside
it. -/
def resetToMainScreen (s : State) (ms : Nat) : State :=
  { s with
    menuNav :=
      { s.menuNav with
        currentMenu := MenuState.MENU_MAIN
        selectedIndex := 0
        scrollOffset := 0
        inEditMode := false
        editingHour := true
        daySelectIndex := 0
        needsRedraw := true
        needsFullRedraw := true
        lastDrawnIndex := -1
        tempIndex := -1
        lastActivity := ms }
    encoderPosition := 0 }

/-- Source: `checkMenuTimeout`; the result is the returned flag and the state
it leaves. -/
def checkMenuTimeout (s : State) (currentTime ms : Nat) : Bool × State :=
  if s.menuNav.currentMenu ≠ MenuState.MENU_MAIN ∧
      usub32 currentTime s.menuNav.lastActivity > MENU_TIMEOUT then
    (true, resetToMainScreen s ms)
  else (false, s)

/-! ## Menu registry (`include/MenuRegistry.h`, `src/MenuRegistry.cpp`) -/

/-- Length of `mainMenuItems` (`mainMenuCount`). -/
abbrev mainMenuCount : Int := 7

/-- Length of `schedulingMenuItems` (`schedulingMenuCount`). -/
abbrev schedulingMenuCount : Int := 3

/-- Length of `dosingScheduleMenu` (`dosingScheduleMenuCount`). -/
abbrev dosingScheduleMenuCount : Int := 5

/-- Length of `confirmYesNoMenu` (`confirmYesNoMenuCount`). -/
abbrev confirmYesNoMenuCount : Int := 2

/-- Length of `manualDosingMenu` (`manualDosingMenuCount`). -/
abbrev manualDosingMenuCount : Int := 4

/-- Length of `outletScheduleMenu` (`outletScheduleMenuCount`). -/
abbrev outletScheduleMenuCount : Int := 5

/-- Length of `pumpCalibrationMenu` (`pumpCalibrationMenuCount`). -/
abbrev pumpCalibrationMenuCount : Int := 5

/-- Length of `topupMenu` (`topupMenuCount`). -/
abbrev topupMenuCount : Int := 3

/-- Length of `replaceMenu` (`replaceMenuCount`). -/
abbrev replaceMenuCount : Int := 5

/-- The static item arrays a descriptor can point to. -/
inductive MenuItems where
  | mainMenuItems
  | schedulingMenuItems
  | dosingScheduleMenu
  | outletScheduleMenu
  | confirmYesNoMenu
  | manualDosingMenu
  | pumpCalibrationMenu
  | topupMenu
  | replaceMenu
  deriving DecidableEq, Repr

/-- The draw functions named in `MENUS` (`MenuDrawFn`); the two lambdas call
`drawConfirmDialog` with a title. -/
inductive MenuDrawFn where
  | drawMainMenu
  | drawDosingScheduleListScreen
  | drawScheduleEditorScreen
  | drawDaySelectionScreen
  | drawTimeSelectionScreen
  | drawAmountSelectionScreen
  | drawDosingDeleteListScreen
  | drawOutletScheduleListScreen
  | drawOutletEditorScreen
  | drawConfirmDialog (title : String)
  deriving DecidableEq, Repr

/-- The navigation functions named in `MENUS` (`MenuNavFn`). -/
inductive MenuNavFn where
  | handleDosingViewMenu
  | handleDosingAddMenu
  | handleDaySelectionMenu
  | handleConfirmMenu
  | handleCalibrateMenu
  | handleOutletViewMenu
  | handleOutletAddMenu
  | handleOutletDeleteMenu
  deriving DecidableEq, Repr

/-- The selection functions named in `MENUS` (`MenuSelectFn`). -/
inductive MenuSelectFn where
  | selectMainMenu
  | selectSchedulingMenu
  | selectDosingScheduleMenu
  | selectDosingViewMenu
  | selectManualDosingMenu
  | selectOutletScheduleMenu
  | selectOutletAddMenu
  | selectOutletAddSelectDaysMenu
  | selectOutletDeleteSelectMenu
  | selectOutletDeleteAllMenu
  | selectOutletDeleteConfirmMenu
  | selectOutletDeleteAllConfirmMenu
  | selectPumpCalibrationMenu
  | selectTopUpMenu
  | selectReplaceMenu
  deriving DecidableEq, Repr

/-- One menu descriptor (`struct MenuDef`); a null pointer is `none`. -/
structure MenuDef where
  title : String
  items : Option MenuItems
  itemCount : Int
  useScrolling : Bool
  drawFn : Option MenuDrawFn
  navFn : Option MenuNavFn
  selectFn : Option MenuSelectFn
  backMenu : MenuState
  deriving DecidableEq, Repr

/-- The initialiser `MENU_PLACEHOLDER(_title, _back)`. -/
def MENU_PLACEHOLDER (title : String) (back : MenuState) : MenuDef :=
  { title := title, items := none, itemCount := 0, useScrolling := false,
    drawFn := none, navFn := none, selectFn := none, backMenu := back }

/-- The table `MENUS[]`, entry by entry in the order of the source; the line
above each entry is the comment the source puts there. -/
def MENUS : List MenuDef :=
  [
    -- MENU_MAIN
    { title := "MAIN MENU", items := some MenuItems.mainMenuItems, itemCount := mainMenuCount, useScrolling := true,
      drawFn := some MenuDrawFn.drawMainMenu, navFn := none, selectFn := some MenuSelectFn.selectMainMenu,
      backMenu := MenuState.MENU_MAIN },
    -- MENU_SCHEDULING
    { title := "SCHEDULING", items := some MenuItems.schedulingMenuItems, itemCount := schedulingMenuCount, useScrolling := true,
      drawFn := none, navFn := none, selectFn := some MenuSelectFn.selectSchedulingMenu,
      backMenu := MenuState.MENU_MAIN },
    -- MENU_DOSING_SCHEDULE
    { title := "DOSING SCHEDULE", items := some MenuItems.dosingScheduleMenu, itemCount := dosingScheduleMenuCount, useScrolling := true,
      drawFn := none, navFn := none, selectFn := some MenuSelectFn.selectDosingScheduleMenu,
      backMenu := MenuState.MENU_SCHEDULING },
    -- MENU_DOSING_VIEW
    { title := "DOSING VIEW", items := none, itemCount := 0, useScrolling := false,
      drawFn := some MenuDrawFn.drawDosingScheduleListScreen, navFn := some MenuNavFn.handleDosingViewMenu, selectFn := some MenuSelectFn.selectDosingViewMenu,
      backMenu := MenuState.MENU_DOSING_SCHEDULE },
    -- MENU_DOSING_ADD (unified editor)
    { title := "DOSING ADD", items := none, itemCount := 0, useScrolling := false,
      drawFn := some MenuDrawFn.drawScheduleEditorScreen, navFn := some MenuNavFn.handleDosingAddMenu, selectFn := none,
      backMenu := MenuState.MENU_DOSING_SCHEDULE },
    -- MENU_DOSING_ADD_SELECT_DAYS (custom days UI)
    { title := "SELECT DAYS", items := none, itemCount := 0, useScrolling := false,
      drawFn := some MenuDrawFn.drawDaySelectionScreen, navFn := some MenuNavFn.handleDaySelectionMenu, selectFn := none,
      backMenu := MenuState.MENU_DOSING_ADD },
    -- MENU_DOSING_ADD_SET_TIME (custom time UI)
    { title := "SET TIME", items := none, itemCount := 0, useScrolling := false,
      drawFn := some MenuDrawFn.drawTimeSelectionScreen, navFn := none, selectFn := none,
      backMenu := MenuState.MENU_DOSING_ADD },
    -- MENU_DOSING_ADD_SET_AMOUNT (custom amount UI)
    { title := "SET AMOUNT", items := none, itemCount := 0, useScrolling := false,
      drawFn := some MenuDrawFn.drawAmountSelectionScreen, navFn := none, selectFn := none,
      backMenu := MenuState.MENU_DOSING_ADD },
    -- MENU_DOSING_DELETE (custom delete list)
    { title := "DOSING DELETE", items := none, itemCount := 0, useScrolling := false,
      drawFn := some MenuDrawFn.drawDosingDeleteListScreen, navFn := none, selectFn := none,
      backMenu := MenuState.MENU_DOSING_SCHEDULE },
    -- MENU_DOSING_DELETE_CONFIRM
    MENU_PLACEHOLDER "DELETE CONFIRM" MenuState.MENU_DOSING_DELETE,
    -- MENU_DOSING_DELETE_ALL
    MENU_PLACEHOLDER "DELETE ALL DOSING" MenuState.MENU_DOSING_SCHEDULE,
    -- MENU_OUTLET_SCHEDULE
    { title := "OUTLET SCHEDULE", items := some MenuItems.outletScheduleMenu, itemCount := outletScheduleMenuCount, useScrolling := true,
      drawFn := none, navFn := none, selectFn := some MenuSelectFn.selectOutletScheduleMenu,
      backMenu := MenuState.MENU_SCHEDULING },
    -- MENU_OUTLET_VIEW
    { title := "OUTLET VIEW", items := none, itemCount := 0, useScrolling := false,
      drawFn := some MenuDrawFn.drawOutletScheduleListScreen, navFn := some MenuNavFn.handleOutletViewMenu, selectFn := none,
      backMenu := MenuState.MENU_OUTLET_SCHEDULE },
    -- MENU_OUTLET_ADD
    { title := "OUTLET ADD", items := none, itemCount := 0, useScrolling := false,
      drawFn := some MenuDrawFn.drawOutletEditorScreen, navFn := some MenuNavFn.handleOutletAddMenu, selectFn := some MenuSelectFn.selectOutletAddMenu,
      backMenu := MenuState.MENU_OUTLET_SCHEDULE },
    -- MENU_OUTLET_ADD_SELECT_DAYS
    { title := "SELECT DAYS", items := none, itemCount := 0, useScrolling := false,
      drawFn := some MenuDrawFn.drawDaySelectionScreen, navFn := some MenuNavFn.handleDaySelectionMenu, selectFn := some MenuSelectFn.selectOutletAddSelectDaysMenu,
      backMenu := MenuState.MENU_OUTLET_ADD },
    -- MENU_OUTLET_ADD_SET_TIME (if you still use it; else placeholder)
    MENU_PLACEHOLDER "OUTLET SET TIME" MenuState.MENU_OUTLET_ADD,
    -- MENU_OUTLET_ADD_VALUES
    MENU_PLACEHOLDER "OUTLET VALUES" MenuState.MENU_OUTLET_ADD,
    -- MENU_OUTLET_ADD_CONFIRM
    MENU_PLACEHOLDER "OUTLET ADD CONFIRM" MenuState.MENU_OUTLET_ADD,
    -- MENU_OUTLET_DELETE (custom delete list, reuse outlet view renderer)
    { title := "OUTLET DELETE", items := none, itemCount := 0, useScrolling := false,
      drawFn := some MenuDrawFn.drawOutletScheduleListScreen, navFn := none, selectFn := none,
      backMenu := MenuState.MENU_OUTLET_SCHEDULE },
    -- MENU_OUTLET_DELETE_SELECT
    { title := "OUTLET DELETE SELECT", items := none, itemCount := 0, useScrolling := false,
      drawFn := some MenuDrawFn.drawOutletScheduleListScreen, navFn := some MenuNavFn.handleOutletDeleteMenu, selectFn := some MenuSelectFn.selectOutletDeleteSelectMenu,
      backMenu := MenuState.MENU_OUTLET_SCHEDULE },
    -- MENU_OUTLET_DELETE_ALL (Yes/No prompt)
    { title := "DELETE ALL OUTLET", items := some MenuItems.confirmYesNoMenu, itemCount := confirmYesNoMenuCount, useScrolling := false,
      drawFn := none, navFn := none, selectFn := some MenuSelectFn.selectOutletDeleteAllMenu,
      backMenu := MenuState.MENU_OUTLET_SCHEDULE },
    -- MENU_OUTLET_DELETE_CONFIRM
    { title := "DELETE OUTLET CONFIRM", items := none, itemCount := 0, useScrolling := false,
      drawFn := some (MenuDrawFn.drawConfirmDialog "DELETE OUTLET"), navFn := some MenuNavFn.handleConfirmMenu, selectFn := some MenuSelectFn.selectOutletDeleteConfirmMenu,
      backMenu := MenuState.MENU_OUTLET_SCHEDULE },
    -- MENU_OUTLET_DELETE_ALL_CONFIRM
    { title := "OUTLET DEL ALL CONF", items := none, itemCount := 0, useScrolling := false,
      drawFn := some (MenuDrawFn.drawConfirmDialog "DELETE ALL OUTLET"), navFn := some MenuNavFn.handleConfirmMenu, selectFn := some MenuSelectFn.selectOutletDeleteAllConfirmMenu,
      backMenu := MenuState.MENU_OUTLET_SCHEDULE },
    -- MENU_MANUAL_DOSING
    { title := "MANUAL DOSING", items := some MenuItems.manualDosingMenu, itemCount := manualDosingMenuCount, useScrolling := true,
      drawFn := none, navFn := none, selectFn := some MenuSelectFn.selectManualDosingMenu,
      backMenu := MenuState.MENU_MAIN },
    -- MENU_MANUAL_SELECT_PUMP
    MENU_PLACEHOLDER "MANUAL SELECT PUMP" MenuState.MENU_MANUAL_DOSING,
    -- MENU_MANUAL_SET_AMOUNT
    MENU_PLACEHOLDER "MANUAL SET AMOUNT" MenuState.MENU_MANUAL_SELECT_PUMP,
    -- MENU_MANUAL_CONFIRM
    MENU_PLACEHOLDER "MANUAL CONFIRM" MenuState.MENU_MANUAL_DOSING,
    -- MENU_PUMP_CALIBRATION
    { title := "PUMP CALIBRATION", items := some MenuItems.pumpCalibrationMenu, itemCount := pumpCalibrationMenuCount, useScrolling := true,
      drawFn := none, navFn := none, selectFn := some MenuSelectFn.selectPumpCalibrationMenu,
      backMenu := MenuState.MENU_MAIN },
    -- MENU_CALIBRATE_P1
    { title := "CAL P1", items := none, itemCount := 0, useScrolling := false,
      drawFn := none, navFn := some MenuNavFn.handleCalibrateMenu, selectFn := none,
      backMenu := MenuState.MENU_PUMP_CALIBRATION },
    -- MENU_CALIBRATE_P1_START
    MENU_PLACEHOLDER "CAL P1 START" MenuState.MENU_CALIBRATE_P1,
    -- MENU_CALIBRATE_P1_CONFIRM
    MENU_PLACEHOLDER "CAL P1 CONFIRM" MenuState.MENU_CALIBRATE_P1,
    -- MENU_CALIBRATE_P2
    { title := "CAL P2", items := none, itemCount := 0, useScrolling := false,
      drawFn := none, navFn := some MenuNavFn.handleCalibrateMenu, selectFn := none,
      backMenu := MenuState.MENU_PUMP_CALIBRATION },
    -- MENU_CALIBRATE_P2_START
    MENU_PLACEHOLDER "CAL P2 START" MenuState.MENU_CALIBRATE_P2,
    -- MENU_CALIBRATE_P2_CONFIRM
    MENU_PLACEHOLDER "CAL P2 CONFIRM" MenuState.MENU_CALIBRATE_P2,
    -- MENU_CALIBRATE_P3
    { title := "CAL P3", items := none, itemCount := 0, useScrolling := false,
      drawFn := none, navFn := some MenuNavFn.handleCalibrateMenu, selectFn := none,
      backMenu := MenuState.MENU_PUMP_CALIBRATION },
    -- MENU_CALIBRATE_P3_START
    MENU_PLACEHOLDER "CAL P3 START" MenuState.MENU_CALIBRATE_P3,
    -- MENU_CALIBRATE_P3_CONFIRM
    MENU_PLACEHOLDER "CAL P3 CONFIRM" MenuState.MENU_CALIBRATE_P3,
    -- MENU_CALIBRATE_P4
    { title := "CAL P4", items := none, itemCount := 0, useScrolling := false,
      drawFn := none, navFn := some MenuNavFn.handleCalibrateMenu, selectFn := none,
      backMenu := MenuState.MENU_PUMP_CALIBRATION },
    -- MENU_CALIBRATE_P4_START
    MENU_PLACEHOLDER "CAL P4 START" MenuState.MENU_CALIBRATE_P4,
    -- MENU_CALIBRATE_P4_CONFIRM
    MENU_PLACEHOLDER "CAL P4 CONFIRM" MenuState.MENU_CALIBRATE_P4,
    -- MENU_TOPUP_SOLUTION
    { title := "TOP-UP SOLUTION", items := some MenuItems.topupMenu, itemCount := topupMenuCount, useScrolling := true,
      drawFn := none, navFn := none, selectFn := some MenuSelectFn.selectTopUpMenu,
      backMenu := MenuState.MENU_MAIN },
    -- MENU_TOPUP_SET_AMOUNTS
    MENU_PLACEHOLDER "TOPUP AMOUNTS" MenuState.MENU_TOPUP_SOLUTION,
    -- MENU_TOPUP_AMOUNTS_CONFIRM
    MENU_PLACEHOLDER "TOPUP CONFIRM" MenuState.MENU_TOPUP_SET_AMOUNTS,
    -- MENU_TOPUP_SET_PUMP_PIN
    MENU_PLACEHOLDER "TOPUP PUMP PIN" MenuState.MENU_TOPUP_SOLUTION,
    -- MENU_TOPUP_PUMP_CONFIRM
    MENU_PLACEHOLDER "TOPUP PIN CONFIRM" MenuState.MENU_TOPUP_SET_PUMP_PIN,
    -- MENU_REPLACE_SOLUTION
    { title := "REPLACE SOLUTION", items := some MenuItems.replaceMenu, itemCount := replaceMenuCount, useScrolling := true,
      drawFn := none, navFn := none, selectFn := some MenuSelectFn.selectReplaceMenu,
      backMenu := MenuState.MENU_MAIN },
    -- MENU_REPLACE_SET_AMOUNTS
    MENU_PLACEHOLDER "REPLACE AMOUNTS" MenuState.MENU_REPLACE_SOLUTION,
    -- MENU_REPLACE_SET_DRAIN
    MENU_PLACEHOLDER "REPLACE DRAIN" MenuState.MENU_REPLACE_SOLUTION,
    -- MENU_REPLACE_SET_FILL
    MENU_PLACEHOLDER "REPLACE FILL" MenuState.MENU_REPLACE_SOLUTION,
    -- MENU_REPLACE_SET_SCHEDULE
    MENU_PLACEHOLDER "REPLACE SCHEDULE" MenuState.MENU_REPLACE_SOLUTION,
    -- MENU_REPLACE_CONFIRM
    MENU_PLACEHOLDER "REPLACE CONFIRM" MenuState.MENU_REPLACE_SOLUTION,
    -- MENU_RESET_WIFI
    MENU_PLACEHOLDER "RESET WIFI" MenuState.MENU_MAIN,
    -- MENU_RESET_WIFI_CONFIRM
    MENU_PLACEHOLDER "RESET WIFI CONFIRM" MenuState.MENU_MAIN,
    -- MENU_FACTORY_RESET
    MENU_PLACEHOLDER "FACTORY RESET" MenuState.MENU_MAIN,
    -- MENU_FACTORY_RESET_CONFIRM
    MENU_PLACEHOLDER "FACTORY RESET CONF" MenuState.MENU_MAIN
  ]

/-- The integer value of an enumerator of `enum MenuState`. -/
def MenuState.index (m : MenuState) : Nat := m.toCtorIdx

/-- The element `MENUS[m]` the dispatchers read. -/
def menuAt (m : MenuState) : Option MenuDef := MENUS.get? m.index

/-- Source: `defaultMenuNav`. -/
def defaultMenuNav (s : State) (m : MenuDef) : State :=
  if m.itemCount ≤ 0 then
    let s1 := clampEncoderPosition s 0 0
    { s1 with menuNav := { s1.menuNav with scrollOffset := 0 } }
  else
    let maxIndex : Int := m.itemCount - 1
    let s1 := clampEncoderPosition s 0 maxIndex
    if m.useScrolling then
      let s2 : State :=
        if s1.menuNav.selectedIndex < s1.menuNav.scrollOffset then
          { s1 with menuNav := { s1.menuNav with scrollOffset := s1.menuNav.selectedIndex } }
        else s1
      if s2.menuNav.selectedIndex ≥ s2.menuNav.scrollOffset + MENU_ITEMS_PER_PAGE then
        { s2 with
          menuNav :=
            { s2.menuNav with
              scrollOffset := s2.menuNav.selectedIndex - MENU_ITEMS_PER_PAGE + 1 } }
      else s2
    else { s1 with menuNav := { s1.menuNav with scrollOffset := 0 } }

/-- Source: `handleMenuSelectionLegacy`, branch `case MENU_MANUAL_DOSING`
(items 0 Select Pump, 1 Set Amount, 2 Start Dosing, 3 Cancel). -/
def legacyManualDosing (s : State) (ms : Nat) : State :=
  if s.menuNav.selectedIndex = 0 then
    navigateToMenu s MenuState.MENU_MANUAL_SELECT_PUMP 0 ms
  else if s.menuNav.selectedIndex = 1 then
    navigateToMenu s MenuState.MENU_MANUAL_SET_AMOUNT 0 ms
  else if s.menuNav.selectedIndex = 2 then s
  else if s.menuNav.selectedIndex = 3 then
    { s with
      menuNav :=
        { s.menuNav with
          currentMenu := MenuState.MENU_MAIN
          selectedIndex := 0
          scrollOffset := 0
          needsFullRedraw := true } }
  else s

/-! ## Navigation functions named in the registry (`src/main.cpp`) -/

/-- Length of `calibrateConfirmMenu` (`calibrateConfirmMenuCount`). -/
abbrev calibrateConfirmMenuCount : Int := 2

/-- Source: `handleDosingViewMenu`; `dosingViewLastPage` is its
`static int lastPage`. The division is C's, truncating toward zero. -/
def handleDosingViewMenu (s : State) : State :=
  let totalPages : Int := Int.tdiv (s.dosingScheduleCount + 6 - 1) 6
  let totalPages : Int := if totalPages > 4 then 4 else totalPages
  let totalPages : Int := if totalPages = 0 then 1 else totalPages
  let maxPage : Int := totalPages - 1
  let e1 : Int := if s.encoderPosition < 0 then 0 else s.encoderPosition
  let e2 : Int := if e1 > maxPage then maxPage else e1
  let s1 : State :=
    { s with
      encoderPosition := e2
      menuNav := { s.menuNav with currentPage := e2, selectedIndex := e2 } }
  if s1.dosingViewLastPage ≠ s1.menuNav.currentPage then
    { s1 with
      menuNav := { s1.menuNav with needsFullRedraw := true }
      dosingViewLastPage := s1.menuNav.currentPage }
  else s1

/-- Source: `handleOutletViewMenu`; `outletViewLastPage` is its
`static int lastPage`. -/
def handleOutletViewMenu (s : State) : State :=
  let totalPages : Int := Int.tdiv (s.outletScheduleCount + 6 - 1) 6
  let totalPages : Int := if totalPages > 4 then 4 else totalPages
  let totalPages : Int := if totalPages = 0 then 1 else totalPages
  let maxPage : Int := totalPages - 1
  let e1 : Int := if s.encoderPosition < 0 then 0 else s.encoderPosition
  let e2 : Int := if e1 > maxPage then maxPage else e1
  let s1 : State :=
    { s with
      encoderPosition := e2
      menuNav := { s.menuNav with currentPage := e2, selectedIndex := e2 } }
  if s1.outletViewLastPage ≠ s1.menuNav.currentPage then
    { s1 with
      menuNav := { s1.menuNav with needsFullRedraw := true }
      outletViewLastPage := s1.menuNav.currentPage }
  else s1

/-- Source: `handleDaySelectionMenu`. -/
def handleDaySelectionMenu (s : State) : State :=
  let e1 : Int := if s.encoderPosition < 0 then 0 else s.encoderPosition
  let e2 : Int := if e1 > 7 then 7 else e1
  { s with encoderPosition := e2, menuNav := { s.menuNav with daySelectIndex := toUInt8 e2 } }

/-- Source: `handleConfirmMenu`. -/
def handleConfirmMenu (s : State) : State :=
  clampEncoderPosition s 0 (confirmYesNoMenuCount - 1)

/-- Source: `handleCalibrateMenu`. -/
def handleCalibrateMenu (s : State) : State :=
  clampEncoderPosition s 0 (calibrateConfirmMenuCount - 1)

/-- Source: `handleOutletDeleteMenu`. -/
def handleOutletDeleteMenu (s : State) : State :=
  if s.outletScheduleCount = 0 then
    { s with
      encoderPosition := 0
      menuNav :=
        { s.menuNav with
          selectedIndex := 0, currentPage := 0, needsRedraw := true, needsFullRedraw := true } }
  else
    let maxIndex : Int := s.outletScheduleCount
    let s1 := clampEncoderPosition s 0 maxIndex
    let newPage : Int := Int.tdiv s1.menuNav.selectedIndex 6
    if newPage ≠ s1.menuNav.currentPage then
      { s1 with
        menuNav :=
          { s1.menuNav with
            currentPage := newPage, needsFullRedraw := true, needsRedraw := true
            lastDrawnIndex := -1 } }
    else { s1 with menuNav := { s1.menuNav with needsRedraw := true } }

/-- The call `m.navFn()` for each function the registry names. -/
def MenuNavFn.run : MenuNavFn → State → State
  | MenuNavFn.handleDosingViewMenu, s => Hydro.handleDosingViewMenu s
  | MenuNavFn.handleDosingAddMenu, s => Hydro.handleDosingAddMenu s
  | MenuNavFn.handleDaySelectionMenu, s => Hydro.handleDaySelectionMenu s
  | MenuNavFn.handleConfirmMenu, s => Hydro.handleConfirmMenu s
  | MenuNavFn.handleCalibrateMenu, s => Hydro.handleCalibrateMenu s
  | MenuNavFn.handleOutletViewMenu, s => Hydro.handleOutletViewMenu s
  | MenuNavFn.handleOutletAddMenu, s => Hydro.handleOutletAddMenu s
  | MenuNavFn.handleOutletDeleteMenu, s => Hydro.handleOutletDeleteMenu s

/-! ## Selection functions named in the registry (`src/main.cpp`) -/

/-- Source: `selectMainMenu`. -/
def selectMainMenu (s : State) (ms : Nat) : State :=
  if s.menuNav.selectedIndex = 0 then navigateToMenu s MenuState.MENU_SCHEDULING 0 ms
  else if s.menuNav.selectedIndex = 1 then navigateToMenu s MenuState.MENU_MANUAL_DOSING 0 ms
  else if s.menuNav.selectedIndex = 2 then navigateToMenu s MenuState.MENU_PUMP_CALIBRATION 0 ms
  else if s.menuNav.selectedIndex = 3 then navigateToMenu s MenuState.MENU_TOPUP_SOLUTION 0 ms
  else if s.menuNav.selectedIndex = 4 then navigateToMenu s MenuState.MENU_REPLACE_SOLUTION 0 ms
  else if s.menuNav.selectedIndex = 5 then navigateToMenu s MenuState.MENU_RESET_WIFI_CONFIRM 0 ms
  else if s.menuNav.selectedIndex = 6 then
    navigateToMenu s MenuState.MENU_FACTORY_RESET_CONFIRM 0 ms
  else s

/-- Source: `selectSchedulingMenu`. -/
def selectSchedulingMenu (s : State) (ms : Nat) : State :=
  if s.menuNav.selectedIndex = 0 then navigateToMenu s MenuState.MENU_DOSING_SCHEDULE 0 ms
  else if s.menuNav.selectedIndex = 1 then navigateToMenu s MenuState.MENU_OUTLET_SCHEDULE 0 ms
  else if s.menuNav.selectedIndex = 2 then navigateToMenu s MenuState.MENU_MAIN 0 ms
  else s

/-- Source: `selectDosingScheduleMenu`; item 1 (Add Schedule) seeds the
temporary record and the day-mask scratch before it opens the editor. -/
def selectDosingScheduleMenu (s : State) (ms : Nat) : State :=
  if s.menuNav.selectedIndex = 0 then navigateToMenu s MenuState.MENU_DOSING_VIEW 0 ms
  else if s.menuNav.selectedIndex = 1 then
    navigateToMenu
      { s with
        tempDosingSchedule :=
          { s.tempDosingSchedule with pumpNumber := 1, hour := 8, minute := 0, amountML := 10 }
        menuNav := { s.menuNav with tempDaysBitmap := 0 } }
      MenuState.MENU_DOSING_ADD 0 ms
  else if s.menuNav.selectedIndex = 2 then navigateToMenu s MenuState.MENU_DOSING_DELETE 0 ms
  else if s.menuNav.selectedIndex = 3 then navigateToMenu s MenuState.MENU_DOSING_DELETE_ALL 0 ms
  else if s.menuNav.selectedIndex = 4 then navigateToMenu s MenuState.MENU_SCHEDULING 0 ms
  else s

/-- Source: `selectDosingViewMenu`. -/
def selectDosingViewMenu (s : State) (ms : Nat) : State :=
  navigateToMenu s MenuState.MENU_DOSING_SCHEDULE 0 ms

/-- Source: `selectOutletAddSelectDaysMenu`. -/
def selectOutletAddSelectDaysMenu (s : State) (ms : Nat) : State :=
  let idx : Int := (s.menuNav.daySelectIndex : Int)
  if 0 ≤ idx ∧ idx < 7 then
    let bitmap := toggleDay s.menuNav.tempDaysBitmap s.menuNav.daySelectIndex
    { s with
      menuNav := { s.menuNav with tempDaysBitmap := bitmap, needsRedraw := true }
      tempOutletSchedule := { s.tempOutletSchedule with daysOfWeek := bitmap } }
  else if idx = 7 then navigateToMenu s MenuState.MENU_OUTLET_ADD 1 ms
  else s

/-- Source: `selectOutletScheduleMenu`; item 1 (Add Schedule) opens the outlet
editor as the temporary record stands. -/
def selectOutletScheduleMenu (s : State) (ms : Nat) : State :=
  if s.menuNav.selectedIndex = 0 then navigateToMenu s MenuState.MENU_OUTLET_VIEW 0 ms
  else if s.menuNav.selectedIndex = 1 then navigateToMenu s MenuState.MENU_OUTLET_ADD 0 ms
  else if s.menuNav.selectedIndex = 2 then
    navigateToMenu s MenuState.MENU_OUTLET_DELETE_SELECT 0 ms
  else if s.menuNav.selectedIndex = 3 then navigateToMenu s MenuState.MENU_OUTLET_DELETE_ALL 0 ms
  else if s.menuNav.selectedIndex = 4 then navigateToMenu s MenuState.MENU_SCHEDULING 0 ms
  else s

/-- Source: `selectOutletDeleteSelectMenu`. -/
def selectOutletDeleteSelectMenu (s : State) (ms : Nat) : State :=
  if s.outletScheduleCount = 0 then navigateToMenu s MenuState.MENU_OUTLET_SCHEDULE 0 ms
  else if s.menuNav.selectedIndex = s.outletScheduleCount then
    navigateToMenu s MenuState.MENU_OUTLET_SCHEDULE 0 ms
  else if s.menuNav.selectedIndex ≥ 0 ∧ s.menuNav.selectedIndex < s.outletScheduleCount then
    navigateToMenu
      { s with menuNav := { s.menuNav with tempIndex := s.menuNav.selectedIndex } }
      MenuState.MENU_OUTLET_DELETE_CONFIRM 0 ms
  else s

/-- Source: `selectOutletDeleteAllMenu`. -/
def selectOutletDeleteAllMenu (s : State) (ms : Nat) : State :=
  if s.menuNav.selectedIndex = 0 then
    navigateToMenu s MenuState.MENU_OUTLET_DELETE_ALL_CONFIRM 0 ms
  else if s.menuNav.selectedIndex = 1 then navigateToMenu s MenuState.MENU_OUTLET_SCHEDULE 0 ms
  else s

/-- Source: `selectOutletDeleteAllConfirmMenu`. -/
def selectOutletDeleteAllConfirmMenu (s : State) (ms : Nat) : State :=
  if s.menuNav.selectedIndex = 0 then
    navigateToMenu { s with outletScheduleCount := 0 } MenuState.MENU_OUTLET_SCHEDULE 0 ms
  else if s.menuNav.selectedIndex = 1 then navigateToMenu s MenuState.MENU_OUTLET_SCHEDULE 0 ms
  else s

/-- What a button handler leaves behind: it returns to `loop()` with a state,
or it indexes an array out of range (undefined behaviour), or it calls
`ESP.restart()`. -/
inductive Outcome where
  | next (s : State)
  | undefined
  | restart

/-- A handler result whose only failure is undefined behaviour. -/
def Outcome.ofOption : Option State → Outcome
  | some s => Outcome.next s
  | none => Outcome.undefined

/-- The state a handler returns with, if it returns. -/
def Outcome.state : Outcome → Option State
  | Outcome.next s => some s
  | _ => none

/-- The call `m.selectFn()` for each function the registry names;
`selectManualDosingMenu`, `selectPumpCalibrationMenu`, `selectTopUpMenu` and
`selectReplaceMenu` have empty bodies. -/
def MenuSelectFn.run : MenuSelectFn → State → Nat → Outcome
  | MenuSelectFn.selectMainMenu, s, ms => Outcome.next (Hydro.selectMainMenu s ms)
  | MenuSelectFn.selectSchedulingMenu, s, ms => Outcome.next (Hydro.selectSchedulingMenu s ms)
  | MenuSelectFn.selectDosingScheduleMenu, s, ms =>
    Outcome.next (Hydro.selectDosingScheduleMenu s ms)
  | MenuSelectFn.selectDosingViewMenu, s, ms => Outcome.next (Hydro.selectDosingViewMenu s ms)
  | MenuSelectFn.selectManualDosingMenu, s, _ => Outcome.next s
  | MenuSelectFn.selectOutletScheduleMenu, s, ms =>
    Outcome.next (Hydro.selectOutletScheduleMenu s ms)
  | MenuSelectFn.selectOutletAddMenu, s, ms => Outcome.ofOption (Hydro.selectOutletAddMenu s ms)
  | MenuSelectFn.selectOutletAddSelectDaysMenu, s, ms =>
    Outcome.next (Hydro.selectOutletAddSelectDaysMenu s ms)
  | MenuSelectFn.selectOutletDeleteSelectMenu, s, ms =>
    Outcome.next (Hydro.selectOutletDeleteSelectMenu s ms)
  | MenuSelectFn.selectOutletDeleteAllMenu, s, ms =>
    Outcome.next (Hydro.selectOutletDeleteAllMenu s ms)
  | MenuSelectFn.selectOutletDeleteConfirmMenu, s, ms =>
    Outcome.ofOption (Hydro.selectOutletDeleteConfirmMenu s ms)
  | MenuSelectFn.selectOutletDeleteAllConfirmMenu, s, ms =>
    Outcome.next (Hydro.selectOutletDeleteAllConfirmMenu s ms)
  | MenuSelectFn.selectPumpCalibrationMenu, s, _ => Outcome.next s
  | MenuSelectFn.selectTopUpMenu, s, _ => Outcome.next s
  | MenuSelectFn.selectReplaceMenu, s, _ => Outcome.next s

/-! ## The legacy selection switch and the dispatchers (`src/main.cpp`) -/

/-- Source: `handleMenuSelectionLegacy`, branch `case MENU_DOSING_DELETE_ALL`. -/
def legacyDosingDeleteAll (s : State) (ms : Nat) : State :=
  let s1 : State :=
    if s.menuNav.selectedIndex = 0 then
      { s with
        dosingSchedules := fun i =>
          if i < MAX_DOSING_SCHEDULES then { s.dosingSchedules i with enabled := false }
          else s.dosingSchedules i
        dosingScheduleCount := 0 }
    else s
  navigateToMenu s1 MenuState.MENU_DOSING_SCHEDULE 0 ms

/-- Source: `handleMenuSelectionLegacy`, branch `case MENU_DOSING_DELETE`: the
row under the cursor is remembered in `menuNav.tempPumpNumber` (a `uint8_t`)
and the confirm dialog is opened with the cursor on item 1. -/
def legacyDosingDelete (s : State) (ms : Nat) : State :=
  if s.dosingScheduleCount = 0 then navigateToMenu s MenuState.MENU_DOSING_SCHEDULE 0 ms
  else if s.menuNav.selectedIndex = s.dosingScheduleCount then
    navigateToMenu s MenuState.MENU_DOSING_SCHEDULE 0 ms
  else
    navigateToMenu
      { s with menuNav := { s.menuNav with tempPumpNumber := toUInt8 s.menuNav.selectedIndex } }
      MenuState.MENU_DOSING_DELETE_CONFIRM 1 ms

/-- Source: `handleMenuSelectionLegacy`, branch
`case MENU_DOSING_ADD_SELECT_DAYS`. -/
def legacyDosingAddSelectDays (s : State) (ms : Nat) : State :=
  let idx : Int := (s.menuNav.daySelectIndex : Int)
  if 0 ≤ idx ∧ idx < 7 then
    { s with
      menuNav :=
        { s.menuNav with
          tempDaysBitmap := toggleDay s.menuNav.tempDaysBitmap s.menuNav.daySelectIndex
          needsRedraw := true } }
  else if idx = 7 then navigateToMenu s MenuState.MENU_DOSING_ADD 1 ms
  else s

/-- Source: `handleMenuSelectionLegacy`, branch `case MENU_DOSING_ADD_SET_TIME`. -/
def legacyDosingAddSetTime (s : State) (ms : Nat) : State :=
  if s.menuNav.editingHour then
    { s with menuNav := { s.menuNav with editingHour := false, needsRedraw := true } }
  else
    navigateToMenu { s with menuNav := { s.menuNav with editingHour := true } }
      MenuState.MENU_DOSING_ADD 2 ms

/-- Source: `handleMenuSelectionLegacy`, branch `case MENU_OUTLET_SCHEDULE`. -/
def legacyOutletSchedule (s : State) (ms : Nat) : State :=
  if s.menuNav.selectedIndex = 0 then navigateToMenu s MenuState.MENU_OUTLET_ADD 0 ms
  else if s.menuNav.selectedIndex = 1 then
    navigateToMenu s MenuState.MENU_OUTLET_DELETE_SELECT 0 ms
  else if s.menuNav.selectedIndex = 2 then navigateToMenu s MenuState.MENU_OUTLET_DELETE_ALL 0 ms
  else if s.menuNav.selectedIndex = 3 then navigateToMenu s MenuState.MENU_SCHEDULING 0 ms
  else s

/-- Source: `handleMenuSelectionLegacy`, branch `case MENU_OUTLET_DELETE_ALL`. -/
def legacyOutletDeleteAll (s : State) (ms : Nat) : State :=
  let s1 : State :=
    if s.menuNav.selectedIndex = 0 then
      { s with
        outletSchedules := fun i =>
          if i < MAX_OUTLET_SCHEDULES then { s.outletSchedules i with enabled := false }
          else s.outletSchedules i
        outletScheduleCount := 0 }
    else s
  navigateToMenu s1 MenuState.MENU_OUTLET_SCHEDULE 0 ms

/-- Source: `handleMenuSelectionLegacy`, branch `case MENU_PUMP_CALIBRATION`;
the statements after the `break` of item 2 are never run. -/
def legacyPumpCalibration (s : State) (ms : Nat) : State :=
  let s1 : State :=
    { s with menuNav := { s.menuNav with tempPumpNumber := toUInt8 (s.menuNav.selectedIndex + 1) } }
  if s1.menuNav.selectedIndex = 0 then navigateToMenu s1 MenuState.MENU_CALIBRATE_P1 0 ms
  else if s1.menuNav.selectedIndex = 1 then navigateToMenu s1 MenuState.MENU_CALIBRATE_P2 0 ms
  else if s1.menuNav.selectedIndex = 2 then navigateToMenu s1 MenuState.MENU_CALIBRATE_P3 0 ms
  else if s1.menuNav.selectedIndex = 3 then
    navigateToMenu { s1 with menuNav := { s1.menuNav with tempPumpNumber := 4 } }
      MenuState.MENU_CALIBRATE_P4 0 ms
  else if s1.menuNav.selectedIndex = 4 then navigateToMenu s1 MenuState.MENU_MAIN 0 ms
  else s1

/-- Source: `handleMenuSelectionLegacy`, the shared branch of
`MENU_CALIBRATE_P1` to `MENU_CALIBRATE_P4`. -/
def legacyCalibrate (s : State) (ms : Nat) : State :=
  if s.menuNav.selectedIndex = 0 then
    { s with menuNav := { s.menuNav with isCalibrating := true } }
  else navigateToMenu s MenuState.MENU_PUMP_CALIBRATION 0 ms

/-- Source: `handleMenuSelectionLegacy`, branch `case MENU_TOPUP_SOLUTION`. -/
def legacyTopUp (s : State) (ms : Nat) : State :=
  if s.menuNav.selectedIndex = 0 then navigateToMenu s MenuState.MENU_TOPUP_SET_AMOUNTS 0 ms
  else if s.menuNav.selectedIndex = 1 then navigateToMenu s MenuState.MENU_TOPUP_SET_PUMP_PIN 0 ms
  else if s.menuNav.selectedIndex = 2 then navigateToMenu s MenuState.MENU_MAIN 0 ms
  else s

/-- Source: `handleMenuSelectionLegacy`, branch `case MENU_REPLACE_SOLUTION`. -/
def legacyReplace (s : State) (ms : Nat) : State :=
  if s.menuNav.selectedIndex = 0 then navigateToMenu s MenuState.MENU_REPLACE_SET_AMOUNTS 0 ms
  else if s.menuNav.selectedIndex = 1 then navigateToMenu s MenuState.MENU_REPLACE_SET_DRAIN 0 ms
  else if s.menuNav.selectedIndex = 2 then navigateToMenu s MenuState.MENU_REPLACE_SET_FILL 0 ms
  else if s.menuNav.selectedIndex = 3 then
    navigateToMenu s MenuState.MENU_REPLACE_SET_SCHEDULE 0 ms
  else if s.menuNav.selectedIndex = 4 then navigateToMenu s MenuState.MENU_MAIN 0 ms
  else s

/-- Source: `handleMenuSelectionLegacy`, the switch on `menuNav.currentMenu`.
The branches of `MENU_MAIN`, `MENU_SCHEDULING` and `MENU_DOSING_SCHEDULE`
repeat the statements of `selectMainMenu`, `selectSchedulingMenu` and
`selectDosingScheduleMenu`. The writes to flash storage and to the display
are outside the state. -/
def handleMenuSelectionLegacy (s : State) (ms : Nat) : Outcome :=
  match s.menuNav.currentMenu with
  | MenuState.MENU_MAIN => Outcome.next (selectMainMenu s ms)
  | MenuState.MENU_SCHEDULING => Outcome.next (selectSchedulingMenu s ms)
  | MenuState.MENU_DOSING_SCHEDULE => Outcome.next (selectDosingScheduleMenu s ms)
  | MenuState.MENU_DOSING_VIEW =>
    Outcome.next (navigateToMenu s MenuState.MENU_DOSING_SCHEDULE 0 ms)
  | MenuState.MENU_OUTLET_VIEW =>
    Outcome.next (navigateToMenu s MenuState.MENU_OUTLET_SCHEDULE 0 ms)
  | MenuState.MENU_DOSING_DELETE_ALL => Outcome.next (legacyDosingDeleteAll s ms)
  | MenuState.MENU_DOSING_DELETE => Outcome.next (legacyDosingDelete s ms)
  | MenuState.MENU_DOSING_DELETE_CONFIRM => Outcome.ofOption (legacyDosingDeleteConfirm s ms)
  | MenuState.MENU_DOSING_ADD => Outcome.ofOption (legacyDosingAdd s ms)
  | MenuState.MENU_DOSING_ADD_SELECT_DAYS => Outcome.next (legacyDosingAddSelectDays s ms)
  | MenuState.MENU_DOSING_ADD_SET_TIME => Outcome.next (legacyDosingAddSetTime s ms)
  | MenuState.MENU_DOSING_ADD_SET_AMOUNT =>
    Outcome.next (navigateToMenu s MenuState.MENU_DOSING_ADD 3 ms)
  | MenuState.MENU_MANUAL_DOSING => Outcome.next (legacyManualDosing s ms)
  | MenuState.MENU_OUTLET_SCHEDULE => Outcome.next (legacyOutletSchedule s ms)
  | MenuState.MENU_OUTLET_DELETE_ALL => Outcome.next (legacyOutletDeleteAll s ms)
  | MenuState.MENU_PUMP_CALIBRATION => Outcome.next (legacyPumpCalibration s ms)
  | MenuState.MENU_CALIBRATE_P1 => Outcome.next (legacyCalibrate s ms)
  | MenuState.MENU_CALIBRATE_P2 => Outcome.next (legacyCalibrate s ms)
  | MenuState.MENU_CALIBRATE_P3 => Outcome.next (legacyCalibrate s ms)
  | MenuState.MENU_CALIBRATE_P4 => Outcome.next (legacyCalibrate s ms)
  | MenuState.MENU_TOPUP_SOLUTION => Outcome.next (legacyTopUp s ms)
  | MenuState.MENU_REPLACE_SOLUTION => Outcome.next (legacyReplace s ms)
  | MenuState.MENU_RESET_WIFI_CONFIRM =>
    if s.menuNav.selectedIndex = 0 then Outcome.restart
    else
      let s1 := navigateToMenu s MenuState.MENU_MAIN 0 ms
      Outcome.next { s1 with menuNav := { s1.menuNav with needsFullRedraw := true } }
  | MenuState.MENU_FACTORY_RESET_CONFIRM =>
    if s.menuNav.selectedIndex = 0 then Outcome.restart
    else Outcome.next (navigateToMenu s MenuState.MENU_MAIN 0 ms)
  | _ => Outcome.next s

/-- Source: `handleMenuSelection`: the registered selection function of
`MENUS[currentMenu]`, or the legacy switch when the entry has none. -/
def handleMenuSelection (s : State) (ms : Nat) : Outcome :=
  match menuAt s.menuNav.currentMenu with
  | none => Outcome.undefined
  | some m =>
    match m.selectFn with
    | some f => f.run s ms
    | none => handleMenuSelectionLegacy s ms

/-- First block of `handleMenuNavigation`: a moved encoder refreshes the
activity time; `navLastEncoderPos` is the `static int lastEncoderPos`. -/
def noteEncoderActivity (s : State) (ms : Nat) : State :=
  if s.encoderPosition ≠ s.navLastEncoderPos then
    { s with
      menuNav := { s.menuNav with lastActivity := ms, needsRedraw := true }
      navLastEncoderPos := s.encoderPosition }
  else s

/-- Second block of `handleMenuNavigation`: the navigation function of
`MENUS[currentMenu]`, or `defaultMenuNav` when the entry has none. -/
def dispatchNav (s : State) : Option State :=
  match menuAt s.menuNav.currentMenu with
  | none => none
  | some m =>
    match m.navFn with
    | some f => some (f.run s)
    | none => some (defaultMenuNav s m)

/-- Third block of `handleMenuNavigation`: a pending button press is consumed
and dispatched. -/
def dispatchButton (s : State) (ms : Nat) : Outcome :=
  if s.hardware.encoderButton then
    let s1 : State :=
      { s with
        hardware := { s.hardware with encoderButton := false }
        menuNav := { s.menuNav with lastActivity := ms } }
    match handleMenuSelection s1 ms with
    | Outcome.next s2 =>
      Outcome.next { s2 with menuNav := { s2.menuNav with needsFullRedraw := true } }
    | o => o
  else Outcome.next s

/-- Source: `handleMenuNavigation`; `ms` is the value of `millis()` during the
call (it only feeds `lastActivity`). -/
def handleMenuNavigation (s : State) (ms : Nat) : Outcome :=
  match dispatchNav (noteEncoderActivity s ms) with
  | none => Outcome.undefined
  | some s1 => dispatchButton s1 ms

/-! ## Encoder input (`src/main.cpp`) -/

/-- The net effect of `encoderISR` over a rotation of `steps` detents
(negative for counter-clockwise): each detent adds or subtracts 1. -/
def turnEncoder (s : State) (steps : Int) : State :=
  { s with encoderPosition := s.encoderPosition + steps }

/-- The effect of `updateEncoder` (`src/Hardware.cpp`) on the menu state when
it detects a debounced press: the button flag is raised. -/
def buttonPressed (s : State) : State :=
  { s with hardware := { s.hardware with encoderButton := true } }

/-! ## Boot and front-panel traces -/

/-- Source: `initMenuSystem` run with nothing stored in flash: every schedule
slot is disabled, the pump calibrations get their defaults, and
`loadSchedulesFromStorage` reads both counts as 0 and leaves the arrays. -/
def initMenuSystem (s : State) : State :=
  { s with
    dosingSchedules := fun i =>
      if i < MAX_DOSING_SCHEDULES then { s.dosingSchedules i with enabled := false }
      else s.dosingSchedules i
    outletSchedules := fun i =>
      if i < MAX_OUTLET_SCHEDULES then { s.outletSchedules i with enabled := false }
      else s.outletSchedules i
    pumpCalibrations := fun i =>
      if i < 4 then
        { s.pumpCalibrations i with pwmSpeed := 50, timeMs := 1000, mlPerSecond := F32.fin 1 }
      else s.pumpCalibrations i
    dosingScheduleCount := 0
    outletScheduleCount := 0 }

/-- The menu state `setup()` hands to `loop()` on a device with nothing
stored: the initial values of the globals (zero-initialised records, the
member initialisers of `MenuNavigationState`), `initMenuSystem`, and the
activity time set to `millis()` = `ms`. -/
def bootState (ms : Nat) : State :=
  let s := initMenuSystem {}
  { s with
    menuNav := { s.menuNav with lastActivity := ms, needsFullRedraw := true, needsRedraw := true } }

/-- What happens at the front panel between two looks at the state: the
encoder is turned by some detents, or `loop()` makes one pass through
`updateEncoder` and `handleMenuNavigation` (with or without a press detected,
`millis()` reading `ms`). -/
inductive UiEvent where
  | turn (steps : Int)
  | pass (pressed : Bool) (ms : Nat)

/-- The effect of one front-panel event. -/
def UiEvent.run : UiEvent → State → Outcome
  | UiEvent.turn k, s => Outcome.next (turnEncoder s k)
  | UiEvent.pass pressed ms, s =>
    handleMenuNavigation (if pressed then buttonPressed s else s) ms

/-- The effect of a sequence of front-panel events; it ends early when a
handler does not return. -/
def runUi : State → List UiEvent → Outcome
  | s, [] => Outcome.next s
  | s, e :: es =>
    match e.run s with
    | Outcome.next s1 => runUi s1 es
    | o => o

/-- The effect of a sequence of front-panel events that all happen inside the
menu `menu`: an event is only run while `currentMenu` is `menu` (the last one
may leave it); `none` when the menu was left earlier or a handler did not
return. -/
def runUiIn (menu : MenuState) : State → List UiEvent → Option State
  | s, [] => some s
  | s, e :: es =>
    if s.menuNav.currentMenu = menu then
      match e.run s with
      | Outcome.next s1 => runUiIn menu s1 es
      | _ => none
    else none

/-- What the handlers of the dosing editor keep true of the temporary record
and the scratch: pump 1..4, hour at most 23, minute at most 59, amount at most
5000 tenths of a millilitre, day mask within the seven day bits, and while
the Days row is being edited the day cursor on one of Su..Sa or DONE. -/
def DosingEditorInv (s : State) : Prop :=
  1 ≤ s.tempDosingSchedule.pumpNumber ∧ s.tempDosingSchedule.pumpNumber ≤ 4 ∧
  s.tempDosingSchedule.hour ≤ 23 ∧ s.tempDosingSchedule.minute ≤ 59 ∧
  s.tempDosingSchedule.amountML ≤ 5000 ∧ s.menuNav.tempDaysBitmap ≤ 127 ∧
  (s.menuNav.inEditMode = true → s.menuNav.selectedIndex = 1 →
    s.menuNav.daySelectIndex ≤ 7)

/-- One operation of the button handlers on the dosing store: Save of the
dosing editor entered with the temporary record `temp` and the day-mask
scratch `mask`, Yes of the delete dialog entered with the remembered row
`idx`, or Yes of the Delete All dialog; `ms` is the `millis()` reading. -/
inductive StoreCall where
  | save (temp : DosingSchedule) (mask : Nat) (ms : Nat)
  | deleteConfirm (idx : Nat) (ms : Nat)
  | deleteAll (ms : Nat)

/-- The effect of one store operation: the handler of the legacy switch, run
with the cursor on the item and the inputs the operation names. -/
def StoreCall.run (s : State) : StoreCall → Option State
  | StoreCall.save temp mask ms =>
    legacyDosingAdd
      { s with
        tempDosingSchedule := temp
        menuNav := { s.menuNav with selectedIndex := 4, tempDaysBitmap := mask } } ms
  | StoreCall.deleteConfirm idx ms =>
    legacyDosingDeleteConfirm
      { s with menuNav := { s.menuNav with selectedIndex := 0, tempPumpNumber := idx } } ms
  | StoreCall.deleteAll ms =>
    some (legacyDosingDeleteAll { s with menuNav := { s.menuNav with selectedIndex := 0 } } ms)

/-- The effect of a sequence of store operations, left to right. -/
def runStore (s : State) : List StoreCall → Option State
  | [] => some s
  | c :: cs =>
    match c.run s with
    | none => none
    | some s1 => runStore s1 cs

/-! ## Example states -/

/-- An Idle engine after boot whose slot 0 holds the only enabled schedule:
pump 1, every day, 08:00, 10.0 mL, with every pump calibrated at 2.0 mL/s and
50 percent duty. -/
def demoIdle : State :=
  { dosingSchedules := fun j =>
      if j = 0 then
        { pumpNumber := 1, daysOfWeek := 127, hour := 8, minute := 0,
          amountML := 100, enabled := true }
      else {}
    pumpCalibrations := fun _ => { pwmSpeed := 50, mlPerSecond := F32.fin 2 } }

/-- The state `startDosing demoIdle 0 120000` leaves: pump 1 running for
5000 ms from time 120000. -/
def demoRunning : State :=
  { setPumpSpeed
      { demoIdle with activeDosing :=
          { state := DosingState.DOSING_RUNNING
            activePump := 1
            startTime := 120000
            runDuration := 5000
            targetML := 100
            scheduleIndex := 0 } }
      1 50 with
    lastDosingExecution := Function.update demoIdle.lastDosingExecution 0 120000 }

/-- Three stored dosing schedules (hours 1, 2, 3) and three stored outlet
schedules (relays 1, 2, 3), with a delete dialog on Yes for entry 1. -/
def demoStores : State :=
  { dosingSchedules := fun j =>
      { pumpNumber := 1, daysOfWeek := 127, hour := j + 1, enabled := decide (j < 3) }
    dosingScheduleCount := 3
    outletSchedules := fun j =>
      { relayNumber := j + 1, daysOfWeek := 127, enabled := decide (j < 3) }
    outletScheduleCount := 3
    menuNav := { selectedIndex := 0, tempPumpNumber := 1, tempIndex := 1 } }

/-- The dosing editor on Save with day mask `mask`, `count` stored schedules
and the temporary record the Add entry seeds (pump 1, 08:00, 1.0 mL). -/
def demoDosingSave (mask : Nat) (count : Int) : State :=
  { menuNav :=
      { currentMenu := MenuState.MENU_DOSING_ADD, selectedIndex := 4, tempDaysBitmap := mask }
    tempDosingSchedule := { pumpNumber := 1, hour := 8, minute := 0, amountML := 10 }
    dosingScheduleCount := count }

/-- The outlet editor on Save with day mask `mask` and `count` stored
schedules. -/
def demoOutletSave (mask : Nat) (count : Int) : State :=
  { menuNav :=
      { currentMenu := MenuState.MENU_OUTLET_ADD, selectedIndex := 5, tempDaysBitmap := mask }
    tempOutletSchedule := { relayNumber := 1, hourOn := 6, hourOff := 22 }
    outletScheduleCount := count }

/-- The dosing editor in edit mode on the Amount field, with amount `a`, the
inline reference at 0 and the encoder at `d`. -/
def demoAmountEdit (a : Nat) (d : Int) : State :=
  { menuNav :=
      { currentMenu := MenuState.MENU_DOSING_ADD, selectedIndex := 3, inEditMode := true,
        editValue := 0 }
    tempDosingSchedule := { pumpNumber := 1, hour := 8, amountML := a }
    encoderPosition := d }

/-- The outlet editor in edit mode on the Relay field, with relay number `r`,
the last seen encoder position 0 and the encoder at `d`. -/
def demoRelayEdit (r : Nat) (d : Int) : State :=
  { menuNav :=
      { currentMenu := MenuState.MENU_OUTLET_ADD, selectedIndex := 0, inEditMode := true }
    tempOutletSchedule := { relayNumber := r }
    encoderPosition := d
    outletAddLastPos := 0 }

/-- The dosing editor left alone while editing the Days field: day mask
`mask` in the scratch, cursor on field 1, encoder at 3, last activity at
1000 ms. -/
def demoIdleEditor (mask : Nat) : State :=
  { menuNav :=
      { currentMenu := MenuState.MENU_DOSING_ADD, selectedIndex := 1, scrollOffset := 0,
        inEditMode := true, lastActivity := 1000, tempDaysBitmap := mask, daySelectIndex := 3 }
    encoderPosition := 3 }

/-- The manual dosing menu with the cursor on Cancel (item 3), the encoder at
3 and the redraw flags clear. -/
def demoManualCancel : State :=
  { menuNav :=
      { currentMenu := MenuState.MENU_MANUAL_DOSING, selectedIndex := 3, scrollOffset := 0,
        needsRedraw := false, needsFullRedraw := false }
    encoderPosition := 3 }

/-- A list menu scrolled to offset `offset` with the encoder at `pos`. -/
def demoList (pos offset : Int) : State :=
  { menuNav := { currentMenu := MenuState.MENU_MAIN, scrollOffset := offset }
    encoderPosition := pos }

/-- The dosing editor as `navigateToMenu(MENU_DOSING_ADD, 0)` and the seeding
of Add Schedule leave it (pump 1, 08:00, amount 10, inline reference 0), with
the cursor moved to field `f`: encoder and selected index both at `f`, not in
edit mode. -/
def demoDosingField (f : Int) : State :=
  { menuNav :=
      { currentMenu := MenuState.MENU_DOSING_ADD, selectedIndex := f, inEditMode := false,
        editValue := 0, tempDaysBitmap := 0 }
    tempDosingSchedule := { pumpNumber := 1, hour := 8, minute := 0, amountML := 10 }
    encoderPosition := f }

/-- The outlet editor with the cursor on the Relay field (field 0, encoder at
0, last seen position 0), relay number `r`, not in edit mode. -/
def demoOutletRelayField (r : Nat) : State :=
  { menuNav :=
      { currentMenu := MenuState.MENU_OUTLET_ADD, selectedIndex := 0, inEditMode := false }
    tempOutletSchedule := { relayNumber := r, hourOn := 6, hourOff := 22 }
    encoderPosition := 0
    outletAddLastPos := 0 }

/-- The dosing editor in edit mode on field `f` (hour phase when `hourPhase`),
with pump 1, time 08:00, the inline reference at 0 and the encoder at `d`. -/
def demoDosingEdit (f : Int) (hourPhase : Bool) (d : Int) : State :=
  { menuNav :=
      { currentMenu := MenuState.MENU_DOSING_ADD, selectedIndex := f, inEditMode := true,
        editValue := 0, editingHour := hourPhase }
    tempDosingSchedule := { pumpNumber := 1, hour := 8, minute := 0, amountML := 10 }
    encoderPosition := d }

/-- A button press on field `f` of the dosing editor of `demoDosingField`
followed by one navigation tick, the encoder untouched in between. -/
def demoEnterThenTick (f : Int) : Option State :=
  (legacyDosingAdd (demoDosingField f) 0).map handleDosingAddMenu

/-- A button press on the Relay field of the outlet editor of
`demoOutletRelayField` followed by one navigation tick, the encoder untouched
in between. -/
def demoOutletEnterThenTick (r : Nat) : Option State :=
  (selectOutletAddMenu (demoOutletRelayField r) 0).map handleOutletAddMenu

/-- An edit of field `f` of the dosing editor of `demoDosingField`: the press
that enters edit mode, a rotation of `r` detents, a navigation tick, then
`presses` further button presses, then one more navigation tick with the
encoder untouched since the last press. -/
def demoEditSession (f r : Int) (presses : Nat) : Option State :=
  let edited : Option State :=
    (legacyDosingAdd (demoDosingField f) 0).map fun s => handleDosingAddMenu (turnEncoder s r)
  let pressed : Option State :=
    Nat.iterate (fun o : Option State => o.bind fun s => legacyDosingAdd s 0) presses edited
  pressed.map handleDosingAddMenu

/-- The outlet editor in edit mode on the Interval field with interval mode
on: unit sub-phase when `unitPhase`, the unit flag `isHours`, the value
`value`, the last seen encoder position 0 and the encoder at `d`. -/
def demoIntervalEdit (unitPhase isHours : Bool) (value : Nat) (d : Int) : State :=
  { menuNav :=
      { currentMenu := MenuState.MENU_OUTLET_ADD, selectedIndex := 2, inEditMode := true,
        editingHour := unitPhase, outletIntervalIsHours := isHours,
        outletIntervalValue := value }
    tempOutletSchedule := { relayNumber := 1, isInterval := true, intervalMinutes := 30 }
    encoderPosition := d
    outletAddLastPos := 0 }

/-- The outlet editor in interval mode with the cursor on row `row` (3 is
Time ON, 4 is Time OFF), times 06:30 to 22:15, in edit mode when `editing`,
the last seen encoder position 0 and the encoder at `d`. -/
def demoIntervalRow (row : Int) (editing : Bool) (d : Int) : State :=
  { menuNav :=
      { currentMenu := MenuState.MENU_OUTLET_ADD, selectedIndex := row, inEditMode := editing }
    tempOutletSchedule :=
      { relayNumber := 2, hourOn := 6, minuteOn := 30, hourOff := 22, minuteOff := 15,
        isInterval := true, intervalMinutes := 45 }
    encoderPosition := d
    outletAddLastPos := 0 }

/-- A dose started 296 ms before the 32-bit millisecond counter rolls over:
pump 1 at 50 percent for 5000 ms from time 4294967000. -/
def demoRollover : State :=
  { activeDosing :=
      { state := DosingState.DOSING_RUNNING, activePump := 1, startTime := 4294967000,
        runDuration := 5000 }
    hardware := { pump1Speed := 50 } }

/-- The dosing delete list with two stored schedules (pump 1 daily at 08:00,
pump 2 on weekdays at 09:30), the cursor on row 0 and the encoder at `pos`. -/
def demoDeleteList (pos : Int) : State :=
  { menuNav :=
      { currentMenu := MenuState.MENU_DOSING_DELETE, selectedIndex := 0,
        needsRedraw := false, needsFullRedraw := false }
    dosingSchedules := fun j =>
      if j = 0 then
        { pumpNumber := 1, daysOfWeek := 127, hour := 8, minute := 0, amountML := 100,
          enabled := true }
      else if j = 1 then
        { pumpNumber := 2, daysOfWeek := 62, hour := 9, minute := 30, amountML := 50,
          enabled := true }
      else {}
    dosingScheduleCount := 2
    encoderPosition := pos
    navLastEncoderPos := pos }

/-- From boot to the dialog that `MENU_OUTLET_DELETE_ALL_CONFIRM` shows, with
nothing stored: Scheduling, Outlet Schedule, Delete All, Yes. -/
def demoDeleteAllPath : List UiEvent :=
  [UiEvent.pass true 100,
   UiEvent.turn 1, UiEvent.pass true 200,
   UiEvent.turn 3, UiEvent.pass true 300,
   UiEvent.pass true 400]

/-- From boot into the outlet editor through Add Schedule of the outlet
schedule menu: Scheduling, Outlet Schedule, Add Schedule. -/
def demoOutletAddPath : List UiEvent :=
  [UiEvent.pass true 100,
   UiEvent.turn 1, UiEvent.pass true 200,
   UiEvent.turn 1, UiEvent.pass true 300]

/-- A first session of the interval editor after `demoOutletAddPath`: cursor
to the Interval row and press (interval mode on, unit sub-phase), one pass,
one detent and press (value sub-phase, unit minutes), 58 detents and press
(commit of 59 minutes). -/
def demoIntervalFirstSession : List UiEvent :=
  [UiEvent.turn 2, UiEvent.pass true 400,
   UiEvent.pass false 450,
   UiEvent.turn 1, UiEvent.pass true 500,
   UiEvent.turn 58, UiEvent.pass true 600]

/-- A second session with the encoder left alone: four presses in four
passes (interval mode off, on again, to the value sub-phase, commit). -/
def demoIntervalSecondSession : List UiEvent :=
  [UiEvent.pass true 700, UiEvent.pass true 800, UiEvent.pass true 900, UiEvent.pass true 1000]

/-- After `demoOutletAddPath`: cursor to the Days row and press (Days edit
mode, the day cursor on Sunday, the encoder set to 0). -/
def demoDaysEnter : List UiEvent := [UiEvent.turn 1, UiEvent.pass true 400]

/-- One detent forward, which makes up for the encoder reset, and a press on
Sunday. -/
def demoDaysToggle : List UiEvent := [UiEvent.turn 1, UiEvent.pass true 500]

/-- One detent back, which wraps the day cursor to DONE, and a press. -/
def demoDaysDone : List UiEvent := [UiEvent.turn (-1), UiEvent.pass true 600]

/-- Four detents forward to the Save row and a press. -/
def demoSavePress : List UiEvent := [UiEvent.turn 4, UiEvent.pass true 700]

/-- The outlet editor reached from boot with the cursor on the Days row, the
temporary record never written except for its day mask: in edit mode when
`editing`, day cursor `dsi`, day mask `mask`, encoder at `enc`, the positions
last seen by `handleOutletAddMenu` and `handleMenuNavigation` at `lastPos`,
last activity at `ms`. -/
def demoOutletDays (editing : Bool) (dsi mask : Nat) (enc lastPos : Int) (ms : Nat) : State :=
  { bootState 0 with
    menuNav :=
      { (bootState 0).menuNav with
        currentMenu := MenuState.MENU_OUTLET_ADD, selectedIndex := 1, inEditMode := editing,
        lastActivity := ms, tempDaysBitmap := mask, daySelectIndex := dsi }
    tempOutletSchedule := { daysOfWeek := mask }
    encoderPosition := enc
    outletAddLastPos := lastPos
    navLastEncoderPos := lastPos }

/-- A weekday schedule for pump 2 at 09:30, 5.0 mL. -/
def demoRecord : DosingSchedule :=
  { pumpNumber := 2, daysOfWeek := 0, hour := 9, minute := 30, amountML := 50 }

/-- Two saves, the delete of row 0, a third save, Delete All and a fourth
save. -/
def demoStoreCalls : List StoreCall :=
  [StoreCall.save demoRecord 62 0, StoreCall.save demoRecord 65 10,
   StoreCall.deleteConfirm 0 20, StoreCall.save demoRecord 127 30,
   StoreCall.deleteAll 40, StoreCall.save demoRecord 1 50]

/-- The dosing schedule menu with the cursor on Add Schedule (item 1). -/
def demoAddCursor : State :=
  { menuNav := { currentMenu := MenuState.MENU_DOSING_SCHEDULE, selectedIndex := 1 }
    encoderPosition := 1
    navLastEncoderPos := 1 }

/-- In the dosing editor opened from `demoAddCursor`: cursor to the Days row
and press (Days edit mode), a press on Sunday, seven detents to DONE and a
press (edit mode left), three detents to the Save row. -/
def demoEditorEvents : List UiEvent :=
  [UiEvent.turn 1, UiEvent.pass true 100, UiEvent.pass true 200,
   UiEvent.turn 7, UiEvent.pass true 300,
   UiEvent.turn 3]

/-- The dosing editor opened from `demoAddCursor` with Sunday marked and the
cursor on the Days row: in edit mode when `editing`, day cursor `dsi`, encoder
at `enc`, the position last seen by `handleMenuNavigation` at `navLast`, last
activity at `ms`. -/
def demoDosingDays (editing : Bool) (dsi : Nat) (enc navLast : Int) (ms : Nat) : State :=
  { menuNav :=
      { currentMenu := MenuState.MENU_DOSING_ADD, selectedIndex := 1, inEditMode := editing,
        editValue := 0, lastActivity := ms, tempDaysBitmap := 1, daySelectIndex := dsi }
    tempDosingSchedule :=
      { pumpNumber := 1, daysOfWeek := 1, hour := 8, minute := 0, amountML := 10 }
    encoderPosition := enc
    navLastEncoderPos := navLast }

/-- The state after boot (every pump at the default calibration of
1.0 mL/s) with one stored schedule in slot 0: pump 1, every day, 08:00,
16.3 mL (amount 163). -/
def demoTenths : State :=
  { bootState 0 with
    dosingSchedules := fun j =>
      if j = 0 then
        { pumpNumber := 1, daysOfWeek := 127, hour := 8, minute := 0, amountML := 163,
          enabled := true }
      else (bootState 0).dosingSchedules j
    dosingScheduleCount := 1 }

/-- From boot into the dosing editor with Sunday marked: Scheduling, Dosing
Schedule, Add Schedule, cursor to the Days row and press (Days edit mode, day
cursor on Sunday), press (Sunday toggled). -/
def demoMaskPath : List UiEvent :=
  [UiEvent.pass true 100,
   UiEvent.pass true 200,
   UiEvent.turn 1, UiEvent.pass true 300,
   UiEvent.turn 1, UiEvent.pass true 400,
   UiEvent.pass true 500]

/-- From the home menu to Save of the outlet editor without a visit to its
Days row: Scheduling, Outlet Schedule, Add Schedule, five detents to the Save
row and press. -/
def demoOutletSaveDirect : List UiEvent :=
  [UiEvent.pass true 30600,
   UiEvent.turn 1, UiEvent.pass true 30700,
   UiEvent.turn 1, UiEvent.pass true 30800,
   UiEvent.turn 5, UiEvent.pass true 30900]

theorem setPumpSpeed_activeDosing (s : State) (p v : Nat) :
    (setPumpSpeed s p v).activeDosing = s.activeDosing := by
  simp only [setPumpSpeed]
  split <;> rfl

theorem setPumpSpeed_lastDosingExecution (s : State) (p v : Nat) :
    (setPumpSpeed s p v).lastDosingExecution = s.lastDosingExecution := by
  simp only [setPumpSpeed]
  split <;> rfl

theorem setPumpSpeed_dosingSchedules (s : State) (p v : Nat) :
    (setPumpSpeed s p v).dosingSchedules = s.dosingSchedules := by
  simp only [setPumpSpeed]
  split <;> rfl

theorem setPumpSpeed_lastCheck (s : State) (p v : Nat) :
    (setPumpSpeed s p v).lastCheck = s.lastCheck := by
  simp only [setPumpSpeed]
  split <;> rfl

theorem getPumpSpeed_setPumpSpeed_same (s : State) (p v : Nat) (hp : 1 ≤ p ∧ p ≤ 4) :
    getPumpSpeed (setPumpSpeed s p v) p = if v > 100 then 100 else v := by
  obtain ⟨h1, h4⟩ := hp
  interval_cases p <;> rfl

theorem getPumpSpeed_setPumpSpeed_other (s : State) (p q v : Nat) (hq : q ≠ p) :
    getPumpSpeed (setPumpSpeed s p v) q = getPumpSpeed s q := by
  simp only [setPumpSpeed]
  split <;> (unfold getPumpSpeed; split <;> first | rfl | (exfalso; exact hq rfl))

/-- What a defined call of `startDosing` leaves behind. -/
theorem startDosing_some (s s' : State) (i t : Nat) (h : startDosing s i t = some s') :
    s'.activeDosing.state = DosingState.DOSING_RUNNING ∧
    s'.activeDosing.scheduleIndex = i ∧
    s'.lastDosingExecution = Function.update s.lastDosingExecution i t := by
  simp only [startDosing] at h
  split_ifs at h
  split at h
  · exact absurd h (by simp)
  · simp only [Option.some.injEq] at h
    subst h
    simp [setPumpSpeed_activeDosing, setPumpSpeed_lastDosingExecution]

/-- The value of `startDosing` on a slot inside the table whose pump number is
1 to 4 and whose run time converts. -/
theorem startDosing_eq (s : State) (i t d : Nat) (hi : i < MAX_DOSING_SCHEDULES)
    (hp : 1 ≤ (s.dosingSchedules i).pumpNumber ∧ (s.dosingSchedules i).pumpNumber ≤ 4)
    (hd : dosingRunMs (s.dosingSchedules i).amountML
      (s.pumpCalibrations ((s.dosingSchedules i).pumpNumber - 1)).mlPerSecond = some d) :
    startDosing s i t =
      some { setPumpSpeed
          { s with activeDosing :=
              { state := DosingState.DOSING_RUNNING
                activePump := (s.dosingSchedules i).pumpNumber
                startTime := t
                runDuration := d
                targetML := (s.dosingSchedules i).amountML
                scheduleIndex := i } }
          (s.dosingSchedules i).pumpNumber
          (s.pumpCalibrations ((s.dosingSchedules i).pumpNumber - 1)).pwmSpeed with
        lastDosingExecution := Function.update s.lastDosingExecution i t } := by
  unfold startDosing
  rw [if_neg (by omega), if_neg (by omega)]
  simp only [hd, setPumpSpeed_lastDosingExecution]

/-- The scan loop started at `i` with `n` iterations left starts the first
due slot at or after `i`. -/
theorem checkDosingLoop_first (s : State) (now : DateTime) (t k : Nat) :
    ∀ (n i : Nat), i ≤ k → k < i + n → dosingDue s now t k = true →
      (∀ j, i ≤ j → j < k → dosingDue s now t j = false) →
      checkDosingLoop s now t n i = startDosing s k t := by
  intro n
  induction n with
  | zero => intro i h1 h2; omega
  | succ n ih =>
    intro i h1 h2 hk hlow
    unfold checkDosingLoop
    by_cases hik : i = k
    · subst hik; rw [if_pos hk]
    · have hi : dosingDue s now t i = false := hlow i (le_refl i) (by omega)
      rw [if_neg (by simp [hi])]
      exact ih (i + 1) (by omega) (by omega) hk
        (fun j hj1 hj2 => hlow j (by omega) hj2)

/-- A scan loop that passes over slot `k` leaves its timestamp alone and
either starts nothing or starts another slot. -/
theorem checkDosingLoop_skips (s : State) (now : DateTime) (t k : Nat)
    (hk : dosingDue s now t k = false) :
    ∀ (n i : Nat) (s' : State), checkDosingLoop s now t n i = some s' →
      s'.lastDosingExecution k = s.lastDosingExecution k ∧
      (s'.activeDosing = s.activeDosing ∨ s'.activeDosing.scheduleIndex ≠ k) := by
  intro n
  induction n with
  | zero =>
    intro i s' h
    unfold checkDosingLoop at h
    simp only [Option.some.injEq] at h
    subst h
    exact ⟨rfl, Or.inl rfl⟩
  | succ n ih =>
    intro i s' h
    unfold checkDosingLoop at h
    by_cases hdue : dosingDue s now t i = true
    · rw [if_pos hdue] at h
      have hik : i ≠ k := by
        intro e; subst e; rw [hk] at hdue; exact absurd hdue (by decide)
      obtain ⟨_, hidx, hlast⟩ := startDosing_some s s' i t h
      refine ⟨?_, Or.inr (by rw [hidx]; exact hik)⟩
      rw [hlast, Function.update_noteq (Ne.symm hik)]
    · rw [if_neg hdue] at h
      exact ih (i + 1) s' h

/-- The loop's test is the conjunction of the four conditions of `SlotDue`. -/
theorem dosingDue_iff (s : State) (now : DateTime) (t j : Nat) :
    dosingDue s now t j = true ↔ SlotDue s now t j := by
  simp only [dosingDue, SlotDue, isScheduleActiveToday]
  by_cases he : (s.dosingSchedules j).enabled = true
  · by_cases hd : isDayEnabled (s.dosingSchedules j).daysOfWeek now.dayOfTheWeek = true
    · by_cases hh : (s.dosingSchedules j).hour = now.hour <;>
        by_cases hm : (s.dosingSchedules j).minute = now.minute <;>
        simp [he, hd, hh, hm]
    · simp [he, hd]
  · simp [he]

/-- The rounding model gives the `float` nearest to one tenth its known value,
13421773 / 2^27 (bit pattern 0x3DCCCCCD). -/
theorem roundBin_one_tenth : roundBin 24 (-149) (1 / 10) = 13421773 / 134217728 := by
  have hl : floorLog2 (1 / 10) = -4 := by
    norm_num [floorLog2, Nat.log2]
  have hf : ⌊(67108864 / 5 : ℚ)⌋ = 13421772 := by
    rw [Int.floor_eq_iff]; norm_num
  have hr : roundHalfEven (67108864 / 5) = 13421773 := by
    unfold roundHalfEven
    simp only [hf]
    norm_num
  have ha : |(1 / 10 : ℚ)| = 1 / 10 := by norm_num
  have hu : max ((-4 : ℤ) - (((24 : ℕ) : ℤ) - 1)) (-149) = -27 := by norm_num
  have hq : (1 / 10 : ℚ) / (2 : ℚ) ^ (-27 : ℤ) = 67108864 / 5 := by norm_num
  unfold roundBin
  rw [if_neg (by norm_num)]
  simp only [ha, hl]
  rw [hu, hq, hr]
  norm_num

/-- The run time for 10.0 mL (amount 100) at 2.0 mL/s is 5000 ms. -/
theorem dosingRunMs_example : dosingRunMs 100 (F32.fin 2) = some 5000 := by
  have h0 : ((100 : ℕ) : ℚ) / 10 = (100 : ℚ) / 10 := by norm_num
  have r1 : roundF64 ((100 : ℚ) / 10) = 10 := by
    norm_num [roundF64, roundBin, floorLog2, Nat.log2, roundHalfEven]
  have r2 : F32.ofRat 10 = F32.fin 10 := by
    norm_num [F32.ofRat, roundBin, floorLog2, Nat.log2, roundHalfEven]
  have r3 : F32.ofRat 5 = F32.fin 5 := by
    norm_num [F32.ofRat, roundBin, floorLog2, Nat.log2, roundHalfEven]
  have r4 : F32.ofRat 5000 = F32.fin 5000 := by
    norm_num [F32.ofRat, roundBin, floorLog2, Nat.log2, roundHalfEven]
  have r5 : f32ToULong (F32.fin 5000) = some 5000 := by
    norm_num [f32ToULong]
    rfl
  have h1 : F32.div (F32.fin 10) (F32.fin 2) = F32.fin 5 := by
    unfold F32.div
    norm_num
    exact r3
  have h2 : F32.mul (F32.fin 5) (F32.fin 1000) = F32.fin 5000 := by
    unfold F32.mul
    norm_num
    exact r4
  simp only [dosingRunMs, h0]
  rw [r1, r2, h1, h2, r5]

/-- Rounding to the nearest integer when the fraction is below one half. -/
theorem roundHalfEven_down (x : ℚ) (f : ℤ) (h1 : (f : ℚ) ≤ x) (h2 : x < (f : ℚ) + 1 / 2) :
    roundHalfEven x = f := by
  have hf : ⌊x⌋ = f := by
    rw [Int.floor_eq_iff]
    constructor
    · exact h1
    · linarith
  unfold roundHalfEven
  simp only [hf]
  rw [if_pos (by linarith)]

/-- Rounding to the nearest integer when the fraction is above one half. -/
theorem roundHalfEven_up (x : ℚ) (f : ℤ) (h1 : (f : ℚ) + 1 / 2 < x) (h2 : x < (f : ℚ) + 1) :
    roundHalfEven x = f + 1 := by
  have hf : ⌊x⌋ = f := by
    rw [Int.floor_eq_iff]
    constructor
    · linarith
    · exact h2
  unfold roundHalfEven
  simp only [hf]
  rw [if_neg (by linarith), if_pos (by linarith)]

/-- The value of `roundBin` from the exponent, the unit in the last place and
the rounded significand. -/
theorem roundBin_eval (p : ℕ) (eminUlp : ℤ) (q : ℚ) (e u n : ℤ)
    (hq : q ≠ 0) (he : floorLog2 |q| = e) (hu : max (e - ((p : ℤ) - 1)) eminUlp = u)
    (hn : roundHalfEven (q / (2 : ℚ) ^ u) = n) :
    roundBin p eminUlp q = (n : ℚ) * (2 : ℚ) ^ u := by
  unfold roundBin
  rw [if_neg hq]
  simp only [he, hu, hn]

/-- The `double` nearest to 16.3. -/
theorem roundF64_tenths :
    roundF64 ((163 : ℚ) / 10) = 4588042120383693 / 281474976710656 := by
  unfold roundF64
  rw [roundBin_eval 53 (-1074) (163 / 10) 4 (-48) 4588042120383693 (by norm_num)
    (by norm_num [floorLog2, Nat.log2, abs_of_pos]) (by norm_num)
    (by
      have := roundHalfEven_up ((163 / 10 : ℚ) / (2 : ℚ) ^ (-48 : ℤ)) 4588042120383692
        (by norm_num) (by norm_num)
      rw [this]; norm_num)]
  norm_num

/-- The `float` nearest to that `double`, 8545894 / 2^19 (about 16.2999992). -/
theorem roundBin_tenths :
    roundBin 24 (-149) (4588042120383693 / 281474976710656) = 4272947 / 262144 := by
  rw [roundBin_eval 24 (-149) _ 4 (-19) 8545894 (by norm_num)
    (by norm_num [floorLog2, Nat.log2, abs_of_pos]) (by norm_num)
    (roundHalfEven_down _ 8545894 (by norm_num) (by norm_num))]
  norm_num

/-- A `float` is its own rounding: the quotient by 1.0 is exact. -/
theorem roundBin_tenths_quotient :
    roundBin 24 (-149) (4272947 / 262144) = 4272947 / 262144 := by
  rw [roundBin_eval 24 (-149) _ 4 (-19) 8545894 (by norm_num)
    (by norm_num [floorLog2, Nat.log2, abs_of_pos]) (by norm_num)
    (roundHalfEven_down _ 8545894 (by norm_num) (by norm_num))]
  norm_num

/-- The `float` nearest to the product by 1000, 16691199 / 2^10 (about
16299.999). -/
theorem roundBin_tenths_product :
    roundBin 24 (-149) (4272947 / 262144 * 1000) = 16691199 / 1024 := by
  rw [roundBin_eval 24 (-149) _ 13 (-10) 16691199 (by norm_num)
    (by norm_num [floorLog2, Nat.log2, abs_of_pos]) (by norm_num)
    (roundHalfEven_down _ 16691199 (by norm_num) (by norm_num))]
  norm_num

/-- The run time for 16.3 mL (amount 163) at 1.0 mL/s is 16299 ms. -/
theorem dosingRunMs_tenths : dosingRunMs 163 (F32.fin 1) = some 16299 := by
  have h0 : ((163 : ℕ) : ℚ) / 10 = (163 : ℚ) / 10 := by norm_num
  have a1 : F32.ofRat (4588042120383693 / 281474976710656) = F32.fin (4272947 / 262144) := by
    unfold F32.ofRat
    simp only [roundBin_tenths]
    rw [if_pos (by norm_num [abs_of_pos])]
  have a2 : F32.div (F32.fin (4272947 / 262144)) (F32.fin 1) = F32.fin (4272947 / 262144) := by
    simp only [F32.div]
    rw [if_neg (by norm_num)]
    unfold F32.ofRat
    simp only [div_one, roundBin_tenths_quotient]
    rw [if_pos (by norm_num [abs_of_pos])]
  have a3 : F32.mul (F32.fin (4272947 / 262144)) (F32.fin 1000) = F32.fin (16691199 / 1024) := by
    simp only [F32.mul, F32.ofRat, roundBin_tenths_product]
    rw [if_pos (by norm_num [abs_of_pos])]
  have hfl : ⌊(16691199 / 1024 : ℚ)⌋ = 16299 := by
    rw [Int.floor_eq_iff]; norm_num
  have a4 : f32ToULong (F32.fin (16691199 / 1024)) = some 16299 := by
    unfold f32ToULong
    simp only []
    rw [if_pos (by norm_num), hfl, if_pos (by norm_num)]
    rfl
  simp only [dosingRunMs, h0]
  rw [roundF64_tenths, a1, a2, a3, a4]

/-- The run time `startDosing` computes for a finite calibration `m`,
operation by operation: the calibration is not zero, and with `t` the `float`
nearest to the `double` nearest to `amountML / 10`, `q` the `float` nearest to
`t / m` and `p` the `float` nearest to `q * 1000`, the run time is `p`
truncated toward zero. -/
theorem dosingRunMs_fin (a d : Nat) (m : ℚ) (h : dosingRunMs a (F32.fin m) = some d) :
    m ≠ 0 ∧
    ∃ t q p : ℚ,
      t = roundBin 24 (-149) (roundF64 ((a : ℚ) / 10)) ∧
      q = roundBin 24 (-149) (t / m) ∧
      p = roundBin 24 (-149) (q * 1000) ∧
      (d : ℤ) = (if 0 ≤ p then ⌊p⌋ else ⌈p⌉) := by
  unfold dosingRunMs at h
  simp only [F32.ofRat] at h
  split_ifs at h with h1
  · by_cases hm : m = 0
    · subst hm
      simp only [F32.div] at h
      split_ifs at h <;> simp [F32.mul, f32ToULong] at h
    · refine ⟨hm, _, _, _, rfl, rfl, rfl, ?_⟩
      simp only [F32.div, if_neg hm, F32.ofRat] at h
      split_ifs at h with h2
      · simp only [F32.mul, F32.ofRat] at h
        split_ifs at h with h3
        · simp only [f32ToULong] at h
          split_ifs at h with h4 h5 h5
          · simp only [Option.some.injEq] at h
            rw [← h, Int.toNat_of_nonneg h5.1, if_pos h4]
          · simp only [Option.some.injEq] at h
            rw [← h, Int.toNat_of_nonneg h5.1, if_neg h4]
        · simp [f32ToULong] at h
      · simp [F32.mul, f32ToULong] at h
  · simp [F32.div, F32.mul, f32ToULong] at h

/-- A scan of an Idle engine with the gate open calls `startDosing` on the
lowest due slot. -/
theorem checkDosingSchedules_lowest (s : State) (now : DateTime) (currentTime i : Nat)
    (hidle : s.activeDosing.state = DosingState.DOSING_IDLE)
    (hgate : 1000 ≤ usub32 currentTime s.lastCheck)
    (hi : i < MAX_DOSING_SCHEDULES)
    (hdue : SlotDue s now currentTime i)
    (hlowest : ∀ j, j < i → ¬ SlotDue s now currentTime j) :
    checkDosingSchedules s now currentTime =
      startDosing { s with lastCheck := currentTime } i currentTime := by
  have hnr : ¬ s.activeDosing.state = DosingState.DOSING_RUNNING := by
    rw [hidle]; decide
  have hloop : checkDosingLoop { s with lastCheck := currentTime } now currentTime
      MAX_DOSING_SCHEDULES 0 = startDosing { s with lastCheck := currentTime } i currentTime := by
    apply checkDosingLoop_first _ now currentTime i MAX_DOSING_SCHEDULES 0 (Nat.zero_le i)
      (by omega)
    · exact (dosingDue_iff _ now currentTime i).2 hdue
    · intro j _ hji
      have hnot : ¬ dosingDue { s with lastCheck := currentTime } now currentTime j = true :=
        fun h => hlowest j hji ((dosingDue_iff _ now currentTime j).1 h)
      simpa using hnot
  unfold checkDosingSchedules
  rw [if_neg hnr, if_neg (by omega), hloop]

/-! ### Dosing execution engine -/

/-- C1 as stated fails: after boot every pump has the default calibration of
1.0 mL/s, and a scan that starts the stored schedule of 16.3 mL (amount 163)
sets `runDuration = 16299`, while `(163 / 10) / 1.0 * 1000` is 16300: the
`float` nearest to 16.3 is a little below it, and so is the product the code
truncates. -/
theorem C1_counterexample_float_run_time :
    demoTenths.activeDosing.state = DosingState.DOSING_IDLE ∧
    ((demoTenths.dosingSchedules 0).amountML = 163 ∧
      (demoTenths.pumpCalibrations 0).mlPerSecond = F32.fin 1) ∧
    (checkDosingSchedules demoTenths { dayOfTheWeek := 3, hour := 8, minute := 0 } 120000).map
        (fun s' => (s'.activeDosing.state, s'.activeDosing.scheduleIndex,
          s'.activeDosing.runDuration)) =
      some (DosingState.DOSING_RUNNING, 0, 16299) ∧
    ⌊((163 : ℚ) / 10) / 1 * 1000⌋ = 16300 := by
  refine ⟨rfl, ⟨rfl, rfl⟩, ?_, ?_⟩
  · rw [checkDosingSchedules_lowest demoTenths { dayOfTheWeek := 3, hour := 8, minute := 0 }
        120000 0 rfl (by decide) (by decide) ⟨rfl, by decide, rfl, rfl, by decide⟩
        (by intro j hj; omega),
      startDosing_eq { demoTenths with lastCheck := 120000 } 0 120000 16299 (by decide)
        ⟨by decide, by decide⟩ dosingRunMs_tenths]
    simp [setPumpSpeed_activeDosing]
  · rw [Int.floor_eq_iff]; norm_num

/-- C1 (amended): from an Idle engine with the one-second gate open, when `i`
is the lowest due slot (enabled, weekday bit set, hour and minute equal to the
clock's, last start at least 60000 ms ago), its pump number is 1 to 4 and the
run time `d` converts to `unsigned long`, one call of `checkDosingSchedules`
leaves the engine Running with `scheduleIndex = i`, `activePump` the
schedule's pump, `startTime = currentTime`, `runDuration = d` and
`lastDosingExecution[i] = currentTime`; no other slot's timestamp changes, and
only that pump's speed is set. The run time is the value of the `float`
expression of `startDosing`: for a finite calibration `m` (which is then not
zero), with `t` the `float` nearest to the `double` nearest to
`amountML / 10`, `q` the `float` nearest to `t / m` and `p` the `float` nearest
to `q * 1000` (round to nearest, ties to even), `d` is `p` truncated toward
zero. Amount 100 at 2.0 mL/s gives 5000 ms; amount 163 at 1.0 mL/s gives
16299 ms. -/
theorem C1_scan_starts_lowest_due_slot (s : State) (now : DateTime) (currentTime i d : Nat)
    (hidle : s.activeDosing.state = DosingState.DOSING_IDLE)
    (hgate : 1000 ≤ usub32 currentTime s.lastCheck)
    (hi : i < MAX_DOSING_SCHEDULES)
    (hdue : SlotDue s now currentTime i)
    (hlowest : ∀ j, j < i → ¬ SlotDue s now currentTime j)
    (hpump : 1 ≤ (s.dosingSchedules i).pumpNumber ∧ (s.dosingSchedules i).pumpNumber ≤ 4)
    (hrun : dosingRunMs (s.dosingSchedules i).amountML
      (s.pumpCalibrations ((s.dosingSchedules i).pumpNumber - 1)).mlPerSecond = some d) :
    ∃ s', checkDosingSchedules s now currentTime = some s' ∧
      s'.activeDosing =
        { state := DosingState.DOSING_RUNNING
          activePump := (s.dosingSchedules i).pumpNumber
          startTime := currentTime
          runDuration := d
          targetML := (s.dosingSchedules i).amountML
          scheduleIndex := i } ∧
      s'.lastDosingExecution i = currentTime ∧
      (∀ j, j ≠ i → s'.lastDosingExecution j = s.lastDosingExecution j) ∧
      (∀ q, q ≠ (s.dosingSchedules i).pumpNumber → getPumpSpeed s' q = getPumpSpeed s q) ∧
      (∀ m : ℚ,
        (s.pumpCalibrations ((s.dosingSchedules i).pumpNumber - 1)).mlPerSecond = F32.fin m →
        m ≠ 0 ∧
        ∃ t q p : ℚ,
          t = roundBin 24 (-149) (roundF64 (((s.dosingSchedules i).amountML : ℚ) / 10)) ∧
          q = roundBin 24 (-149) (t / m) ∧
          p = roundBin 24 (-149) (q * 1000) ∧
          (d : ℤ) = (if 0 ≤ p then ⌊p⌋ else ⌈p⌉)) ∧
      dosingRunMs 100 (F32.fin 2) = some 5000 ∧
      dosingRunMs 163 (F32.fin 1) = some 16299 := by
  have hstart := startDosing_eq { s with lastCheck := currentTime } i currentTime d hi hpump hrun
  have hcheck := checkDosingSchedules_lowest s now currentTime i hidle hgate hi hdue hlowest
  rw [hstart] at hcheck
  refine ⟨_, hcheck, ?_, ?_, ?_, ?_, ?_, dosingRunMs_example, dosingRunMs_tenths⟩
  · simp [setPumpSpeed_activeDosing]
  · simp
  · intro j hj
    simp [Function.update_noteq hj]
  · intro q hq
    simp only []
    exact getPumpSpeed_setPumpSpeed_other _ _ q _ hq
  · intro m hm
    rw [hm] at hrun
    exact dosingRunMs_fin _ d m hrun

/-- C1 (amended), at a concrete scan: slot 2 holds the only enabled schedule
(pump 1, every day, 08:00, amount 100), pump 1 is calibrated at 2.0 mL/s, and
the scan at 08:00 after two minutes of uptime starts it for 5000 ms. -/
theorem C1_scan_starts_lowest_due_slot_witness :
    (checkDosingSchedules
      { dosingSchedules := fun j =>
          if j = 2 then
            { pumpNumber := 1, daysOfWeek := 127, hour := 8, minute := 0,
              amountML := 100, enabled := true }
          else {}
        pumpCalibrations := fun _ => { pwmSpeed := 50, mlPerSecond := F32.fin 2 } }
      { dayOfTheWeek := 3, hour := 8, minute := 0 } 120000).map
        (fun s' => (s'.activeDosing.state, s'.activeDosing.scheduleIndex,
          s'.activeDosing.runDuration, s'.lastDosingExecution 2)) =
      some (DosingState.DOSING_RUNNING, 2, 5000, 120000) := by
  obtain ⟨s', h1, h2, h3, _⟩ := C1_scan_starts_lowest_due_slot
    { dosingSchedules := fun j =>
        if j = 2 then
          { pumpNumber := 1, daysOfWeek := 127, hour := 8, minute := 0,
            amountML := 100, enabled := true }
        else {}
      pumpCalibrations := fun _ => { pwmSpeed := 50, mlPerSecond := F32.fin 2 } }
    { dayOfTheWeek := 3, hour := 8, minute := 0 } 120000 2 5000
    rfl (by decide) (by decide)
    ⟨rfl, by decide, rfl, rfl, by decide⟩
    (by
      intro j hj h
      have h0 := h.1
      interval_cases j <;> simp at h0)
    ⟨by decide, by decide⟩
    dosingRunMs_example
  rw [h1]
  simp [h2, h3]

/-- The invariant behind C2: once slot `i` carries the timestamp `t`, no
sequence of engine calls whose scans all fall less than 60000 ms after `t`
changes that timestamp. -/
theorem runCalls_keeps_timestamp (i t : Nat) :
    ∀ (calls : List EngineCall) (s s' : State),
      s.lastDosingExecution i = t →
      (∀ u ∈ checkTimes calls, usub32 u t < DOSING_COOLDOWN) →
      runCalls s calls = some s' → s'.lastDosingExecution i = t := by
  intro calls
  induction calls with
  | nil =>
    intro s s' h _ hr
    simp only [runCalls, Option.some.injEq] at hr
    subst hr
    exact h
  | cons c cs ih =>
    intro s s' h hw hr
    unfold runCalls at hr
    cases c with
    | check now u =>
      have hu : usub32 u t < DOSING_COOLDOWN := hw u (by simp [checkTimes])
      simp only [EngineCall.run] at hr
      cases hc : checkDosingSchedules s now u with
      | none => rw [hc] at hr; exact absurd hr (by simp)
      | some s1 =>
        rw [hc] at hr
        refine ih s1 s' ?_ (fun v hv => hw v (by simp [checkTimes, hv])) hr
        unfold checkDosingSchedules at hc
        split_ifs at hc with h1 h2
        · simp only [Option.some.injEq] at hc; subst hc; exact h
        · simp only [Option.some.injEq] at hc; subst hc; exact h
        · have hnd : dosingDue { s with lastCheck := u } now u i = false := by
            have hn : ¬ SlotDue { s with lastCheck := u } now u i := by
              intro hd
              have h5 := hd.2.2.2.2
              simp only [h] at h5
              omega
            have := fun hd => hn ((dosingDue_iff _ now u i).1 hd)
            simpa using this
          have := (checkDosingLoop_skips _ now u i hnd _ _ s1 hc).1
          rw [this]
          exact h
    | update u =>
      simp only [EngineCall.run] at hr
      refine ih _ s' ?_ (fun v hv => hw v (by simp [checkTimes, hv])) hr
      unfold updateDosingExecution
      split_ifs
      · exact h
      · simp only [setPumpSpeed_lastDosingExecution]; exact h
      · exact h
    | edit ds cal =>
      simp only [EngineCall.run] at hr
      refine ih _ s' ?_ (fun v hv => hw v (by simp [checkTimes, hv])) hr
      exact h

/-- C2: let slot `i` be started by `startDosing` at time `t`, and let any
sequence of scans, completion checks and schedule edits follow whose scans fall
less than 60000 ms after `t`. Then a scan at a time `t'` with
`t' - t < 60000` (32-bit unsigned) does not start slot `i`: the slot fails the
loop's test whatever its schedule says, its timestamp is still `t` after the
scan, and the scan either leaves the engine as it was or starts another
slot. -/
theorem C2_no_restart_within_cooldown (s0 s1 s s' : State) (i t t' : Nat)
    (calls : List EngineCall) (now : DateTime)
    (hstart : startDosing s0 i t = some s1)
    (hwindow : ∀ u ∈ checkTimes calls, usub32 u t < DOSING_COOLDOWN)
    (hrun : runCalls s1 calls = some s)
    (hlater : usub32 t' t < DOSING_COOLDOWN)
    (hscan : checkDosingSchedules s now t' = some s') :
    ¬ SlotDue s now t' i ∧
    s'.lastDosingExecution i = t ∧
    (s'.activeDosing = s.activeDosing ∨ s'.activeDosing.scheduleIndex ≠ i) := by
  have h1 : s1.lastDosingExecution i = t := by
    rw [(startDosing_some s0 s1 i t hstart).2.2, Function.update_same]
  have hs : s.lastDosingExecution i = t :=
    runCalls_keeps_timestamp i t calls s1 s h1 hwindow hrun
  have hn : ¬ SlotDue s now t' i := by
    intro hd
    have h5 := hd.2.2.2.2
    simp only [hs] at h5
    omega
  refine ⟨hn, ?_, ?_⟩
  · exact runCalls_keeps_timestamp i t [EngineCall.check now t'] s s' hs
      (by simpa [checkTimes] using hlater)
      (by simp [runCalls, EngineCall.run, hscan])
  · unfold checkDosingSchedules at hscan
    split_ifs at hscan with h2 h3
    · simp only [Option.some.injEq] at hscan; subst hscan; exact Or.inl rfl
    · simp only [Option.some.injEq] at hscan; subst hscan; exact Or.inl rfl
    · have hnd : dosingDue { s with lastCheck := t' } now t' i = false := by
        have := fun hd => hn ((dosingDue_iff { s with lastCheck := t' } now t' i).1 hd)
        simpa using this
      exact (checkDosingLoop_skips _ now t' i hnd _ _ s' hscan).2

/-- C2, at a concrete run: slot 0 is started at 120000 ms, the dose completes
at 125000 ms, and the scan at 130000 ms, still at 08:00 with the schedule
enabled, leaves the engine Idle and the timestamp at 120000. -/
theorem C2_no_restart_within_cooldown_witness :
    ¬ SlotDue (updateDosingExecution demoRunning 125000)
        { dayOfTheWeek := 3, hour := 8, minute := 0 } 130000 0 ∧
    ({ updateDosingExecution demoRunning 125000 with lastCheck := 130000 } :
      State).lastDosingExecution 0 = 120000 ∧
    (({ updateDosingExecution demoRunning 125000 with lastCheck := 130000 } :
        State).activeDosing = (updateDosingExecution demoRunning 125000).activeDosing ∨
      ({ updateDosingExecution demoRunning 125000 with lastCheck := 130000 } :
        State).activeDosing.scheduleIndex ≠ 0) :=
  C2_no_restart_within_cooldown demoIdle demoRunning
    (updateDosingExecution demoRunning 125000)
    { updateDosingExecution demoRunning 125000 with lastCheck := 130000 }
    0 120000 130000 [EngineCall.update 125000] { dayOfTheWeek := 3, hour := 8, minute := 0 }
    (startDosing_eq demoIdle 0 120000 5000 (by decide) ⟨by decide, by decide⟩
      dosingRunMs_example)
    (by simp [checkTimes])
    rfl
    (by decide)
    (by rfl)

/-- C3: while the engine is Running, `checkDosingSchedules` returns the state
it was given: `activeDosing`, every slot's timestamp and the pump speeds are
unchanged, whatever the schedules and the clock say. -/
theorem C3_scan_is_noop_while_running (s : State) (now : DateTime) (currentTime : Nat)
    (hrunning : s.activeDosing.state = DosingState.DOSING_RUNNING) :
    checkDosingSchedules s now currentTime = some s := by
  unfold checkDosingSchedules
  rw [if_pos hrunning]

/-- C3, at a Running engine whose slot 0 holds a schedule that matches the
clock. -/
theorem C3_scan_is_noop_while_running_witness :
    (checkDosingSchedules
      { activeDosing := { state := DosingState.DOSING_RUNNING, activePump := 1 }
        dosingSchedules := fun _ =>
          { pumpNumber := 2, daysOfWeek := 127, hour := 8, amountML := 10, enabled := true } }
      { dayOfTheWeek := 0, hour := 8, minute := 0 } 500000).map
        (fun s' => (s'.activeDosing, s'.lastDosingExecution 0, s'.hardware)) =
      some ({ state := DosingState.DOSING_RUNNING, activePump := 1 }, 0, {}) := by
  rw [C3_scan_is_noop_while_running _ _ _ rfl]
  rfl

/-- C4 as stated fails: entered with the state `DOSING_COMPLETE`,
`updateDosingExecution` takes its early return and hands the state back
unchanged, so it does return with the state equal to Complete. -/
theorem C4_counterexample_entered_complete :
    (updateDosingExecution
      { activeDosing := { state := DosingState.DOSING_COMPLETE } } 0).activeDosing.state =
      DosingState.DOSING_COMPLETE := by
  rfl

/-- C4 (amended): for every engine state, if the state is Running and
`currentTime - startTime >= runDuration` (32-bit unsigned difference),
`updateDosingExecution` sets the active pump's speed to 0, leaves the other
pumps' speeds alone and returns with state Idle and `activePump = 0`; if the
state is Running and the elapsed time is smaller, or the state is not Running,
it changes nothing. It returns with the state equal to Complete only when it
was entered with the state equal to Complete. -/
theorem C4_updateDosingExecution (s : State) (currentTime : Nat) :
    (s.activeDosing.state = DosingState.DOSING_RUNNING →
      s.activeDosing.runDuration ≤ usub32 currentTime s.activeDosing.startTime →
        (updateDosingExecution s currentTime).activeDosing.state = DosingState.DOSING_IDLE ∧
        (updateDosingExecution s currentTime).activeDosing.activePump = 0 ∧
        getPumpSpeed (updateDosingExecution s currentTime) s.activeDosing.activePump = 0 ∧
        (∀ q, q ≠ s.activeDosing.activePump →
          getPumpSpeed (updateDosingExecution s currentTime) q = getPumpSpeed s q)) ∧
    (s.activeDosing.state = DosingState.DOSING_RUNNING →
      usub32 currentTime s.activeDosing.startTime < s.activeDosing.runDuration →
        updateDosingExecution s currentTime = s) ∧
    (s.activeDosing.state ≠ DosingState.DOSING_RUNNING →
      updateDosingExecution s currentTime = s) ∧
    ((updateDosingExecution s currentTime).activeDosing.state = DosingState.DOSING_COMPLETE →
      s.activeDosing.state = DosingState.DOSING_COMPLETE) := by
  refine ⟨?_, ?_, ?_, ?_⟩
  · intro hr he
    have hval : updateDosingExecution s currentTime =
        { setPumpSpeed s s.activeDosing.activePump 0 with
          activeDosing :=
            { (setPumpSpeed s s.activeDosing.activePump 0).activeDosing with
              state := DosingState.DOSING_IDLE, activePump := 0 } } := by
      unfold updateDosingExecution
      rw [if_neg (by simp [hr]), if_pos he]
    rw [hval]
    refine ⟨rfl, rfl, ?_, ?_⟩
    · by_cases hp : 1 ≤ s.activeDosing.activePump ∧ s.activeDosing.activePump ≤ 4
      · have := getPumpSpeed_setPumpSpeed_same s s.activeDosing.activePump 0 hp
        simpa [getPumpSpeed] using this
      · unfold getPumpSpeed
        split <;> first | rfl | (exfalso; apply hp; constructor <;> omega)
    · intro q hq
      have := getPumpSpeed_setPumpSpeed_other s s.activeDosing.activePump q 0 hq
      simpa [getPumpSpeed] using this
  · intro hr hlt
    unfold updateDosingExecution
    rw [if_neg (by simp [hr]), if_neg (by omega)]
  · intro hnr
    unfold updateDosingExecution
    rw [if_pos hnr]
  · intro hc
    unfold updateDosingExecution at hc
    split_ifs at hc with h1 h2
    · exact hc
    · exact hc

/-- C4, at the running dose of `demoRunning` (pump 1, started at 120000 ms
for 5000 ms): at 125000 ms the pump is stopped and the engine is Idle, at
124999 ms nothing changes. -/
theorem C4_updateDosingExecution_witness :
    ((updateDosingExecution demoRunning 125000).activeDosing.state = DosingState.DOSING_IDLE ∧
      (updateDosingExecution demoRunning 125000).activeDosing.activePump = 0 ∧
      getPumpSpeed (updateDosingExecution demoRunning 125000) 1 = 0) ∧
    updateDosingExecution demoRunning 124999 = demoRunning :=
  ⟨⟨((C4_updateDosingExecution demoRunning 125000).1 rfl (by decide)).1,
      ((C4_updateDosingExecution demoRunning 125000).1 rfl (by decide)).2.1,
      ((C4_updateDosingExecution demoRunning 125000).1 rfl (by decide)).2.2.1⟩,
    (C4_updateDosingExecution demoRunning 124999).2.1 rfl (by decide)⟩

/-! ### Schedule stores -/

theorem arrayIndex_ofNat (cap i : Nat) (h : i < cap) :
    arrayIndex cap (i : Int) = some i := by
  unfold arrayIndex
  rw [if_pos ⟨Int.ofNat_nonneg i, by exact_mod_cast h⟩]
  simp

/-- Inside the array, `n` runs of `a[i] = a[i + 1]` from index `i` move the
entries `i + 1 .. i + n` down by one and touch nothing else. -/
theorem shiftLoop_inside {α : Type} (cap : Nat) :
    ∀ (n : Nat) (a : Nat → α) (i : Nat), i + n < cap →
      ∃ a', shiftLoop cap a n (i : Int) = some a' ∧
        (∀ j, j < i → a' j = a j) ∧
        (∀ j, i ≤ j → j < i + n → a' j = a (j + 1)) ∧
        (∀ j, i + n ≤ j → a' j = a j) := by
  intro n
  induction n with
  | zero =>
    intro a i _
    exact ⟨a, rfl, fun _ _ => rfl, fun j h1 h2 => by omega, fun _ _ => rfl⟩
  | succ n ih =>
    intro a i hb
    obtain ⟨a', h0, h1, h2, h3⟩ := ih (Function.update a i (a (i + 1))) (i + 1) (by omega)
    refine ⟨a', ?_, ?_, ?_, ?_⟩
    · unfold shiftLoop
      have e1 : arrayIndex cap (i : Int) = some i := arrayIndex_ofNat cap i (by omega)
      have e2 : arrayIndex cap ((i : Int) + 1) = some (i + 1) := by
        have := arrayIndex_ofNat cap (i + 1) (by omega)
        simpa using this
      rw [e1, e2]
      simpa using h0
    · intro j hj
      rw [h1 j (by omega), Function.update_noteq (by omega)]
    · intro j hj1 hj2
      by_cases hji : j = i
      · subst hji
        rw [h1 j (by omega), Function.update_same]
      · rw [h2 j (by omega) (by omega), Function.update_noteq (by omega)]
    · intro j hj
      rw [h3 j (by omega), Function.update_noteq (by omega)]

/-- C5: with `n` stored schedules (`1 <= n <= capacity`) and the stored index
`k < n`, confirming Yes in the delete dialog leaves the count at `n - 1`, the
entries below `k` unchanged and, for `k <= i < n - 1`, the new entry `i` equal
to the old entry `i + 1`; the entries from `n` on are untouched. This holds for
the dosing dialog (legacy branch `MENU_DOSING_DELETE_CONFIRM`, index in
`tempPumpNumber`) and for the outlet dialog (`selectOutletDeleteConfirmMenu`,
index in `tempIndex`). For `n = 1`, `k = 0` the count becomes 0 and no entry
is moved: the outlet array is unchanged and the dosing array differs only in
the cleared `enabled` flag of entry 0. -/
theorem C5_delete_shifts_down :
    (∀ (s : State) (ms n k : Nat),
      1 ≤ n → n ≤ MAX_DOSING_SCHEDULES → k < n →
      s.dosingScheduleCount = (n : Int) → s.menuNav.tempPumpNumber = k →
      s.menuNav.selectedIndex = 0 →
      ∃ s', legacyDosingDeleteConfirm s ms = some s' ∧
        s'.dosingScheduleCount = (n : Int) - 1 ∧
        (∀ j, j < k → s'.dosingSchedules j = s.dosingSchedules j) ∧
        (∀ j, k ≤ j → j < n - 1 → s'.dosingSchedules j = s.dosingSchedules (j + 1)) ∧
        (∀ j, n ≤ j → s'.dosingSchedules j = s.dosingSchedules j) ∧
        (n = 1 → s'.dosingSchedules =
          Function.update s.dosingSchedules 0 { s.dosingSchedules 0 with enabled := false })) ∧
    (∀ (s : State) (ms n k : Nat),
      1 ≤ n → n ≤ MAX_OUTLET_SCHEDULES → k < n →
      s.outletScheduleCount = (n : Int) → s.menuNav.tempIndex = (k : Int) →
      s.menuNav.selectedIndex = 0 →
      ∃ s', selectOutletDeleteConfirmMenu s ms = some s' ∧
        s'.outletScheduleCount = (n : Int) - 1 ∧
        (∀ j, j < k → s'.outletSchedules j = s.outletSchedules j) ∧
        (∀ j, k ≤ j → j < n - 1 → s'.outletSchedules j = s.outletSchedules (j + 1)) ∧
        (∀ j, n ≤ j → s'.outletSchedules j = s.outletSchedules j) ∧
        (n = 1 → s'.outletSchedules = s.outletSchedules)) := by
  constructor
  · intro s ms n k hn1 hncap hk hcount hidx hsel
    have htrip : (s.dosingScheduleCount - 1 - (k : Int)).toNat = n - 1 - k := by
      rw [hcount]; omega
    obtain ⟨a, ha, h1, h2, h3⟩ :=
      shiftLoop_inside MAX_DOSING_SCHEDULES (n - 1 - k) s.dosingSchedules k (by omega)
    have hlast : arrayIndex MAX_DOSING_SCHEDULES (s.dosingScheduleCount - 1) = some (n - 1) := by
      have := arrayIndex_ofNat MAX_DOSING_SCHEDULES (n - 1) (by omega)
      rw [hcount]
      have e : ((n - 1 : Nat) : Int) = (n : Int) - 1 := by omega
      rw [← e]
      exact this
    have hval : legacyDosingDeleteConfirm s ms = some (navigateToMenu
          { s with
            dosingSchedules := Function.update a (n - 1) { a (n - 1) with enabled := false }
            dosingScheduleCount := s.dosingScheduleCount - 1 }
          MenuState.MENU_DOSING_SCHEDULE 0 ms) := by
      unfold legacyDosingDeleteConfirm
      rw [if_pos hsel]
      simp only [htrip, hidx, ha, hlast]
    refine ⟨_, hval, ?_, ?_, ?_, ?_, ?_⟩
    · simp [navigateToMenu, hcount]
    · intro j hj
      simp only [navigateToMenu]
      rw [Function.update_noteq (by omega), h1 j hj]
    · intro j hj1 hj2
      simp only [navigateToMenu]
      rw [Function.update_noteq (by omega), h2 j hj1 (by omega)]
    · intro j hj
      simp only [navigateToMenu]
      rw [Function.update_noteq (by omega), h3 j (by omega)]
    · intro hn
      subst hn
      have hk0 : k = 0 := by omega
      subst hk0
      have haeq : a = s.dosingSchedules := funext (fun j => h3 j (by omega))
      simp only [navigateToMenu, haeq]
  · intro s ms n k hn1 hncap hk hcount hidx hsel
    have htrip : (s.outletScheduleCount - 1 - (k : Int)).toNat = n - 1 - k := by
      rw [hcount]; omega
    obtain ⟨a, ha, h1, h2, h3⟩ :=
      shiftLoop_inside MAX_OUTLET_SCHEDULES (n - 1 - k) s.outletSchedules k (by omega)
    have hval : selectOutletDeleteConfirmMenu s ms = some (navigateToMenu
          { s with outletSchedules := a, outletScheduleCount := s.outletScheduleCount - 1 }
          MenuState.MENU_OUTLET_SCHEDULE 0 ms) := by
      unfold selectOutletDeleteConfirmMenu
      rw [if_pos hsel]
      simp only [htrip, hidx, ha]
    refine ⟨_, hval, ?_, ?_, ?_, ?_, ?_⟩
    · simp [navigateToMenu, hcount]
    · intro j hj
      simp only [navigateToMenu]
      exact h1 j hj
    · intro j hj1 hj2
      simp only [navigateToMenu]
      exact h2 j hj1 (by omega)
    · intro j hj
      simp only [navigateToMenu]
      exact h3 j (by omega)
    · intro hn
      subst hn
      have hk0 : k = 0 := by omega
      subst hk0
      simp only [navigateToMenu]
      exact funext (fun j => h3 j (by omega))

/-- C5, on three stored schedules with entry 1 selected: two are left, entry 0
is the old entry 0 and entry 1 is the old entry 2, in both stores. -/
theorem C5_delete_shifts_down_witness :
    (legacyDosingDeleteConfirm demoStores 0).map
        (fun s' => (s'.dosingScheduleCount, (s'.dosingSchedules 0).hour,
          (s'.dosingSchedules 1).hour)) = some (2, 1, 3) ∧
    (selectOutletDeleteConfirmMenu demoStores 0).map
        (fun s' => (s'.outletScheduleCount, (s'.outletSchedules 0).relayNumber,
          (s'.outletSchedules 1).relayNumber)) = some (2, 1, 3) := by
  obtain ⟨s1, e1, c1, l1, m1, _⟩ := C5_delete_shifts_down.1 demoStores 0 3 1
    (by decide) (by decide) (by decide) rfl rfl rfl
  obtain ⟨s2, e2, c2, l2, m2, _⟩ := C5_delete_shifts_down.2 demoStores 0 3 1
    (by decide) (by decide) (by decide) rfl rfl rfl
  rw [e1, e2]
  simp only [Option.map_some', c1, c2, l1 0 (by decide), m1 1 (by decide) (by decide),
    l2 0 (by decide), m2 1 (by decide) (by decide)]
  exact ⟨rfl, rfl⟩

/-- C6: in the dosing editor (legacy branch `MENU_DOSING_ADD`, field 4) and in
the outlet editor (`selectOutletAddMenu`, field 5), pressing Save with the
day-mask scratch equal to 0, or with the store at its capacity (24 dosing,
10 outlet), leaves the schedule array and its count unchanged and leaves
`currentMenu` on the editor. -/
theorem C6_save_rejected :
    (∀ (s : State) (ms : Nat),
      s.menuNav.currentMenu = MenuState.MENU_DOSING_ADD → s.menuNav.selectedIndex = 4 →
      (s.menuNav.tempDaysBitmap = 0 ∨ (MAX_DOSING_SCHEDULES : Int) ≤ s.dosingScheduleCount) →
      ∃ s', legacyDosingAdd s ms = some s' ∧
        s'.dosingSchedules = s.dosingSchedules ∧
        s'.dosingScheduleCount = s.dosingScheduleCount ∧
        s'.menuNav.currentMenu = MenuState.MENU_DOSING_ADD) ∧
    (∀ (s : State) (ms : Nat),
      s.menuNav.currentMenu = MenuState.MENU_OUTLET_ADD → s.menuNav.selectedIndex = 5 →
      (s.menuNav.tempDaysBitmap = 0 ∨ (MAX_OUTLET_SCHEDULES : Int) ≤ s.outletScheduleCount) →
      ∃ s', selectOutletAddMenu s ms = some s' ∧
        s'.outletSchedules = s.outletSchedules ∧
        s'.outletScheduleCount = s.outletScheduleCount ∧
        s'.menuNav.currentMenu = MenuState.MENU_OUTLET_ADD) := by
  constructor
  · intro s ms hmenu hsel hrej
    by_cases hmask : s.menuNav.tempDaysBitmap = 0
    · refine ⟨showSplash s, ?_, rfl, rfl, hmenu⟩
      simp [legacyDosingAdd, hsel, hmask]
    · have hfull : (MAX_DOSING_SCHEDULES : Int) ≤ s.dosingScheduleCount :=
        hrej.resolve_left hmask
      refine ⟨{ s with menuNav := { s.menuNav with needsFullRedraw := true } }, ?_,
        rfl, rfl, hmenu⟩
      have hf : (24 : Int) ≤ s.dosingScheduleCount := by simpa using hfull
      simp only [legacyDosingAdd, hsel]
      simp [hmask]
      intro h
      omega
  · intro s ms hmenu hsel hrej
    by_cases hmask : s.menuNav.tempDaysBitmap = 0
    · refine ⟨showSplash s, ?_, rfl, rfl, hmenu⟩
      simp [selectOutletAddMenu, hsel, hmask]
    · have hfull : (MAX_OUTLET_SCHEDULES : Int) ≤ s.outletScheduleCount :=
        hrej.resolve_left hmask
      refine ⟨showSplash s, ?_, rfl, rfl, hmenu⟩
      have hf : (10 : Int) ≤ s.outletScheduleCount := by simpa using hfull
      simp only [selectOutletAddMenu, hsel]
      simp [hmask]
      intro h
      omega

/-- C6, at an empty day mask with 3 stored dosing schedules and at a full
outlet store with a non-empty day mask. -/
theorem C6_save_rejected_witness :
    (legacyDosingAdd (demoDosingSave 0 3) 0).map
        (fun s' => (s'.dosingScheduleCount, s'.menuNav.currentMenu)) =
      some (3, MenuState.MENU_DOSING_ADD) ∧
    (selectOutletAddMenu (demoOutletSave 127 10) 0).map
        (fun s' => (s'.outletScheduleCount, s'.menuNav.currentMenu)) =
      some (10, MenuState.MENU_OUTLET_ADD) := by
  obtain ⟨s1, e1, _, c1, m1⟩ :=
    C6_save_rejected.1 (demoDosingSave 0 3) 0 rfl rfl (Or.inl rfl)
  obtain ⟨s2, e2, _, c2, m2⟩ :=
    C6_save_rejected.2 (demoOutletSave 127 10) 0 rfl rfl (Or.inr (by decide))
  rw [e1, e2]
  simp only [Option.map_some', c1, m1, c2, m2]
  exact ⟨rfl, rfl⟩

/-- C7 as stated fails: when the temporary record has its interval flag set
(here with 30 interval minutes), Save with day mask 1 into the empty store
does not write the temporary record with `daysOfWeek = 1` and
`enabled = true`; the stored record has the interval flag and the interval
minutes cleared. -/
theorem C7_counterexample_interval_fields :
    (legacyDosingAdd
        { menuNav :=
            { currentMenu := MenuState.MENU_DOSING_ADD, selectedIndex := 4, tempDaysBitmap := 1 }
          tempDosingSchedule :=
            { pumpNumber := 1, hour := 8, amountML := 10, isInterval := true,
              intervalMinutes := 30 }
          dosingScheduleCount := 0 } 0).map (fun s' => s'.dosingSchedules 0) =
      some { pumpNumber := 1, daysOfWeek := 1, hour := 8, amountML := 10, isInterval := false,
             intervalMinutes := 0, enabled := true } ∧
    ({ pumpNumber := 1, daysOfWeek := 1, hour := 8, amountML := 10, isInterval := false,
       intervalMinutes := 0, enabled := true } : DosingSchedule) ≠
      { ({ pumpNumber := 1, hour := 8, amountML := 10, isInterval := true,
           intervalMinutes := 30 } : DosingSchedule) with daysOfWeek := 1, enabled := true } := by
  constructor
  · rfl
  · decide

/-- C7 (amended): in the dosing editor, with a non-zero day-mask scratch and
`dosingScheduleCount = n < 24`, pressing Save writes at index `n` the
temporary record with `daysOfWeek` = the scratch mask, `enabled = true`,
`isInterval = false` and `intervalMinutes = 0`, leaves every other entry
unchanged, sets the count to `n + 1`, clears edit mode and transitions to
`MENU_DOSING_SCHEDULE`. -/
theorem C7_save_appends (s : State) (ms n : Nat)
    (hsel : s.menuNav.selectedIndex = 4)
    (hmask : s.menuNav.tempDaysBitmap ≠ 0)
    (hcount : s.dosingScheduleCount = (n : Int))
    (hn : n < MAX_DOSING_SCHEDULES) :
    ∃ s', legacyDosingAdd s ms = some s' ∧
      s'.dosingSchedules n =
        { s.tempDosingSchedule with
          daysOfWeek := s.menuNav.tempDaysBitmap
          enabled := true
          isInterval := false
          intervalMinutes := 0 } ∧
      (∀ j, j ≠ n → s'.dosingSchedules j = s.dosingSchedules j) ∧
      s'.dosingScheduleCount = (n : Int) + 1 ∧
      s'.menuNav.inEditMode = false ∧
      s'.menuNav.currentMenu = MenuState.MENU_DOSING_SCHEDULE := by
  have hidx : arrayIndex MAX_DOSING_SCHEDULES s.dosingScheduleCount = some n := by
    rw [hcount]; exact arrayIndex_ofNat _ n hn
  have hnf : ¬ s.dosingScheduleCount ≥ (MAX_DOSING_SCHEDULES : Int) := by
    rw [hcount]
    have : (n : Int) < 24 := by exact_mod_cast hn
    simp only [Nat.cast_ofNat]
    omega
  have hval : legacyDosingAdd s ms = some (navigateToMenu
      { s with
        tempDosingSchedule :=
          { s.tempDosingSchedule with
            daysOfWeek := s.menuNav.tempDaysBitmap
            enabled := true
            isInterval := false
            intervalMinutes := 0 }
        dosingSchedules := Function.update s.dosingSchedules n
          { s.tempDosingSchedule with
            daysOfWeek := s.menuNav.tempDaysBitmap
            enabled := true
            isInterval := false
            intervalMinutes := 0 }
        dosingScheduleCount := s.dosingScheduleCount + 1
        menuNav := { s.menuNav with inEditMode := false } }
      MenuState.MENU_DOSING_SCHEDULE 0 ms) := by
    unfold legacyDosingAdd
    rw [if_neg (by rw [hsel]; decide), if_neg (by rw [hsel]; decide),
      if_neg (by rw [hsel]; decide), if_neg (by rw [hsel]; decide), if_pos hsel,
      if_neg hmask, if_neg hnf]
    simp only [hidx]
  refine ⟨_, hval, ?_, ?_, ?_, rfl, rfl⟩
  · simp [navigateToMenu]
  · intro j hj
    simp [navigateToMenu, Function.update_noteq hj]
  · simp [navigateToMenu, hcount]

/-- C7 (amended), at the seeded temporary record, day mask 62 (weekdays) and
3 stored schedules. -/
theorem C7_save_appends_witness :
    (legacyDosingAdd (demoDosingSave 62 3) 0).map
        (fun s' => (s'.dosingSchedules 3, s'.dosingScheduleCount, s'.menuNav.inEditMode,
          s'.menuNav.currentMenu)) =
      some ({ pumpNumber := 1, daysOfWeek := 62, hour := 8, minute := 0, amountML := 10,
              isInterval := false, intervalMinutes := 0, enabled := true },
            4, false, MenuState.MENU_DOSING_SCHEDULE) := by
  obtain ⟨s', e, r, _, c, i, m⟩ :=
    C7_save_appends (demoDosingSave 62 3) 0 3 rfl (by decide) rfl (by decide)
  rw [e]
  simp only [Option.map_some', r, c, i, m]
  rfl

/-! ### Inline field editors -/

/-- C8: in the dosing editor's edit mode on the Amount field, for every amount
`a` in [0, 5000] and every non-zero encoder delta `d`
(`encoderPosition - editValue`), `handleDosingAddMenu` sets the amount to 5000
if `a + d < 0`, to 0 if `a + d > 5000`, and to `a + d` otherwise; the result
is in [0, 5000]; 0 decremented once gives 5000 and 5000 incremented once
gives 0. -/
theorem C8_amount_wraps (s : State) (a : Nat) (d : Int)
    (hedit : s.menuNav.inEditMode = true)
    (hsel : s.menuNav.selectedIndex = 3)
    (ha : s.tempDosingSchedule.amountML = a)
    (hrange : a ≤ 5000)
    (hdelta : s.encoderPosition - s.menuNav.editValue = d)
    (hd : d ≠ 0) :
    (((handleDosingAddMenu s).tempDosingSchedule.amountML : Int) =
      if (a : Int) + d < 0 then 5000 else if (a : Int) + d > 5000 then 0 else (a : Int) + d) ∧
    (handleDosingAddMenu s).tempDosingSchedule.amountML ≤ 5000 ∧
    (a = 0 → d = -1 → (handleDosingAddMenu s).tempDosingSchedule.amountML = 5000) ∧
    (a = 5000 → d = 1 → (handleDosingAddMenu s).tempDosingSchedule.amountML = 0) := by
  have hval : (handleDosingAddMenu s).tempDosingSchedule.amountML =
      toUInt16 (if (a : Int) + d < 0 then 5000 else if (a : Int) + d > 5000 then 0
        else (a : Int) + d) := by
    have e0 : ¬ s.menuNav.selectedIndex = 0 := by rw [hsel]; decide
    have e1 : ¬ s.menuNav.selectedIndex = 1 := by rw [hsel]; decide
    have e2 : ¬ s.menuNav.selectedIndex = 2 := by rw [hsel]; decide
    unfold handleDosingAddMenu
    simp only [hedit, hdelta]
    simp only [Bool.not_true, Bool.false_eq_true, if_false, ne_eq, hd, not_false_eq_true,
      if_true]
    simp only [e0, if_false]
    simp only [e1, if_false]
    simp only [e2, if_false]
    simp only [hsel, if_true, ha, mul_one]
  rw [hval]
  unfold toUInt16
  refine ⟨?_, ?_, ?_, ?_⟩
  · split_ifs <;> omega
  · split_ifs <;> omega
  · intro h0 h1
    subst h0 h1
    decide
  · intro h0 h1
    subst h0 h1
    decide

/-- C8, at the two ends of the dial: amount 0 turned one step down and amount
5000 turned one step up. -/
theorem C8_amount_wraps_witness :
    (handleDosingAddMenu (demoAmountEdit 0 (-1))).tempDosingSchedule.amountML = 5000 ∧
    (handleDosingAddMenu (demoAmountEdit 5000 1)).tempDosingSchedule.amountML = 0 :=
  ⟨(C8_amount_wraps (demoAmountEdit 0 (-1)) 0 (-1) rfl rfl rfl (by decide) (by decide)
      (by decide)).2.2.1 rfl rfl,
    (C8_amount_wraps (demoAmountEdit 5000 1) 5000 1 rfl rfl rfl (by decide) (by decide)
      (by decide)).2.2.2 rfl rfl⟩

/-- C9 as stated fails: with relay number 0 (the value the temporary outlet
record has before anything is stored in it) and an encoder delta of 0,
`handleOutletAddMenu` leaves the relay number at 0, while
`min(4, max(1, 0 + 0))` is 1. -/
theorem C9_counterexample_zero_delta :
    (handleOutletAddMenu (demoRelayEdit 0 0)).tempOutletSchedule.relayNumber = 0 ∧
    min (4 : Int) (max 1 (((demoRelayEdit 0 0).tempOutletSchedule.relayNumber : Int) +
      ((demoRelayEdit 0 0).encoderPosition - (demoRelayEdit 0 0).outletAddLastPos))) = 1 := by
  constructor
  · rfl
  · decide

/-- C9 (amended): in the outlet editor's edit mode on the Relay field, for
every relay number `r` and every non-zero encoder delta `d`
(`encoderPosition - lastPos`), `handleOutletAddMenu` sets the relay number to
`min(4, max(1, r + d))`; a zero delta leaves the relay number as it is, so for
`r` in [1, 4] the formula holds for every delta. In particular 1 decremented
stays 1 and 4 incremented stays 4. -/
theorem C9_relay_saturates (s : State) (r : Nat) (d : Int)
    (hedit : s.menuNav.inEditMode = true)
    (hsel : s.menuNav.selectedIndex = 0)
    (hr : s.tempOutletSchedule.relayNumber = r)
    (hdelta : s.encoderPosition - s.outletAddLastPos = d) :
    (d ≠ 0 → ((handleOutletAddMenu s).tempOutletSchedule.relayNumber : Int) =
      min 4 (max 1 ((r : Int) + d))) ∧
    (d = 0 → (handleOutletAddMenu s).tempOutletSchedule.relayNumber = r) ∧
    (1 ≤ r → r ≤ 4 → ((handleOutletAddMenu s).tempOutletSchedule.relayNumber : Int) =
      min 4 (max 1 ((r : Int) + d))) ∧
    (r = 1 → d < 0 → (handleOutletAddMenu s).tempOutletSchedule.relayNumber = 1) ∧
    (r = 4 → 0 < d → (handleOutletAddMenu s).tempOutletSchedule.relayNumber = 4) := by
  have hval : (handleOutletAddMenu s).tempOutletSchedule.relayNumber =
      if d ≠ 0 then toUInt8 (constrain ((r : Int) + d) 1 4) else r := by
    unfold handleOutletAddMenu
    simp only [hedit, hsel, hdelta, hr]
    by_cases h0 : d = 0
    · simp [h0, hr]
    · simp [h0]
  have hnz : d ≠ 0 → ((handleOutletAddMenu s).tempOutletSchedule.relayNumber : Int) =
      min 4 (max 1 ((r : Int) + d)) := by
    intro h0
    rw [hval, if_pos h0]
    unfold toUInt8 constrain
    split_ifs <;> omega
  have hz : d = 0 → (handleOutletAddMenu s).tempOutletSchedule.relayNumber = r := by
    intro h0
    rw [hval, if_neg (by simp [h0])]
  refine ⟨hnz, hz, ?_, ?_, ?_⟩
  · intro h1 h4
    by_cases h0 : d = 0
    · rw [hz h0, h0]; omega
    · exact hnz h0
  · intro h1 hneg
    have := hnz (by omega)
    subst h1
    omega
  · intro h4 hpos
    have := hnz (by omega)
    subst h4
    omega

/-- C9 (amended), at relay 1 turned one step down, relay 4 turned one step up
and relay 2 turned five steps up. -/
theorem C9_relay_saturates_witness :
    (handleOutletAddMenu (demoRelayEdit 1 (-1))).tempOutletSchedule.relayNumber = 1 ∧
    (handleOutletAddMenu (demoRelayEdit 4 1)).tempOutletSchedule.relayNumber = 4 ∧
    ((handleOutletAddMenu (demoRelayEdit 2 5)).tempOutletSchedule.relayNumber : Int) =
      min 4 (max 1 (2 + 5)) :=
  ⟨(C9_relay_saturates (demoRelayEdit 1 (-1)) 1 (-1) rfl rfl rfl (by decide)).2.2.2.1 rfl
      (by decide),
    (C9_relay_saturates (demoRelayEdit 4 1) 4 1 rfl rfl rfl (by decide)).2.2.2.2 rfl
      (by decide),
    (C9_relay_saturates (demoRelayEdit 2 5) 2 5 rfl rfl rfl (by decide)).1 (by decide)⟩

/-! ### Day bitmap -/

/-- C10: toggling day `d` (0 to 6) twice in an 8-bit day mask `m` gives `m`
back. -/
theorem C10_toggleDay_involutive (m d : Nat) (hm : m < 256) (hd : d ≤ 6) :
    toggleDay (toggleDay m d) d = m := by
  have hbit : 1 <<< d < 2 ^ 8 := by
    rw [Nat.one_shiftLeft]
    exact Nat.pow_lt_pow_right (by decide) (by omega)
  have hx : m ^^^ 1 <<< d < 2 ^ 8 := Nat.xor_lt_two_pow (by simpa using hm) hbit
  have hx1 : (m ^^^ 1 <<< d) % 256 = m ^^^ 1 <<< d := Nat.mod_eq_of_lt hx
  unfold toggleDay
  rw [hx1, Nat.xor_assoc, Nat.xor_self, Nat.xor_zero]
  exact Nat.mod_eq_of_lt hm

/-- C10, at the mask 42 and Wednesday. -/
theorem C10_toggleDay_involutive_witness :
    (42 < 256 ∧ 3 ≤ 6) ∧ toggleDay (toggleDay 42 3) 3 = 42 :=
  ⟨⟨by decide, by decide⟩, C10_toggleDay_involutive 42 3 (by decide) (by decide)⟩

/-- C11: for each canonical mask (`DAY_ALL` = 127, `DAY_WEEKDAYS` = 62,
`DAY_WEEKENDS` = 65) each of `getDaysString`, `getDaysStringLong` and
`formatDaysCompact` returns its fixed label, and that label differs from the
string the formatter's own Sunday-to-Saturday loop builds for the mask; for
the mask 0 they return "None", "No Days" and "None". -/
theorem C11_canonical_masks_have_fixed_labels :
    ((getDaysString DAY_ALL = "All Days" ∧ getDaysString DAY_ALL ≠ getDaysStringLoop DAY_ALL) ∧
      (getDaysString DAY_WEEKDAYS = "Weekdays" ∧
        getDaysString DAY_WEEKDAYS ≠ getDaysStringLoop DAY_WEEKDAYS) ∧
      (getDaysString DAY_WEEKENDS = "Weekends" ∧
        getDaysString DAY_WEEKENDS ≠ getDaysStringLoop DAY_WEEKENDS)) ∧
    ((getDaysStringLong DAY_ALL = "All Days" ∧
        getDaysStringLong DAY_ALL ≠ getDaysStringLongLoop DAY_ALL) ∧
      (getDaysStringLong DAY_WEEKDAYS = "Mon-Fri" ∧
        getDaysStringLong DAY_WEEKDAYS ≠ getDaysStringLongLoop DAY_WEEKDAYS) ∧
      (getDaysStringLong DAY_WEEKENDS = "Sat-Sun" ∧
        getDaysStringLong DAY_WEEKENDS ≠ getDaysStringLongLoop DAY_WEEKENDS)) ∧
    ((formatDaysCompact DAY_ALL = "All Days" ∧
        formatDaysCompact DAY_ALL ≠ formatDaysCompactLoop DAY_ALL) ∧
      (formatDaysCompact DAY_WEEKDAYS = "Mo-Fr" ∧
        formatDaysCompact DAY_WEEKDAYS ≠ formatDaysCompactLoop DAY_WEEKDAYS) ∧
      (formatDaysCompact DAY_WEEKENDS = "Sa,Su" ∧
        formatDaysCompact DAY_WEEKENDS ≠ formatDaysCompactLoop DAY_WEEKENDS)) ∧
    (getDaysString 0 = "None" ∧ getDaysStringLong 0 = "No Days" ∧
      formatDaysCompact 0 = "None") ∧
    (getDaysStringLoop DAY_WEEKENDS = "Sun,Sat" ∧
      getDaysStringLongLoop DAY_WEEKDAYS = "Monday, Tuesday, Wednesday, Thursday, Friday" ∧
      formatDaysCompactLoop DAY_WEEKENDS = "Su,Sa") := by
  refine ⟨⟨⟨?_, ?_⟩, ⟨?_, ?_⟩, ⟨?_, ?_⟩⟩, ⟨⟨?_, ?_⟩, ⟨?_, ?_⟩, ⟨?_, ?_⟩⟩,
    ⟨⟨?_, ?_⟩, ⟨?_, ?_⟩, ⟨?_, ?_⟩⟩, ⟨?_, ?_, ?_⟩, ⟨?_, ?_, ?_⟩⟩ <;> decide

/-! ### Idle timeout -/

/-- C12: if `currentMenu` is not `MENU_MAIN` and `currentTime - lastActivity`
(32-bit unsigned) exceeds `MENU_TIMEOUT` = 30000 ms, `checkMenuTimeout` returns
true and leaves `currentMenu = MENU_MAIN`, `inEditMode = false`,
`selectedIndex = 0`, `scrollOffset = 0` and the encoder position 0; otherwise
it returns false and changes nothing. -/
theorem C12_checkMenuTimeout (s : State) (currentTime ms : Nat) :
    (s.menuNav.currentMenu ≠ MenuState.MENU_MAIN →
      MENU_TIMEOUT < usub32 currentTime s.menuNav.lastActivity →
        (checkMenuTimeout s currentTime ms).1 = true ∧
        (checkMenuTimeout s currentTime ms).2.menuNav.currentMenu = MenuState.MENU_MAIN ∧
        (checkMenuTimeout s currentTime ms).2.menuNav.inEditMode = false ∧
        (checkMenuTimeout s currentTime ms).2.menuNav.selectedIndex = 0 ∧
        (checkMenuTimeout s currentTime ms).2.menuNav.scrollOffset = 0 ∧
        (checkMenuTimeout s currentTime ms).2.encoderPosition = 0) ∧
    (¬ (s.menuNav.currentMenu ≠ MenuState.MENU_MAIN ∧
        MENU_TIMEOUT < usub32 currentTime s.menuNav.lastActivity) →
      checkMenuTimeout s currentTime ms = (false, s)) := by
  constructor
  · intro hmenu hidle
    have hval : checkMenuTimeout s currentTime ms = (true, resetToMainScreen s ms) := by
      unfold checkMenuTimeout
      rw [if_pos ⟨hmenu, hidle⟩]
    rw [hval]
    exact ⟨rfl, rfl, rfl, rfl, rfl, rfl⟩
  · intro hnot
    unfold checkMenuTimeout
    rw [if_neg hnot]

/-- C12, at the dosing editor idle since 1000 ms: at 31001 ms the timeout
fires, at 31000 ms it does not. -/
theorem C12_checkMenuTimeout_witness :
    ((checkMenuTimeout (demoIdleEditor 5) 31001 31001).1 = true ∧
      (checkMenuTimeout (demoIdleEditor 5) 31001 31001).2.menuNav.currentMenu =
        MenuState.MENU_MAIN ∧
      (checkMenuTimeout (demoIdleEditor 5) 31001 31001).2.encoderPosition = 0) ∧
    checkMenuTimeout (demoIdleEditor 5) 31000 31000 = (false, demoIdleEditor 5) :=
  ⟨⟨((C12_checkMenuTimeout (demoIdleEditor 5) 31001 31001).1 (by decide) (by decide)).1,
      ((C12_checkMenuTimeout (demoIdleEditor 5) 31001 31001).1 (by decide) (by decide)).2.1,
      ((C12_checkMenuTimeout (demoIdleEditor 5) 31001 31001).1 (by decide)
        (by decide)).2.2.2.2.2⟩,
    (C12_checkMenuTimeout (demoIdleEditor 5) 31000 31000).2 (by decide)⟩

/-- C13, evaluated where the code departs from it: for every navigation
state in a non-home menu whose idle time exceeds the timeout,
`checkMenuTimeout` fires and `resetToMainScreen` goes home and resets the
other scratch fields of the editors (`inEditMode` false, `editingHour` true,
`daySelectIndex` 0, `tempIndex` -1), but it does not write
`menuNav.tempDaysBitmap`: the scratch day mask keeps the value it held, so it
is not 0 afterwards unless it was 0 before. -/
theorem C13_timeout_leaves_day_mask (s : State) (currentTime ms : Nat)
    (hmenu : s.menuNav.currentMenu ≠ MenuState.MENU_MAIN)
    (hidle : MENU_TIMEOUT < usub32 currentTime s.menuNav.lastActivity) :
    (checkMenuTimeout s currentTime ms).1 = true ∧
    (checkMenuTimeout s currentTime ms).2.menuNav.currentMenu = MenuState.MENU_MAIN ∧
    (checkMenuTimeout s currentTime ms).2.menuNav.inEditMode = false ∧
    (checkMenuTimeout s currentTime ms).2.menuNav.editingHour = true ∧
    (checkMenuTimeout s currentTime ms).2.menuNav.daySelectIndex = 0 ∧
    (checkMenuTimeout s currentTime ms).2.menuNav.tempIndex = -1 ∧
    (checkMenuTimeout s currentTime ms).2.menuNav.tempDaysBitmap = s.menuNav.tempDaysBitmap := by
  have hval : checkMenuTimeout s currentTime ms = (true, resetToMainScreen s ms) := by
    unfold checkMenuTimeout
    rw [if_pos ⟨hmenu, hidle⟩]
  rw [hval]
  exact ⟨rfl, rfl, rfl, rfl, rfl, rfl, rfl⟩

/-- C13, on a device booted with nothing stored: the user opens the dosing
editor, marks Sunday on the Days row (scratch mask 1) and leaves the panel
alone; the pass at 30501 ms, 30001 ms after the last press, times out and goes
home with edit mode cleared and the scratch mask still 1. Add Schedule of the
outlet menu does not write the scratch, so a Save in the outlet editor without
a visit to its Days row then stores a schedule for Sunday. -/
theorem C13_timeout_leaves_day_mask_witness :
    (bootState 0).menuNav.tempDaysBitmap = 0 ∧
    ∃ s, runUi (bootState 0) demoMaskPath = Outcome.next s ∧
      (s.menuNav.currentMenu = MenuState.MENU_DOSING_ADD ∧ s.menuNav.selectedIndex = 1 ∧
        s.menuNav.inEditMode = true ∧ s.menuNav.lastActivity = 500 ∧
        s.menuNav.tempDaysBitmap = 1) ∧
      ((checkMenuTimeout s 30501 30501).1 = true ∧
        (checkMenuTimeout s 30501 30501).2.menuNav.currentMenu = MenuState.MENU_MAIN ∧
        (checkMenuTimeout s 30501 30501).2.menuNav.inEditMode = false ∧
        (checkMenuTimeout s 30501 30501).2.menuNav.tempDaysBitmap = 1) ∧
      (runUi (checkMenuTimeout s 30501 30501).2 demoOutletSaveDirect).state.map
          (fun s2 => (s2.menuNav.currentMenu, s2.outletScheduleCount,
            (s2.outletSchedules 0).daysOfWeek, (s2.outletSchedules 0).enabled)) =
        some (MenuState.MENU_OUTLET_SCHEDULE, 1, 1, true) := by
  refine ⟨rfl, ?_⟩
  have hstate : (runUi (bootState 0) demoMaskPath).state.map
      (fun s => (s.menuNav.currentMenu, s.menuNav.selectedIndex, s.menuNav.inEditMode,
        s.menuNav.lastActivity, s.menuNav.tempDaysBitmap)) =
      some (MenuState.MENU_DOSING_ADD, 1, true, 500, 1) := by rfl
  have hleak : (runUi (bootState 0) demoMaskPath).state.bind
      (fun s => (runUi (checkMenuTimeout s 30501 30501).2 demoOutletSaveDirect).state.map
          (fun s2 => (s2.menuNav.currentMenu, s2.outletScheduleCount,
            (s2.outletSchedules 0).daysOfWeek, (s2.outletSchedules 0).enabled))) =
      some (MenuState.MENU_OUTLET_SCHEDULE, 1, 1, true) := by rfl
  cases hrun : runUi (bootState 0) demoMaskPath with
  | next s =>
    rw [hrun] at hstate hleak
    simp only [Outcome.state, Option.map_some', Option.some.injEq, Prod.mk.injEq] at hstate
    simp only [Outcome.state, Option.some_bind] at hleak
    obtain ⟨h1, h2, h3, h4, h5⟩ := hstate
    have hmenu : s.menuNav.currentMenu ≠ MenuState.MENU_MAIN := by rw [h1]; decide
    have hidle : MENU_TIMEOUT < usub32 30501 s.menuNav.lastActivity := by rw [h4]; decide
    have hthm := C13_timeout_leaves_day_mask s 30501 30501 hmenu hidle
    exact ⟨s, rfl, ⟨h1, h2, h3, h4, h5⟩,
      ⟨hthm.1, hthm.2.1, hthm.2.2.1, by rw [hthm.2.2.2.2.2.2, h5]⟩, hleak⟩
  | undefined => rw [hrun] at hstate; exact absurd hstate (by simp [Outcome.state])
  | restart => rw [hrun] at hstate; exact absurd hstate (by simp [Outcome.state])

/-! ### Menu navigation -/

/-- The one branch of the legacy switch that changes `currentMenu` without
`navigateToMenu`, the Cancel item of `MENU_MANUAL_DOSING`: it would leave the
encoder and `needsRedraw` as they were. No call reaches it:
`handleMenuSelection` enters the legacy switch only for a registry entry
without a selection function, and in that state it calls the function of the
entry read for `MENU_MANUAL_DOSING`, which returns the state unchanged. -/
theorem legacyManualDosing_cancel :
    (demoManualCancel.menuNav.currentMenu = MenuState.MENU_MANUAL_DOSING ∧
      (legacyManualDosing demoManualCancel 0).menuNav.currentMenu = MenuState.MENU_MAIN ∧
      (legacyManualDosing demoManualCancel 0).menuNav.selectedIndex = 0 ∧
      (legacyManualDosing demoManualCancel 0).encoderPosition = 3 ∧
      (legacyManualDosing demoManualCancel 0).menuNav.needsRedraw = false) ∧
    handleMenuSelection demoManualCancel 0 = Outcome.next demoManualCancel := by
  refine ⟨⟨rfl, ?_, ?_, ?_, ?_⟩, rfl⟩ <;> rfl

/-- C15: for a descriptor with `itemCount > 0`, every encoder position and
every `scrollOffset >= 0`, after `defaultMenuNav` the selected index is
`min(itemCount - 1, max(0, position))`, the encoder position equals it, and
with scrolling enabled `0 <= scrollOffset <= selectedIndex <
scrollOffset + 8`, with scrolling disabled `scrollOffset = 0`. -/
theorem C15_defaultMenuNav (s : State) (m : MenuDef)
    (hcount : 0 < m.itemCount) (hoffset : 0 ≤ s.menuNav.scrollOffset) :
    (defaultMenuNav s m).menuNav.selectedIndex =
      min (m.itemCount - 1) (max 0 s.encoderPosition) ∧
    (defaultMenuNav s m).encoderPosition = (defaultMenuNav s m).menuNav.selectedIndex ∧
    (m.useScrolling = true →
      0 ≤ (defaultMenuNav s m).menuNav.scrollOffset ∧
      (defaultMenuNav s m).menuNav.scrollOffset ≤ (defaultMenuNav s m).menuNav.selectedIndex ∧
      (defaultMenuNav s m).menuNav.selectedIndex <
        (defaultMenuNav s m).menuNav.scrollOffset + MENU_ITEMS_PER_PAGE) ∧
    (m.useScrolling = false → (defaultMenuNav s m).menuNav.scrollOffset = 0) := by
  have hclampSel : (clampEncoderPosition s 0 (m.itemCount - 1)).menuNav.selectedIndex =
      min (m.itemCount - 1) (max 0 s.encoderPosition) := by
    simp only [clampEncoderPosition]
    split_ifs <;> omega
  have hclampEnc : (clampEncoderPosition s 0 (m.itemCount - 1)).encoderPosition =
      (clampEncoderPosition s 0 (m.itemCount - 1)).menuNav.selectedIndex := rfl
  have hclampOff : (clampEncoderPosition s 0 (m.itemCount - 1)).menuNav.scrollOffset =
      s.menuNav.scrollOffset := rfl
  have hsel0 : 0 ≤ (clampEncoderPosition s 0 (m.itemCount - 1)).menuNav.selectedIndex := by
    rw [hclampSel]; omega
  cases hscroll : m.useScrolling with
  | false =>
    have hval : defaultMenuNav s m =
        { clampEncoderPosition s 0 (m.itemCount - 1) with
          menuNav :=
            { (clampEncoderPosition s 0 (m.itemCount - 1)).menuNav with scrollOffset := 0 } } := by
      unfold defaultMenuNav
      rw [if_neg (by omega)]
      simp [hscroll]
    rw [hval]
    refine ⟨hclampSel, rfl, ?_, fun _ => rfl⟩
    intro h
    exact absurd h (by decide)
  | true =>
    unfold defaultMenuNav
    rw [if_neg (by omega)]
    simp only [hscroll, if_true]
    generalize hc : clampEncoderPosition s 0 (m.itemCount - 1) = c at *
    refine ⟨?_, ?_, ?_, ?_⟩
    · split_ifs <;> exact hclampSel
    · split_ifs <;> exact hclampEnc
    · intro _
      have h8 : MENU_ITEMS_PER_PAGE = 8 := rfl
      split_ifs with h1 h2 h3 <;> (try dsimp only at *) <;> (try rw [h8] at *) <;>
        refine ⟨?_, ?_, ?_⟩ <;> (try rw [h8]) <;> omega
    · intro h
      exact absurd h (by decide)

/-- C15, on a scrolling list of 20 items with the encoder at 12 and the
offset at 0: the cursor is on item 12; on a two-item list that does not
scroll, with the encoder at -4 and the offset at 3, the offset is set back
to 0. -/
theorem C15_defaultMenuNav_witness :
    ((defaultMenuNav (demoList 12 0)
        { title := "LIST", items := none, itemCount := 20, useScrolling := true,
          drawFn := none, navFn := none, selectFn := none,
          backMenu := MenuState.MENU_MAIN }).menuNav.selectedIndex = min (20 - 1) (max 0 12)) ∧
    ((defaultMenuNav (demoList (-4) 3)
        { title := "YESNO", items := none, itemCount := 2, useScrolling := false,
          drawFn := none, navFn := none, selectFn := none,
          backMenu := MenuState.MENU_MAIN }).menuNav.scrollOffset = 0) :=
  ⟨(C15_defaultMenuNav (demoList 12 0)
      { title := "LIST", items := none, itemCount := 20, useScrolling := true,
        drawFn := none, navFn := none, selectFn := none,
        backMenu := MenuState.MENU_MAIN } (by decide) (by decide)).1,
    (C15_defaultMenuNav (demoList (-4) 3)
      { title := "YESNO", items := none, itemCount := 2, useScrolling := false,
        drawFn := none, navFn := none, selectFn := none,
        backMenu := MenuState.MENU_MAIN } (by decide) (by decide)).2.2.2 rfl⟩

/-- C16, evaluated where the code departs from it: `enum MenuState` has 54
enumerators (values 0 to 53) and `MENUS[]` has 55 entries, the entry
"OUTLET SET TIME" at position 15 belonging to no enumerator. Read by enum
value, `MENUS[MENU_OUTLET_DELETE_SELECT]` is the entry written for
`MENU_OUTLET_DELETE` (no navigation and no selection function),
`MENUS[MENU_OUTLET_DELETE_ALL_CONFIRM]` is the entry written for
`MENU_OUTLET_DELETE_CONFIRM` (selection function
`selectOutletDeleteConfirmMenu`) and `MENUS[MENU_MANUAL_DOSING]` is the entry
written for `MENU_OUTLET_DELETE_ALL_CONFIRM` (no items, selection function
`selectOutletDeleteAllConfirmMenu`); the "MANUAL DOSING" list sits one
position later. -/
theorem C16_menus_not_in_enum_order :
    (∀ m : MenuState, m.index < 54) ∧
    MenuState.MENU_FACTORY_RESET_CONFIRM.index = 53 ∧
    MENUS.length = 55 ∧
    MENUS.get? 15 = some (MENU_PLACEHOLDER "OUTLET SET TIME" MenuState.MENU_OUTLET_ADD) ∧
    menuAt MenuState.MENU_OUTLET_DELETE_SELECT =
      some { title := "OUTLET DELETE", items := none, itemCount := 0, useScrolling := false,
             drawFn := some MenuDrawFn.drawOutletScheduleListScreen, navFn := none,
             selectFn := none, backMenu := MenuState.MENU_OUTLET_SCHEDULE } ∧
    (menuAt MenuState.MENU_OUTLET_DELETE_ALL_CONFIRM).map (fun d => (d.title, d.selectFn)) =
      some ("DELETE OUTLET CONFIRM", some MenuSelectFn.selectOutletDeleteConfirmMenu) ∧
    (menuAt MenuState.MENU_MANUAL_DOSING).map
        (fun d => (d.title, d.items, d.itemCount, d.selectFn)) =
      some ("OUTLET DEL ALL CONF", none, 0,
        some MenuSelectFn.selectOutletDeleteAllConfirmMenu) ∧
    (MENUS.get? (MenuState.MENU_MANUAL_DOSING.index + 1)).map
        (fun d => (d.title, d.items, d.itemCount, d.selectFn)) =
      some ("MANUAL DOSING", some MenuItems.manualDosingMenu, 4,
        some MenuSelectFn.selectManualDosingMenu) := by
  refine ⟨?_, ?_, ?_, ?_, ?_, ?_, ?_, ?_⟩
  · intro m
    cases m <;> decide
  all_goals rfl

/-! ### Cooldown after boot -/

/-- C17, evaluated where the code departs from it: on the freshly booted
engine `demoIdle` no slot has ever been started (every timestamp is the
initial 0), slot 0 is enabled and matches the clock, the engine is Idle and
the scan gate is open, yet the scan at 30000 ms of uptime starts nothing: the
cooldown test reads the initial 0 as a start at time 0. The same scan at
60000 ms starts the slot. -/
theorem C17_never_started_slot_skipped_after_boot :
    (demoIdle.activeDosing.state = DosingState.DOSING_IDLE ∧
      demoIdle.lastDosingExecution 0 = 0 ∧
      (demoIdle.dosingSchedules 0).enabled = true ∧
      isScheduleActiveToday { dayOfTheWeek := 3, hour := 8, minute := 0 }
        (demoIdle.dosingSchedules 0).daysOfWeek = true ∧
      (demoIdle.dosingSchedules 0).hour = 8 ∧ (demoIdle.dosingSchedules 0).minute = 0 ∧
      1000 ≤ usub32 30000 demoIdle.lastCheck) ∧
    (checkDosingSchedules demoIdle { dayOfTheWeek := 3, hour := 8, minute := 0 } 30000).map
        (fun s' => (s'.activeDosing.state, s'.lastDosingExecution 0)) =
      some (DosingState.DOSING_IDLE, 0) ∧
    (checkDosingSchedules demoIdle { dayOfTheWeek := 3, hour := 8, minute := 0 } 60000).map
        (fun s' => (s'.activeDosing.state, s'.lastDosingExecution 0)) =
      some (DosingState.DOSING_RUNNING, 60000) := by
  refine ⟨⟨rfl, rfl, rfl, by decide, rfl, rfl, by decide⟩, by rfl, ?_⟩
  have h : checkDosingSchedules demoIdle { dayOfTheWeek := 3, hour := 8, minute := 0 } 60000 =
      startDosing { demoIdle with lastCheck := 60000 } 0 60000 := by
    unfold checkDosingSchedules
    rw [if_neg (by decide), if_neg (by decide)]
    exact checkDosingLoop_first _ _ 60000 0 MAX_DOSING_SCHEDULES 0 (le_refl 0) (by decide)
      (by decide) (fun j h1 h2 => absurd h2 (by omega))
  have hs := startDosing_eq { demoIdle with lastCheck := 60000 } 0 60000 5000 (by decide)
    ⟨by decide, by decide⟩ dosingRunMs_example
  rw [h, hs]
  rfl

/-! ### Wrap loops of the dosing editor -/

theorem addWhileBelow_of_ge (lo step : Int) (h : 0 < step) (x : Int) (hx : lo ≤ x) :
    addWhileBelow lo step h x = x := by
  rw [addWhileBelow, dif_neg (by omega)]

/-- The loop `while (x < lo) x += step;` ends at or above `lo`, below
`lo + step` when it ran at all, a multiple of `step` away from its start. -/
theorem addWhileBelow_range (lo step : Int) (h : 0 < step) (x : Int) :
    lo ≤ addWhileBelow lo step h x ∧
    (x < lo → addWhileBelow lo step h x < lo + step) ∧
    ∃ k : Int, addWhileBelow lo step h x = x + k * step := by
  induction x using addWhileBelow.induct lo step h with
  | case1 x hx ih =>
    rw [addWhileBelow, dif_pos hx]
    obtain ⟨h1, h2, k, hk⟩ := ih
    refine ⟨h1, fun _ => ?_, k + 1, ?_⟩
    · by_cases hlt : x + step < lo
      · exact h2 hlt
      · rw [addWhileBelow_of_ge lo step h (x + step) (by omega)]; omega
    · rw [hk]; ring
  | case2 x hx =>
    rw [addWhileBelow, dif_neg hx]
    exact ⟨by omega, fun h' => absurd h' hx, 0, by ring⟩

theorem subWhileAbove_of_le (hi step : Int) (h : 0 < step) (x : Int) (hx : x ≤ hi) :
    subWhileAbove hi step h x = x := by
  rw [subWhileAbove, dif_neg (by omega)]

/-- The loop `while (x > hi) x -= step;` ends at or below `hi`, above
`hi - step` when it ran at all, a multiple of `step` away from its start. -/
theorem subWhileAbove_range (hi step : Int) (h : 0 < step) (x : Int) :
    subWhileAbove hi step h x ≤ hi ∧
    (hi < x → hi - step < subWhileAbove hi step h x) ∧
    ∃ k : Int, subWhileAbove hi step h x = x + k * step := by
  induction x using subWhileAbove.induct hi step h with
  | case1 x hx ih =>
    rw [subWhileAbove, dif_pos hx]
    obtain ⟨h1, h2, k, hk⟩ := ih
    refine ⟨h1, fun _ => ?_, k - 1, ?_⟩
    · by_cases hlt : hi < x - step
      · exact h2 hlt
      · rw [subWhileAbove_of_le hi step h (x - step) (by omega)]; omega
    · rw [hk]; ring
  | case2 x hx =>
    rw [subWhileAbove, dif_neg hx]
    exact ⟨by omega, fun h' => absurd h' hx, 0, by ring⟩

/-- The two loops in sequence bring any integer into `[lo, hi]` when
`hi = lo + step - 1`, changing it by a multiple of `step`. -/
theorem wrap_range (lo hi step : Int) (h : 0 < step) (hhi : hi = lo + step - 1) (x : Int) :
    lo ≤ subWhileAbove hi step h (addWhileBelow lo step h x) ∧
    subWhileAbove hi step h (addWhileBelow lo step h x) ≤ hi ∧
    ∃ k : Int, subWhileAbove hi step h (addWhileBelow lo step h x) = x + k * step := by
  obtain ⟨a1, _, ka, hka⟩ := addWhileBelow_range lo step h x
  obtain ⟨b1, b2, kb, hkb⟩ := subWhileAbove_range hi step h (addWhileBelow lo step h x)
  refine ⟨?_, b1, ka + kb, ?_⟩
  · by_cases hc : hi < addWhileBelow lo step h x
    · have := b2 hc; omega
    · rw [subWhileAbove_of_le _ _ h _ (by omega)]; exact a1
  · rw [hkb, hka]; ring

/-- In edit mode on the Pump field with a non-zero delta, the pump number
`handleDosingAddMenu` leaves is the wrapped sum. -/
theorem handleDosingAddMenu_pump (s : State)
    (hedit : s.menuNav.inEditMode = true) (hsel : s.menuNav.selectedIndex = 0)
    (hd : s.encoderPosition - s.menuNav.editValue ≠ 0) :
    (handleDosingAddMenu s).tempDosingSchedule.pumpNumber =
      toUInt8 (subWhileAbove 4 4 (by decide) (addWhileBelow 1 4 (by decide)
        ((s.tempDosingSchedule.pumpNumber : Int) + (s.encoderPosition - s.menuNav.editValue)))) := by
  unfold handleDosingAddMenu
  simp only [hedit, Bool.not_true, Bool.false_eq_true, if_false, ne_eq, hd, not_false_eq_true,
    if_true]
  have e1 : ¬ s.menuNav.selectedIndex = 1 := by rw [hsel]; decide
  have e2 : ¬ s.menuNav.selectedIndex = 2 := by rw [hsel]; decide
  have e3 : ¬ s.menuNav.selectedIndex = 3 := by rw [hsel]; decide
  have n1 : ¬ ((0 : Int) = 1) := by decide
  have n2 : ¬ ((0 : Int) = 2) := by decide
  have n3 : ¬ ((0 : Int) = 3) := by decide
  simp only [hsel, n1, n2, n3, e1, e2, e3, if_true, if_false]

/-- In edit mode on the Time field with a non-zero delta, the hour (hour
phase) or the minute (minute phase) `handleDosingAddMenu` leaves is the
wrapped sum, the delta counting five minutes a step. -/
theorem handleDosingAddMenu_time (s : State)
    (hedit : s.menuNav.inEditMode = true) (hsel : s.menuNav.selectedIndex = 2)
    (hd : s.encoderPosition - s.menuNav.editValue ≠ 0) :
    (s.menuNav.editingHour = true →
      (handleDosingAddMenu s).tempDosingSchedule.hour =
        toUInt8 (subWhileAbove 23 24 (by decide) (addWhileBelow 0 24 (by decide)
          ((s.tempDosingSchedule.hour : Int) + (s.encoderPosition - s.menuNav.editValue))))) ∧
    (s.menuNav.editingHour = false →
      (handleDosingAddMenu s).tempDosingSchedule.minute =
        toUInt8 (subWhileAbove 59 60 (by decide) (addWhileBelow 0 60 (by decide)
          ((s.tempDosingSchedule.minute : Int) +
            (s.encoderPosition - s.menuNav.editValue) * 5)))) := by
  have e0 : ¬ s.menuNav.selectedIndex = 0 := by rw [hsel]; decide
  have e1 : ¬ s.menuNav.selectedIndex = 1 := by rw [hsel]; decide
  constructor
  · intro hh
    unfold handleDosingAddMenu
    simp only [hedit, Bool.not_true, Bool.false_eq_true, if_false, ne_eq, hd, not_false_eq_true,
      if_true]
    simp only [e0, if_false]
    simp only [e1, if_false]
    simp only [hsel, if_true, hh]
  · intro hh
    unfold handleDosingAddMenu
    simp only [hedit, Bool.not_true, Bool.false_eq_true, if_false, ne_eq, hd, not_false_eq_true,
      if_true]
    simp only [e0, if_false]
    simp only [e1, if_false]
    simp only [hsel, if_true, hh, Bool.false_eq_true, if_false]

/-- A zero delta in edit mode leaves the state as it is. -/
theorem handleDosingAddMenu_zero_delta (s : State)
    (hedit : s.menuNav.inEditMode = true)
    (hd : s.encoderPosition - s.menuNav.editValue = 0) :
    handleDosingAddMenu s = s := by
  unfold handleDosingAddMenu
  simp [hedit, hd]

theorem toUInt8_of_range (x : Int) (h0 : 0 ≤ x) (h1 : x < 256) : ((toUInt8 x : Nat) : Int) = x := by
  unfold toUInt8
  rw [Int.emod_eq_of_lt h0 h1, Int.toNat_of_nonneg h0]

/-- C20: in edit mode of the dosing editor, for every encoder delta
`d = encoderPosition - editValue` the navigation tick returns (the wrap loops
end) and: on the Pump field a pump number in [1,4] becomes the one number in
[1,4] congruent to `p + d` modulo 4; on the Time field in the hour phase an
hour in [0,23] becomes the one number in [0,23] congruent to `h + d` modulo
24; in the minute phase a minute in [0,59] becomes the one number in [0,59]
congruent to `m + 5 * d` modulo 60. -/
theorem C20_edit_mode_wraps (s : State) (hedit : s.menuNav.inEditMode = true) :
    (s.menuNav.selectedIndex = 0 →
      1 ≤ s.tempDosingSchedule.pumpNumber → s.tempDosingSchedule.pumpNumber ≤ 4 →
      1 ≤ (handleDosingAddMenu s).tempDosingSchedule.pumpNumber ∧
      (handleDosingAddMenu s).tempDosingSchedule.pumpNumber ≤ 4 ∧
      (((handleDosingAddMenu s).tempDosingSchedule.pumpNumber : Int) -
        ((s.tempDosingSchedule.pumpNumber : Int) +
          (s.encoderPosition - s.menuNav.editValue))) % 4 = 0 ∧
      ∀ q : Int, 1 ≤ q → q ≤ 4 →
        (q - ((s.tempDosingSchedule.pumpNumber : Int) +
          (s.encoderPosition - s.menuNav.editValue))) % 4 = 0 →
        q = ((handleDosingAddMenu s).tempDosingSchedule.pumpNumber : Int)) ∧
    (s.menuNav.selectedIndex = 2 → s.menuNav.editingHour = true →
      s.tempDosingSchedule.hour ≤ 23 →
      (handleDosingAddMenu s).tempDosingSchedule.hour ≤ 23 ∧
      (((handleDosingAddMenu s).tempDosingSchedule.hour : Int) -
        ((s.tempDosingSchedule.hour : Int) +
          (s.encoderPosition - s.menuNav.editValue))) % 24 = 0 ∧
      ∀ q : Int, 0 ≤ q → q ≤ 23 →
        (q - ((s.tempDosingSchedule.hour : Int) +
          (s.encoderPosition - s.menuNav.editValue))) % 24 = 0 →
        q = ((handleDosingAddMenu s).tempDosingSchedule.hour : Int)) ∧
    (s.menuNav.selectedIndex = 2 → s.menuNav.editingHour = false →
      s.tempDosingSchedule.minute ≤ 59 →
      (handleDosingAddMenu s).tempDosingSchedule.minute ≤ 59 ∧
      (((handleDosingAddMenu s).tempDosingSchedule.minute : Int) -
        ((s.tempDosingSchedule.minute : Int) +
          5 * (s.encoderPosition - s.menuNav.editValue))) % 60 = 0 ∧
      ∀ q : Int, 0 ≤ q → q ≤ 59 →
        (q - ((s.tempDosingSchedule.minute : Int) +
          5 * (s.encoderPosition - s.menuNav.editValue))) % 60 = 0 →
        q = ((handleDosingAddMenu s).tempDosingSchedule.minute : Int)) := by
  by_cases hd : s.encoderPosition - s.menuNav.editValue = 0
  · rw [handleDosingAddMenu_zero_delta s hedit hd, hd]
    refine ⟨fun _ h1 h2 => ⟨h1, h2, by omega, fun q _ _ _ => by omega⟩,
      fun _ _ h => ⟨h, by omega, fun q _ _ _ => by omega⟩,
      fun _ _ h => ⟨h, by omega, fun q _ _ _ => by omega⟩⟩
  · refine ⟨fun hsel _ _ => ?_, fun hsel hh _ => ?_, fun hsel hh _ => ?_⟩
    · rw [handleDosingAddMenu_pump s hedit hsel hd]
      obtain ⟨w1, w2, k, hk⟩ := wrap_range 1 4 4 (by decide) (by decide)
        ((s.tempDosingSchedule.pumpNumber : Int) + (s.encoderPosition - s.menuNav.editValue))
      have hv := toUInt8_of_range (subWhileAbove 4 4 (by decide) (addWhileBelow 1 4 (by decide)
        ((s.tempDosingSchedule.pumpNumber : Int) + (s.encoderPosition - s.menuNav.editValue))))
        (by omega) (by omega)
      refine ⟨by omega, by omega, by omega, fun q _ _ _ => by omega⟩
    · rw [(handleDosingAddMenu_time s hedit hsel hd).1 hh]
      obtain ⟨w1, w2, k, hk⟩ := wrap_range 0 23 24 (by decide) (by decide)
        ((s.tempDosingSchedule.hour : Int) + (s.encoderPosition - s.menuNav.editValue))
      have hv := toUInt8_of_range (subWhileAbove 23 24 (by decide) (addWhileBelow 0 24 (by decide)
        ((s.tempDosingSchedule.hour : Int) + (s.encoderPosition - s.menuNav.editValue))))
        (by omega) (by omega)
      refine ⟨by omega, by omega, fun q _ _ _ => by omega⟩
    · rw [(handleDosingAddMenu_time s hedit hsel hd).2 hh]
      obtain ⟨w1, w2, k, hk⟩ := wrap_range 0 59 60 (by decide) (by decide)
        ((s.tempDosingSchedule.minute : Int) + (s.encoderPosition - s.menuNav.editValue) * 5)
      have hv := toUInt8_of_range (subWhileAbove 59 60 (by decide) (addWhileBelow 0 60 (by decide)
        ((s.tempDosingSchedule.minute : Int) + (s.encoderPosition - s.menuNav.editValue) * 5)))
        (by omega) (by omega)
      refine ⟨by omega, by omega, fun q _ _ _ => by omega⟩

/-- C20 at the example editors: from pump 1 a delta of -7 gives pump 2, from
hour 8 a delta of 30 gives hour 14, and from minute 0 a delta of -1 gives
minute 55. -/
theorem C20_edit_mode_wraps_witness :
    (demoDosingEdit 0 true (-7)).menuNav.inEditMode = true ∧
    (2 : Int) = ((handleDosingAddMenu (demoDosingEdit 0 true (-7))).tempDosingSchedule.pumpNumber : Int) ∧
    (14 : Int) = ((handleDosingAddMenu (demoDosingEdit 2 true 30)).tempDosingSchedule.hour : Int) ∧
    (55 : Int) =
      ((handleDosingAddMenu (demoDosingEdit 2 false (-1))).tempDosingSchedule.minute : Int) :=
  ⟨rfl,
    ((C20_edit_mode_wraps (demoDosingEdit 0 true (-7)) rfl).1 rfl (by decide) (by decide)).2.2.2
      2 (by decide) (by decide) (by decide),
    ((C20_edit_mode_wraps (demoDosingEdit 2 true 30) rfl).2.1 rfl rfl (by decide)).2.2
      14 (by decide) (by decide) (by decide),
    ((C20_edit_mode_wraps (demoDosingEdit 2 false (-1)) rfl).2.2 rfl rfl (by decide)).2.2
      55 (by decide) (by decide) (by decide)⟩

/-! ### Entering and leaving edit mode -/

/-- A navigation tick of the dosing editor in edit mode stays in edit mode. -/
theorem handleDosingAddMenu_inEditMode (s : State) (hedit : s.menuNav.inEditMode = true) :
    (handleDosingAddMenu s).menuNav.inEditMode = true := by
  unfold handleDosingAddMenu
  simp only [hedit, Bool.not_true, Bool.false_eq_true, if_false]
  split_ifs <;> exact hedit

/-- C18: entering edit mode does not always take the encoder position as the
baseline. In the dosing editor reached with the cursor on row `f` (encoder at
`f`, inline reference 0), the press on Pump or Days resets encoder and
reference to 0 and the next tick changes nothing, but the press on Time or
Amount resets neither: the next tick, encoder unmoved, sees a delta of `f`
and turns hour 8 into 10 and amount 10 into 13. In the outlet editor the
press on Relay sets the encoder to `relayNumber - 1` while the tick measures
from the last seen position 0: relay 3 becomes 4. -/
theorem C18_first_delta_after_entering_edit :
    ((menuAt MenuState.MENU_DOSING_ADD).map MenuDef.selectFn = some none ∧
      (menuAt MenuState.MENU_OUTLET_ADD).map MenuDef.selectFn =
        some (some MenuSelectFn.selectOutletAddMenu)) ∧
    ((demoDosingField 0).tempDosingSchedule.pumpNumber = 1 ∧
      (demoEnterThenTick 0).map (fun s => (s.menuNav.inEditMode, s.tempDosingSchedule.pumpNumber)) =
        some (true, 1)) ∧
    ((demoDosingField 1).menuNav.daySelectIndex = 0 ∧
      (demoEnterThenTick 1).map (fun s => (s.menuNav.inEditMode, s.menuNav.daySelectIndex)) =
        some (true, 0)) ∧
    ((demoDosingField 2).tempDosingSchedule.hour = 8 ∧
      (legacyDosingAdd (demoDosingField 2) 0).map
          (fun s => (s.menuNav.inEditMode, s.encoderPosition, s.menuNav.editValue)) =
        some (true, 2, 0) ∧
      (demoEnterThenTick 2).map (fun s => (s.menuNav.inEditMode, s.tempDosingSchedule.hour)) =
        some (true, 10)) ∧
    ((demoDosingField 3).tempDosingSchedule.amountML = 10 ∧
      (legacyDosingAdd (demoDosingField 3) 0).map
          (fun s => (s.menuNav.inEditMode, s.encoderPosition, s.menuNav.editValue)) =
        some (true, 3, 0) ∧
      (demoEnterThenTick 3).map (fun s => (s.menuNav.inEditMode, s.tempDosingSchedule.amountML)) =
        some (true, 13)) ∧
    ((demoOutletRelayField 3).tempOutletSchedule.relayNumber = 3 ∧
      (selectOutletAddMenu (demoOutletRelayField 3) 0).map
          (fun s => (s.menuNav.inEditMode, s.encoderPosition, s.outletAddLastPos)) =
        some (true, 2, 0) ∧
      (demoOutletEnterThenTick 3).map
          (fun s => (s.menuNav.inEditMode, s.tempOutletSchedule.relayNumber)) =
        some (true, 4)) := by
  refine ⟨⟨by rfl, by rfl⟩, ⟨rfl, by rfl⟩, ⟨rfl, by rfl⟩, ⟨rfl, by rfl, ?_⟩, ⟨rfl, by rfl, by rfl⟩,
    ⟨rfl, by rfl, by rfl⟩⟩
  obtain ⟨s1, hs1, he, hsel, henc, hev, hh, hhr⟩ : ∃ s1,
      legacyDosingAdd (demoDosingField 2) 0 = some s1 ∧ s1.menuNav.inEditMode = true ∧
      s1.menuNav.selectedIndex = 2 ∧ s1.encoderPosition = 2 ∧ s1.menuNav.editValue = 0 ∧
      s1.menuNav.editingHour = true ∧ s1.tempDosingSchedule.hour = 8 :=
    ⟨_, rfl, rfl, rfl, rfl, rfl, rfl, rfl⟩
  have hd : s1.encoderPosition - s1.menuNav.editValue ≠ 0 := by rw [henc, hev]; decide
  unfold demoEnterThenTick
  rw [hs1]
  simp only [Option.map_some']
  rw [handleDosingAddMenu_inEditMode s1 he, (handleDosingAddMenu_time s1 he hsel hd).1 hh,
    henc, hev, hhr, addWhileBelow_of_ge 0 24 _ _ (by decide),
    subWhileAbove_of_le 23 24 _ _ (by decide)]
  rfl

/-- In edit mode on the Days field with a non-zero delta, a navigation
tick moves the day cursor to the wrapped sum and takes the encoder position
as the new inline reference. -/
theorem handleDosingAddMenu_days (s : State)
    (hedit : s.menuNav.inEditMode = true) (hsel : s.menuNav.selectedIndex = 1)
    (hd : s.encoderPosition - s.menuNav.editValue ≠ 0) :
    handleDosingAddMenu s =
      { s with
        menuNav :=
          { s.menuNav with
            daySelectIndex :=
              toUInt8 (subWhileAbove 7 8 (by decide) (addWhileBelow 0 8 (by decide)
                ((s.menuNav.daySelectIndex : Int) + (s.encoderPosition - s.menuNav.editValue))))
            editValue := s.encoderPosition
            needsRedraw := true } } := by
  unfold handleDosingAddMenu
  simp only [hedit, Bool.not_true, Bool.false_eq_true, if_false, ne_eq, hd, not_false_eq_true,
    if_true]
  have e0 : ¬ s.menuNav.selectedIndex = 0 := by rw [hsel]; decide
  have e2 : ¬ s.menuNav.selectedIndex = 2 := by rw [hsel]; decide
  have e3 : ¬ s.menuNav.selectedIndex = 3 := by rw [hsel]; decide
  have n0 : ¬ ((1 : Int) = 0) := by decide
  have n2 : ¬ ((1 : Int) = 2) := by decide
  have n3 : ¬ ((1 : Int) = 3) := by decide
  simp only [hsel, n0, n2, n3, e0, e2, e3, if_true, if_false]
  rw [hedit]

/-- C19: leaving edit mode does not always put the encoder back on the
edited row. After an edit of Pump (row 0) or Days (row 1) the exit press sets
the encoder to the row and the next tick keeps the cursor there; the exit
presses of Time (row 2) and Amount (row 3) leave the encoder where the
rotation put it, so the next tick clamps that position into `[0, 5]` and
moves the cursor: after Time rotated by 5 detents the cursor is on row 5
(Cancel), after Amount rotated by 1 detent it is on row 4 (Save). -/
theorem C19_cursor_after_leaving_edit :
    (demoEditSession 0 1 1).map
        (fun s => (s.menuNav.inEditMode, s.encoderPosition, s.menuNav.selectedIndex)) =
      some (false, 0, 0) ∧
    (demoEditSession 1 7 1).map
        (fun s => (s.menuNav.inEditMode, s.encoderPosition, s.menuNav.selectedIndex)) =
      some (false, 1, 1) ∧
    (demoEditSession 2 5 2).map
        (fun s => (s.menuNav.inEditMode, s.encoderPosition, s.menuNav.selectedIndex)) =
      some (false, 5, 5) ∧
    (demoEditSession 3 1 1).map
        (fun s => (s.menuNav.inEditMode, s.encoderPosition, s.menuNav.selectedIndex)) =
      some (false, 4, 4) := by
  refine ⟨by rfl, ?_, by rfl, by rfl⟩
  have hs1 : legacyDosingAdd (demoDosingField 1) 0 =
      some { demoDosingField 1 with
        menuNav :=
          { (demoDosingField 1).menuNav with
            inEditMode := true, daySelectIndex := 0, editValue := 0, needsRedraw := true }
        encoderPosition := 0 } := rfl
  have hT : handleDosingAddMenu (turnEncoder { demoDosingField 1 with
        menuNav :=
          { (demoDosingField 1).menuNav with
            inEditMode := true, daySelectIndex := 0, editValue := 0, needsRedraw := true }
        encoderPosition := 0 } 7) =
      { demoDosingField 1 with
        menuNav :=
          { (demoDosingField 1).menuNav with
            inEditMode := true, daySelectIndex := 7, editValue := 7, needsRedraw := true }
        encoderPosition := 7 } := by
    rw [handleDosingAddMenu_days _ rfl rfl (by decide),
      addWhileBelow_of_ge 0 8 _ _ (by decide), subWhileAbove_of_le 7 8 _ _ (by decide)]
    rfl
  show ((((legacyDosingAdd (demoDosingField 1) 0).map
    fun s => handleDosingAddMenu (turnEncoder s 7)).bind
      fun s => legacyDosingAdd s 0).map handleDosingAddMenu).map _ = _
  rw [hs1]
  simp only [Option.map_some', Option.some_bind]
  rw [hT]
  rfl

/-! ### Outlet editor: interval and time fields -/

theorem constrain_eq_min_max (a lo hi : Int) (h : lo ≤ hi) :
    constrain a lo hi = min hi (max lo a) := by
  unfold constrain
  split_ifs <;> omega

/-- The static `lastPos` of `handleOutletAddMenu` already holds the encoder
position when the delta is zero. -/
theorem lastPos_unchanged (s : State) (hd : s.encoderPosition - s.outletAddLastPos = 0) :
    { s with outletAddLastPos := s.encoderPosition } = s := by
  have h : s.encoderPosition = s.outletAddLastPos := by omega
  cases s
  simp only [State.mk.injEq, true_and, and_true]
  exact h

/-- C21: in edit mode of the outlet editor on the Interval field with
interval mode on, writing `d` for the encoder delta
`encoderPosition - lastPos`: in the unit sub-phase a non-zero `d` negates
`outletIntervalIsHours`, leaves the value alone, and a further tick with the
encoder untouched changes nothing more (one flip per rotation); in the value
sub-phase a non-zero `d` sets `outletIntervalValue` to
`min(vMax, max(1, value + d))` with `vMax` 24 for hours and 59 for minutes and
leaves the unit alone; a zero `d` leaves the whole state as it is. -/
theorem C21_interval_field (s : State)
    (hedit : s.menuNav.inEditMode = true) (hsel : s.menuNav.selectedIndex = 2)
    (hint : s.tempOutletSchedule.isInterval = true) :
    (s.menuNav.editingHour = true → s.encoderPosition - s.outletAddLastPos ≠ 0 →
      (handleOutletAddMenu s).menuNav.outletIntervalIsHours =
        (!s.menuNav.outletIntervalIsHours) ∧
      (handleOutletAddMenu s).menuNav.outletIntervalValue = s.menuNav.outletIntervalValue ∧
      handleOutletAddMenu (handleOutletAddMenu s) = handleOutletAddMenu s) ∧
    (s.menuNav.editingHour = false → s.encoderPosition - s.outletAddLastPos ≠ 0 →
      ((handleOutletAddMenu s).menuNav.outletIntervalValue : Int) =
        min (if s.menuNav.outletIntervalIsHours = true then 24 else 59)
          (max 1 ((s.menuNav.outletIntervalValue : Int) +
            (s.encoderPosition - s.outletAddLastPos))) ∧
      (handleOutletAddMenu s).menuNav.outletIntervalIsHours = s.menuNav.outletIntervalIsHours) ∧
    (s.encoderPosition - s.outletAddLastPos = 0 → handleOutletAddMenu s = s) := by
  have e0 : ¬ s.menuNav.selectedIndex = 0 := by rw [hsel]; decide
  have e1 : ¬ s.menuNav.selectedIndex = 1 := by rw [hsel]; decide
  have n0 : ¬ ((2 : Int) = 0) := by decide
  have n1 : ¬ ((2 : Int) = 1) := by decide
  refine ⟨fun hu hd => ?_, fun hv hd => ?_, fun hd => ?_⟩
  · have hval : handleOutletAddMenu s =
        { s with
          menuNav :=
            { s.menuNav with
              outletIntervalIsHours := !s.menuNav.outletIntervalIsHours
              needsRedraw := true }
          encoderPosition := 0
          outletAddLastPos := 0 } := by
      unfold handleOutletAddMenu
      simp only [hedit, Bool.not_true, Bool.false_eq_true, if_false, e0, e1, n0, n1, hsel,
        if_true, hint, hu, ne_eq, hd, not_false_eq_true]
    refine ⟨by rw [hval], by rw [hval], ?_⟩
    rw [hval]
    unfold handleOutletAddMenu
    simp only [hedit, Bool.not_true, Bool.false_eq_true, if_false, e0, e1, n0, n1, hsel,
      if_true, hint, hu, ne_eq, sub_self, not_true_eq_false]
  · have hval : handleOutletAddMenu s =
        { s with
          outletAddLastPos := s.encoderPosition
          menuNav :=
            { s.menuNav with
              outletIntervalValue :=
                toUInt8 (constrain ((s.menuNav.outletIntervalValue : Int) +
                  (s.encoderPosition - s.outletAddLastPos)) 1
                  (if s.menuNav.outletIntervalIsHours = true then 24 else 59))
              needsRedraw := true } } := by
      unfold handleOutletAddMenu
      simp only [hedit, Bool.not_true, Bool.false_eq_true, if_false, e0, e1, n0, n1, hsel,
        if_true, hint, hv, ne_eq, hd, not_false_eq_true]
    rw [hval]
    refine ⟨?_, rfl⟩
    show ((toUInt8 _ : Nat) : Int) = _
    have hle : (1 : Int) ≤ (if s.menuNav.outletIntervalIsHours = true then 24 else 59) := by
      split_ifs <;> decide
    have hhi : (if s.menuNav.outletIntervalIsHours = true then (24 : Int) else 59) ≤ 59 := by
      split_ifs <;> decide
    rw [constrain_eq_min_max _ _ _ hle]
    apply toUInt8_of_range <;> omega
  · unfold handleOutletAddMenu
    simp only [hedit, Bool.not_true, Bool.false_eq_true, if_false, e0, e1, n0, n1, hsel,
      if_true, hint, ne_eq, hd, not_true_eq_false]
    split_ifs <;> exact lastPos_unchanged s hd

/-- C21, at example editors: in the unit sub-phase a delta of 3 turns minutes
into hours and keeps the value 45; in the value sub-phase 20 hours plus 10
gives 24 and 5 minutes minus 9 gives 1; a zero delta changes nothing. -/
theorem C21_interval_field_witness :
    ((handleOutletAddMenu (demoIntervalEdit true false 45 3)).menuNav.outletIntervalIsHours =
        true ∧
      (handleOutletAddMenu (demoIntervalEdit true false 45 3)).menuNav.outletIntervalValue =
        45) ∧
    ((handleOutletAddMenu (demoIntervalEdit false true 20 10)).menuNav.outletIntervalValue : Int) =
      min 24 (max 1 (20 + 10)) ∧
    ((handleOutletAddMenu (demoIntervalEdit false false 5 (-9))).menuNav.outletIntervalValue :
        Int) = min 59 (max 1 (5 + -9)) ∧
    handleOutletAddMenu (demoIntervalEdit false true 20 0) = demoIntervalEdit false true 20 0 :=
  ⟨⟨((C21_interval_field (demoIntervalEdit true false 45 3) rfl rfl rfl).1 rfl (by decide)).1,
      ((C21_interval_field (demoIntervalEdit true false 45 3) rfl rfl rfl).1 rfl
        (by decide)).2.1⟩,
    ((C21_interval_field (demoIntervalEdit false true 20 10) rfl rfl rfl).2.1 rfl
      (by decide)).1,
    ((C21_interval_field (demoIntervalEdit false false 5 (-9)) rfl rfl rfl).2.1 rfl
      (by decide)).1,
    (C21_interval_field (demoIntervalEdit false true 20 0) rfl rfl rfl).2.2 (by decide)⟩

/-- C22: while the temporary outlet record is in interval mode, with the
cursor on Time ON (row 3) or Time OFF (row 4): a button press handled by
`selectOutletAddMenu` returns the state as it was (so `inEditMode` and every
field of the temporary record are unchanged), and `handleOutletAddMenu`
leaves the temporary record, in particular `hourOn`, `minuteOn`, `hourOff`
and `minuteOff`, unchanged whatever the encoder position and whether or not
the editor is in edit mode. -/
theorem C22_time_fields_inert (s : State) (ms : Nat)
    (hint : s.tempOutletSchedule.isInterval = true)
    (hsel : s.menuNav.selectedIndex = 3 ∨ s.menuNav.selectedIndex = 4) :
    selectOutletAddMenu s ms = some s ∧
    (handleOutletAddMenu s).tempOutletSchedule = s.tempOutletSchedule ∧
    (handleOutletAddMenu s).menuNav.inEditMode = s.menuNav.inEditMode := by
  have e0 : ¬ s.menuNav.selectedIndex = 0 := by rcases hsel with h | h <;> rw [h] <;> decide
  have e1 : ¬ s.menuNav.selectedIndex = 1 := by rcases hsel with h | h <;> rw [h] <;> decide
  have e2 : ¬ s.menuNav.selectedIndex = 2 := by rcases hsel with h | h <;> rw [h] <;> decide
  refine ⟨?_, ?_, ?_⟩
  · unfold selectOutletAddMenu
    rw [if_neg e0, if_neg e1, if_neg e2, if_pos hsel, if_pos hint]
  · unfold handleOutletAddMenu
    by_cases hedit : s.menuNav.inEditMode = true
    · simp only [hedit, Bool.not_true, Bool.false_eq_true, if_false, e0, e1, e2, hint, if_true]
      split_ifs <;> rfl
    · simp only [hedit, Bool.not_false, Bool.not_eq_true, if_true]
      simp [hedit, clampEncoderPosition]
  · unfold handleOutletAddMenu
    by_cases hedit : s.menuNav.inEditMode = true
    · simp only [hedit, Bool.not_true, Bool.false_eq_true, if_false, e0, e1, e2, hint, if_true]
      split_ifs <;> exact hedit
    · simp only [hedit, Bool.not_false, Bool.not_eq_true, if_true]
      simp [hedit, clampEncoderPosition]

/-- C22, on Time ON in edit mode with the encoder turned by 5 and on Time OFF
outside edit mode with the encoder at 4: the press changes nothing and the
times stay 06:30 to 22:15. -/
theorem C22_time_fields_inert_witness :
    (selectOutletAddMenu (demoIntervalRow 3 true 5) 0 = some (demoIntervalRow 3 true 5) ∧
      (handleOutletAddMenu (demoIntervalRow 3 true 5)).tempOutletSchedule =
        (demoIntervalRow 3 true 5).tempOutletSchedule) ∧
    (selectOutletAddMenu (demoIntervalRow 4 false 4) 0 = some (demoIntervalRow 4 false 4) ∧
      (handleOutletAddMenu (demoIntervalRow 4 false 4)).tempOutletSchedule =
        (demoIntervalRow 4 false 4).tempOutletSchedule) :=
  ⟨⟨(C22_time_fields_inert (demoIntervalRow 3 true 5) 0 rfl (Or.inl rfl)).1,
      (C22_time_fields_inert (demoIntervalRow 3 true 5) 0 rfl (Or.inl rfl)).2.1⟩,
    ⟨(C22_time_fields_inert (demoIntervalRow 4 false 4) 0 rfl (Or.inr rfl)).1,
      (C22_time_fields_inert (demoIntervalRow 4 false 4) 0 rfl (Or.inr rfl)).2.1⟩⟩

/-! ### Completion across a counter rollover -/

theorem usub32_add (a e : Nat) (ha : a < ULONG_RANGE) (he : e < ULONG_RANGE) :
    usub32 ((a + e) % ULONG_RANGE) a = e := by
  unfold usub32
  rw [Nat.mod_mod, Nat.mod_eq_of_lt ha]
  have h1 : (a + e) % ULONG_RANGE + (ULONG_RANGE - a) ≡ e [MOD ULONG_RANGE] := by
    have h2 : (a + e) % ULONG_RANGE + (ULONG_RANGE - a) ≡ (a + e) + (ULONG_RANGE - a)
        [MOD ULONG_RANGE] := Nat.ModEq.add_right _ (Nat.mod_modEq _ _)
    have h3 : (a + e) + (ULONG_RANGE - a) = e + ULONG_RANGE := by omega
    rw [h3] at h2
    exact h2.trans (by simp [Nat.ModEq])
  have h4 := h1
  unfold Nat.ModEq at h4
  rw [h4, Nat.mod_eq_of_lt he]

/-- C30: with 32-bit unsigned timestamps, for every start time, every run
duration and every true elapsed time `e < 2^32`, at
`currentTime = (startTime + e) mod 2^32` the difference the code computes is
`e`, and `updateDosingExecution` entered in state Running returns in state
Idle with the active pump's speed 0 if and only if `e >= runDuration`;
otherwise it returns the state unchanged (still Running). -/
theorem C30_completion_across_rollover (s : State) (e : Nat)
    (hrun : s.activeDosing.state = DosingState.DOSING_RUNNING)
    (hstart : s.activeDosing.startTime < ULONG_RANGE) (he : e < ULONG_RANGE) :
    usub32 ((s.activeDosing.startTime + e) % ULONG_RANGE) s.activeDosing.startTime = e ∧
    (((updateDosingExecution s
          ((s.activeDosing.startTime + e) % ULONG_RANGE)).activeDosing.state =
        DosingState.DOSING_IDLE ∧
      getPumpSpeed (updateDosingExecution s ((s.activeDosing.startTime + e) % ULONG_RANGE))
        s.activeDosing.activePump = 0) ↔
      s.activeDosing.runDuration ≤ e) ∧
    (e < s.activeDosing.runDuration →
      updateDosingExecution s ((s.activeDosing.startTime + e) % ULONG_RANGE) = s) := by
  have hsub := usub32_add s.activeDosing.startTime e hstart he
  have hkeep : e < s.activeDosing.runDuration →
      updateDosingExecution s ((s.activeDosing.startTime + e) % ULONG_RANGE) = s := by
    intro hlt
    unfold updateDosingExecution
    rw [if_neg (by simp [hrun]), hsub, if_neg (by omega)]
  refine ⟨hsub, ⟨fun h => ?_, fun hge => ?_⟩, hkeep⟩
  · by_contra hlt
    rw [hkeep (by omega), hrun] at h
    exact absurd h.1 (by decide)
  · have hval : updateDosingExecution s ((s.activeDosing.startTime + e) % ULONG_RANGE) =
        { setPumpSpeed s s.activeDosing.activePump 0 with
          activeDosing :=
            { (setPumpSpeed s s.activeDosing.activePump 0).activeDosing with
              state := DosingState.DOSING_IDLE, activePump := 0 } } := by
      unfold updateDosingExecution
      rw [if_neg (by simp [hrun]), hsub, if_pos hge]
    rw [hval]
    refine ⟨rfl, ?_⟩
    by_cases hp : 1 ≤ s.activeDosing.activePump ∧ s.activeDosing.activePump ≤ 4
    · have := getPumpSpeed_setPumpSpeed_same s s.activeDosing.activePump 0 hp
      simpa [getPumpSpeed] using this
    · unfold getPumpSpeed
      split <;> first | rfl | (exfalso; apply hp; constructor <;> omega)

/-- C30, for the dose started at 4294967000 ms with a run time of 5000 ms:
the counter has rolled over to 4704 when 5000 ms have passed, the code sees
an elapsed time of 5000 and stops pump 1; at 4999 ms nothing changes. -/
theorem C30_completion_across_rollover_witness :
    (4294967000 + 5000) % ULONG_RANGE = 4704 ∧
    (updateDosingExecution demoRollover 4704).activeDosing.state = DosingState.DOSING_IDLE ∧
    getPumpSpeed (updateDosingExecution demoRollover 4704) 1 = 0 ∧
    updateDosingExecution demoRollover ((4294967000 + 4999) % ULONG_RANGE) = demoRollover :=
  ⟨by decide,
    (((C30_completion_across_rollover demoRollover 5000 rfl (by decide) (by decide)).2.1).2
      (by decide)).1,
    (((C30_completion_across_rollover demoRollover 5000 rfl (by decide) (by decide)).2.1).2
      (by decide)).2,
    (C30_completion_across_rollover demoRollover 4999 rfl (by decide) (by decide)).2.2
      (by decide)⟩

/-! ### Dosing delete list and its confirm dialog -/

theorem noteEncoderActivity_currentMenu (s : State) (ms : Nat) :
    (noteEncoderActivity s ms).menuNav.currentMenu = s.menuNav.currentMenu := by
  unfold noteEncoderActivity
  split_ifs <;> rfl

theorem noteEncoderActivity_button (s : State) (ms : Nat) :
    (noteEncoderActivity s ms).hardware.encoderButton = s.hardware.encoderButton := by
  unfold noteEncoderActivity
  split_ifs <;> rfl

/-- The cursor `clampEncoderPosition(0, 0)` leaves is 0. -/
theorem clampEncoderPosition_zero (s : State) :
    (clampEncoderPosition s 0 0).menuNav.selectedIndex = 0 ∧
    (clampEncoderPosition s 0 0).encoderPosition = 0 := by
  unfold clampEncoderPosition
  constructor <;> (show (if _ then _ else _) = (0 : Int)) <;> split_ifs <;> omega

/-- Without a pending press the third block of `handleMenuNavigation` returns
the state as it is. -/
theorem dispatchButton_idle (s : State) (ms : Nat) (h : s.hardware.encoderButton = false) :
    dispatchButton s ms = Outcome.next s := by
  unfold dispatchButton
  rw [if_neg (by rw [h]; decide)]

theorem handleMenuNavigation_of_nav (s s1 : State) (ms : Nat)
    (h : dispatchNav (noteEncoderActivity s ms) = some s1) :
    handleMenuNavigation s ms = dispatchButton s1 ms := by
  unfold handleMenuNavigation
  rw [h]

/-- C23, evaluated where the code departs from it: the press on row 0 of the
dosing delete list opens `MENU_DOSING_DELETE_CONFIRM` with the cursor on item
1 ("No") and the encoder at 1, but the registry entry of that menu is a
placeholder with no items and no navigation function, so the next
`handleMenuNavigation` tick runs `defaultMenuNav` with `itemCount = 0`, which
clamps the encoder to 0: with the encoder untouched the cursor is on item 0
("Yes"), and a press in that pass deletes the schedule (two stored before,
one after, the former second record now in slot 0). -/
theorem C23_confirm_cursor_moves_to_yes :
    (menuAt MenuState.MENU_DOSING_DELETE_CONFIRM =
        some (MENU_PLACEHOLDER "DELETE CONFIRM" MenuState.MENU_DOSING_DELETE) ∧
      (MENU_PLACEHOLDER "DELETE CONFIRM" MenuState.MENU_DOSING_DELETE).itemCount = 0 ∧
      (MENU_PLACEHOLDER "DELETE CONFIRM" MenuState.MENU_DOSING_DELETE).navFn = none ∧
      (MENU_PLACEHOLDER "DELETE CONFIRM" MenuState.MENU_DOSING_DELETE).selectFn = none) ∧
    (runUi (demoDeleteList 0) [UiEvent.pass true 0]).state.map
        (fun s => (s.menuNav.currentMenu, s.menuNav.selectedIndex, s.encoderPosition,
          s.menuNav.tempPumpNumber, s.dosingScheduleCount)) =
      some (MenuState.MENU_DOSING_DELETE_CONFIRM, 1, 1, 0, 2) ∧
    (runUi (demoDeleteList 0) [UiEvent.pass true 0, UiEvent.pass false 50]).state.map
        (fun s => (s.menuNav.currentMenu, s.menuNav.selectedIndex, s.encoderPosition,
          s.dosingScheduleCount)) =
      some (MenuState.MENU_DOSING_DELETE_CONFIRM, 0, 0, 2) ∧
    (runUi (demoDeleteList 0) [UiEvent.pass true 0, UiEvent.pass true 50]).state.map
        (fun s => (s.menuNav.currentMenu, s.dosingScheduleCount,
          (s.dosingSchedules 0).pumpNumber, (s.dosingSchedules 1).enabled)) =
      some (MenuState.MENU_DOSING_SCHEDULE, 1, 2, false) := by
  refine ⟨⟨by rfl, rfl, rfl, rfl⟩, by rfl, by rfl, by rfl⟩

/-- C24, where the code departs from it: the registry entry of
`MENU_DOSING_DELETE` has no navigation function (`handleDosingDeleteMenu` is
not registered) and no items, so the tick dispatched through `MENUS` runs
`defaultMenuNav` with `itemCount = 0`: whatever the encoder position and the
number of stored schedules, it returns with `selectedIndex = 0` and the
encoder set back to 0. No encoder position selects an entry `i >= 1`. -/
theorem C24_delete_list_cursor_pinned (s : State) (ms : Nat)
    (hmenu : s.menuNav.currentMenu = MenuState.MENU_DOSING_DELETE)
    (hbutton : s.hardware.encoderButton = false) :
    (menuAt MenuState.MENU_DOSING_DELETE).map
        (fun m => (m.title, m.itemCount, m.navFn, m.selectFn)) =
      some ("DOSING DELETE", 0, none, none) ∧
    ∃ s1, handleMenuNavigation s ms = Outcome.next s1 ∧
      s1.menuNav.selectedIndex = 0 ∧ s1.encoderPosition = 0 ∧
      s1.menuNav.currentMenu = MenuState.MENU_DOSING_DELETE := by
  have hentry : menuAt MenuState.MENU_DOSING_DELETE =
      some { title := "DOSING DELETE", items := none, itemCount := 0, useScrolling := false,
             drawFn := some MenuDrawFn.drawDosingDeleteListScreen, navFn := none,
             selectFn := none, backMenu := MenuState.MENU_DOSING_SCHEDULE } := by rfl
  refine ⟨by rw [hentry]; rfl, ?_⟩
  have hm := noteEncoderActivity_currentMenu s ms
  have hb := noteEncoderActivity_button s ms
  rw [hmenu] at hm
  rw [hbutton] at hb
  have hnav : dispatchNav (noteEncoderActivity s ms) =
      some { clampEncoderPosition (noteEncoderActivity s ms) 0 0 with
        menuNav :=
          { (clampEncoderPosition (noteEncoderActivity s ms) 0 0).menuNav with
            scrollOffset := 0 } } := by
    unfold dispatchNav
    rw [hm, hentry]
    rfl
  have hz := clampEncoderPosition_zero (noteEncoderActivity s ms)
  refine ⟨{ clampEncoderPosition (noteEncoderActivity s ms) 0 0 with
      menuNav :=
        { (clampEncoderPosition (noteEncoderActivity s ms) 0 0).menuNav with
          scrollOffset := 0 } }, ?_, hz.1, hz.2, hm⟩
  rw [handleMenuNavigation_of_nav s _ ms hnav]
  exact dispatchButton_idle _ ms hb

/-- C24, at the delete list with two stored schedules and the encoder turned
to 1 and to 2: the tick leaves the cursor on row 0. -/
theorem C24_delete_list_cursor_pinned_witness :
    (∃ s1, handleMenuNavigation (demoDeleteList 1) 0 = Outcome.next s1 ∧
      s1.menuNav.selectedIndex = 0 ∧ s1.encoderPosition = 0 ∧
      s1.menuNav.currentMenu = MenuState.MENU_DOSING_DELETE) ∧
    (∃ s1, handleMenuNavigation (demoDeleteList 2) 0 = Outcome.next s1 ∧
      s1.menuNav.selectedIndex = 0 ∧ s1.encoderPosition = 0 ∧
      s1.menuNav.currentMenu = MenuState.MENU_DOSING_DELETE) :=
  ⟨(C24_delete_list_cursor_pinned (demoDeleteList 1) 0 rfl rfl).2,
    (C24_delete_list_cursor_pinned (demoDeleteList 2) 0 rfl rfl).2⟩

/-! ### Front-panel traces from boot -/

theorem runUi_append (s : State) (a b : List UiEvent) :
    runUi s (a ++ b) =
      match runUi s a with
      | Outcome.next s1 => runUi s1 b
      | o => o := by
  induction a generalizing s with
  | nil => rfl
  | cons e es ih =>
    show (match e.run s with | Outcome.next s1 => runUi s1 (es ++ b) | o => o) = _
    show _ = match (match e.run s with | Outcome.next s1 => runUi s1 es | o => o) with
      | Outcome.next s1 => runUi s1 b
      | o => o
    cases e.run s with
    | next s1 => exact ih s1
    | undefined => rfl
    | restart => rfl

/-- A rotation followed by one pass with a press. -/
theorem runUi_turn_press (s : State) (k : Int) (ms : Nat) :
    runUi s [UiEvent.turn k, UiEvent.pass true ms] =
      handleMenuNavigation (buttonPressed (turnEncoder s k)) ms := by
  show (match handleMenuNavigation (buttonPressed (turnEncoder s k)) ms with
    | Outcome.next s1 => Outcome.next s1
    | o => o) = _
  cases handleMenuNavigation (buttonPressed (turnEncoder s k)) ms <;> rfl

/-- In the outlet editor the navigation tick is `handleOutletAddMenu`. -/
theorem dispatchNav_outletAdd (s : State)
    (h : s.menuNav.currentMenu = MenuState.MENU_OUTLET_ADD) :
    dispatchNav s = some (handleOutletAddMenu s) := by
  unfold dispatchNav
  rw [h]
  rfl

/-- The two wrap loops as a remainder: the value they leave is the one number
of `[lo, lo + step - 1]` congruent to `x` modulo `step`. -/
theorem wrap_eq_emod (lo hi step : Int) (h : 0 < step) (hhi : hi = lo + step - 1) (x : Int) :
    subWhileAbove hi step h (addWhileBelow lo step h x) = lo + (x - lo) % step := by
  obtain ⟨h1, h2, k, hk⟩ := wrap_range lo hi step h hhi x
  have hx : x - lo = (subWhileAbove hi step h (addWhileBelow lo step h x) - lo) + (-k) * step := by
    rw [hk]; ring
  rw [hx, Int.add_mul_emod_self, Int.emod_eq_of_lt (by omega) (by omega)]
  ring

/-- In edit mode on the Days row of the outlet editor a navigation tick moves
the day cursor by the encoder delta modulo 8 and remembers the position. -/
theorem handleOutletAddMenu_days (s : State)
    (hedit : s.menuNav.inEditMode = true) (hsel : s.menuNav.selectedIndex = 1) :
    handleOutletAddMenu s =
      { s with
        outletAddLastPos := s.encoderPosition
        menuNav :=
          { s.menuNav with
            daySelectIndex :=
              toUInt8 (((s.menuNav.daySelectIndex : Int) +
                (s.encoderPosition - s.outletAddLastPos)) % 8) } } := by
  have e0 : ¬ s.menuNav.selectedIndex = 0 := by rw [hsel]; decide
  have n0 : ¬ ((1 : Int) = 0) := by decide
  unfold handleOutletAddMenu
  simp only [hedit, Bool.not_true, Bool.false_eq_true, if_false, e0, n0, hsel, if_true]
  rw [wrap_eq_emod 0 7 8 (by decide) (by decide)]
  simp only [sub_zero, zero_add]

/-- C26, evaluated where the code departs from it: the temporary outlet
record is a zero-initialised global and Add Schedule of the outlet schedule
menu opens the editor without writing it, so its relay number is 0. From boot
the user opens the editor, marks Sunday on the Days row and presses Save
without visiting the Relay row: the record stored in slot 0 has
`relayNumber = 0`, outside 1..4. -/
theorem C26_saved_relay_zero :
    (bootState 0).tempOutletSchedule.relayNumber = 0 ∧
    (runUi (bootState 0) demoOutletAddPath).state.map
        (fun s => (s.menuNav.currentMenu, s.menuNav.selectedIndex,
          s.tempOutletSchedule.relayNumber, s.outletScheduleCount)) =
      some (MenuState.MENU_OUTLET_ADD, 0, 0, 0) ∧
    (runUi (bootState 0)
        (demoOutletAddPath ++ demoDaysEnter ++ demoDaysToggle ++ demoDaysDone ++
          demoSavePress)).state.map
        (fun s => (s.menuNav.currentMenu, s.outletScheduleCount,
          (s.outletSchedules 0).relayNumber, (s.outletSchedules 0).daysOfWeek,
          (s.outletSchedules 0).enabled)) =
      some (MenuState.MENU_OUTLET_SCHEDULE, 1, 0, 1, true) := by
  refine ⟨rfl, by rfl, ?_⟩
  have ha : runUi (bootState 0) (demoOutletAddPath ++ demoDaysEnter) =
      Outcome.next (demoOutletDays true 0 0 0 1 400) := by rfl
  have hb : runUi (demoOutletDays true 0 0 0 1 400) demoDaysToggle =
      Outcome.next (demoOutletDays true 0 1 1 1 500) := by
    unfold demoDaysToggle
    rw [runUi_turn_press,
      handleMenuNavigation_of_nav (buttonPressed (turnEncoder (demoOutletDays true 0 0 0 1 400) 1))
        _ 500 (dispatchNav_outletAdd _ rfl),
      handleOutletAddMenu_days _ rfl rfl]
    rfl
  have hc : runUi (demoOutletDays true 0 1 1 1 500) demoDaysDone =
      Outcome.next (demoOutletDays false 7 1 1 0 600) := by
    unfold demoDaysDone
    rw [runUi_turn_press,
      handleMenuNavigation_of_nav
        (buttonPressed (turnEncoder (demoOutletDays true 0 1 1 1 500) (-1)))
        _ 600 (dispatchNav_outletAdd _ (by decide)),
      handleOutletAddMenu_days _ (by decide) (by decide)]
    rfl
  rw [runUi_append, runUi_append, runUi_append, ha]
  simp only []
  rw [hb]
  simp only []
  rw [hc]
  rfl

/-- C27, evaluated where the code departs from it: from boot into the outlet
editor, a first session of the interval editor commits 59 minutes (in
range). In a second session the encoder is not touched: the press that turns
interval mode on again seeds unit minutes and value 59 and sets the encoder
to 0, the next tick measures the delta from the row position 2 and flips the
unit to hours without touching the value, and the commit stores
`59 * 60 = 3540` minutes, above 1440. -/
theorem C27_commit_above_one_day :
    (runUi (bootState 0) (demoOutletAddPath ++ demoIntervalFirstSession)).state.map
        (fun s => (s.menuNav.currentMenu, s.menuNav.inEditMode, s.tempOutletSchedule.isInterval,
          s.tempOutletSchedule.intervalMinutes)) =
      some (MenuState.MENU_OUTLET_ADD, false, true, 59) ∧
    (runUi (bootState 0)
        (demoOutletAddPath ++ demoIntervalFirstSession ++
          [UiEvent.pass true 700, UiEvent.pass true 800])).state.map
        (fun s => (s.menuNav.inEditMode, s.menuNav.editingHour, s.menuNav.outletIntervalIsHours,
          s.menuNav.outletIntervalValue, s.encoderPosition, s.outletAddLastPos)) =
      some (true, true, false, 59, 0, 2) ∧
    (runUi (bootState 0)
        (demoOutletAddPath ++ demoIntervalFirstSession ++ demoIntervalSecondSession)).state.map
        (fun s => (s.menuNav.currentMenu, s.menuNav.inEditMode, s.tempOutletSchedule.isInterval,
          s.menuNav.outletIntervalIsHours, s.menuNav.outletIntervalValue,
          s.tempOutletSchedule.intervalMinutes)) =
      some (MenuState.MENU_OUTLET_ADD, false, true, true, 59, 3540) := by
  refine ⟨by rfl, by rfl, by rfl⟩

/-- C29, evaluated where the code departs from it: on a device with nothing
stored, the path Scheduling, Outlet Schedule, Delete All, Yes leads to
`MENU_OUTLET_DELETE_ALL_CONFIRM`, whose registry entry (the table being one
entry out of step there) names `selectOutletDeleteConfirmMenu`; its Yes branch
deletes the entry `menuNav.tempIndex`, still at its initial -1, by
decrementing the count: `outletScheduleCount` goes from 0 to -1. -/
theorem C29_outlet_count_goes_negative :
    ((bootState 0).outletScheduleCount = 0 ∧ (bootState 0).dosingScheduleCount = 0 ∧
      (bootState 0).menuNav.tempIndex = -1) ∧
    (menuAt MenuState.MENU_OUTLET_DELETE_ALL_CONFIRM).map
        (fun m => (m.title, m.navFn, m.selectFn)) =
      some ("DELETE OUTLET CONFIRM", some MenuNavFn.handleConfirmMenu,
        some MenuSelectFn.selectOutletDeleteConfirmMenu) ∧
    (runUi (bootState 0) demoDeleteAllPath).state.map
        (fun s => (s.menuNav.currentMenu, s.menuNav.selectedIndex, s.menuNav.tempIndex,
          s.outletScheduleCount)) =
      some (MenuState.MENU_OUTLET_DELETE_ALL_CONFIRM, 0, -1, 0) ∧
    (runUi (bootState 0) (demoDeleteAllPath ++ [UiEvent.pass true 500])).state.map
        (fun s => (s.menuNav.currentMenu, s.outletScheduleCount, s.dosingScheduleCount)) =
      some (MenuState.MENU_OUTLET_SCHEDULE, -1, 0) := by
  refine ⟨⟨rfl, rfl, rfl⟩, by rfl, by rfl, by rfl⟩

/-! ### Slots above the count -/

/-- The shift loop leaves the entries from the end of its range on as they
were. -/
theorem shiftLoop_above {α : Type} (cap : Nat) :
    ∀ (n : Nat) (a : Nat → α) (i : Int) (a' : Nat → α), shiftLoop cap a n i = some a' →
      ∀ j : Nat, (n = 0 ∨ i + n ≤ (j : Int)) → a' j = a j := by
  intro n
  induction n with
  | zero =>
    intro a i a' h j _
    unfold shiftLoop at h
    simp only [Option.some.injEq] at h
    rw [h]
  | succ n ih =>
    intro a i a' h j hj
    unfold shiftLoop at h
    have hj' : i + (n + 1 : Nat) ≤ (j : Int) := by
      rcases hj with h0 | h1
      · omega
      · exact h1
    cases hd : arrayIndex cap i with
    | none => rw [hd] at h; exact absurd h (by simp)
    | some dst =>
      cases hs : arrayIndex cap (i + 1) with
      | none => rw [hd, hs] at h; exact absurd h (by simp)
      | some src =>
        rw [hd, hs] at h
        simp only at h
        have hdst : (dst : Int) = i := by
          unfold arrayIndex at hd
          split_ifs at hd with hc
          simp only [Option.some.injEq] at hd
          rw [← hd, Int.toNat_of_nonneg hc.1]
        rw [ih _ _ _ h j (Or.inr (by push_cast at hj' ⊢; omega)),
          Function.update_noteq (by intro hjd; rw [hjd] at hj'; push_cast at hj'; omega)]

/-- The invariant of the dosing store: the count is within the array and every
slot from the count on is disabled. -/
theorem storeCall_keeps_slots_disabled (s s' : State) (c : StoreCall)
    (hcount : 0 ≤ s.dosingScheduleCount ∧ s.dosingScheduleCount ≤ 24)
    (hinv : ∀ j : Nat, j < 24 → s.dosingScheduleCount ≤ (j : Int) →
      (s.dosingSchedules j).enabled = false)
    (hrun : c.run s = some s') :
    (0 ≤ s'.dosingScheduleCount ∧ s'.dosingScheduleCount ≤ 24) ∧
    ∀ j : Nat, j < 24 → s'.dosingScheduleCount ≤ (j : Int) →
      (s'.dosingSchedules j).enabled = false := by
  cases c with
  | save temp mask ms =>
    simp only [StoreCall.run, legacyDosingAdd] at hrun
    have n0 : ¬ ((4 : Int) = 0) := by decide
    have n1 : ¬ ((4 : Int) = 1) := by decide
    have n2 : ¬ ((4 : Int) = 2) := by decide
    have n3 : ¬ ((4 : Int) = 3) := by decide
    simp only [n0, n1, n2, n3, if_false, if_true] at hrun
    split_ifs at hrun with h1 h2
    · simp only [Option.some.injEq] at hrun
      subst hrun
      exact ⟨hcount, hinv⟩
    · simp only [Option.some.injEq] at hrun
      subst hrun
      exact ⟨hcount, hinv⟩
    · cases hidx : arrayIndex MAX_DOSING_SCHEDULES s.dosingScheduleCount with
      | none => rw [hidx] at hrun; exact absurd hrun (by simp)
      | some idx =>
        rw [hidx] at hrun
        simp only [Option.some.injEq] at hrun
        subst hrun
        have hlt : s.dosingScheduleCount < 24 := by
          have : ¬ s.dosingScheduleCount ≥ ((MAX_DOSING_SCHEDULES : Nat) : Int) := h2
          have h24 : ((MAX_DOSING_SCHEDULES : Nat) : Int) = 24 := rfl
          omega
        have hi : (idx : Int) = s.dosingScheduleCount := by
          unfold arrayIndex at hidx
          split_ifs at hidx with hc
          simp only [Option.some.injEq] at hidx
          rw [← hidx, Int.toNat_of_nonneg hc.1]
        refine ⟨⟨by show (0 : Int) ≤ s.dosingScheduleCount + 1; omega,
          by show s.dosingScheduleCount + 1 ≤ (24 : Int); omega⟩, ?_⟩
        intro j hj hge
        have hge' : s.dosingScheduleCount + 1 ≤ (j : Int) := hge
        show ((Function.update s.dosingSchedules idx _) j).enabled = false
        rw [Function.update_noteq (by intro hji; rw [hji] at hge'; omega)]
        exact hinv j hj (by omega)
  | deleteConfirm idx ms =>
    simp only [StoreCall.run, legacyDosingDeleteConfirm, if_true] at hrun
    cases hsh : shiftLoop MAX_DOSING_SCHEDULES s.dosingSchedules
        (s.dosingScheduleCount - 1 - (idx : Int)).toNat (idx : Int) with
    | none => rw [hsh] at hrun; exact absurd hrun (by simp)
    | some a =>
      rw [hsh] at hrun
      simp only at hrun
      cases hl : arrayIndex MAX_DOSING_SCHEDULES (s.dosingScheduleCount - 1) with
      | none => rw [hl] at hrun; exact absurd hrun (by simp)
      | some last =>
        rw [hl] at hrun
        simp only [Option.some.injEq] at hrun
        subst hrun
        have hlast : (last : Int) = s.dosingScheduleCount - 1 ∧ 0 ≤ s.dosingScheduleCount - 1 := by
          unfold arrayIndex at hl
          split_ifs at hl with hc
          simp only [Option.some.injEq] at hl
          rw [← hl, Int.toNat_of_nonneg hc.1]
          exact ⟨rfl, hc.1⟩
        refine ⟨⟨by show (0 : Int) ≤ s.dosingScheduleCount - 1; omega,
          by show s.dosingScheduleCount - 1 ≤ (24 : Int); omega⟩, ?_⟩
        intro j hj hge
        have hge' : s.dosingScheduleCount - 1 ≤ (j : Int) := hge
        show ((Function.update a last _) j).enabled = false
        by_cases hjl : j = last
        · subst hjl
          rw [Function.update_same]
        · rw [Function.update_noteq hjl]
          have hjc : s.dosingScheduleCount ≤ (j : Int) := by
            have : (j : Int) ≠ (last : Int) := by exact_mod_cast hjl
            omega
          rw [shiftLoop_above MAX_DOSING_SCHEDULES _ _ _ _ hsh j (by
            by_cases hn : 0 ≤ s.dosingScheduleCount - 1 - (idx : Int)
            · right; rw [Int.toNat_of_nonneg hn]; omega
            · left; exact Int.toNat_eq_zero.mpr (by omega))]
          exact hinv j hj hjc
  | deleteAll ms =>
    simp only [StoreCall.run, legacyDosingDeleteAll, if_true, Option.some.injEq] at hrun
    subst hrun
    refine ⟨⟨le_refl _, by show (0 : Int) ≤ 24; decide⟩, ?_⟩
    intro j hj _
    show (if j < MAX_DOSING_SCHEDULES then _ else _ : DosingSchedule).enabled = false
    rw [if_pos hj]

/-- What a scan returns: the state it got (with the scan time noted or not),
or the state `startDosing` leaves for a slot that is due. -/
theorem checkDosingLoop_cases (s : State) (now : DateTime) (t : Nat) :
    ∀ (n i : Nat) (s' : State), checkDosingLoop s now t n i = some s' →
      s' = s ∨ ∃ j, i ≤ j ∧ j < i + n ∧ dosingDue s now t j = true ∧
        startDosing s j t = some s' := by
  intro n
  induction n with
  | zero =>
    intro i s' h
    unfold checkDosingLoop at h
    simp only [Option.some.injEq] at h
    exact Or.inl h.symm
  | succ n ih =>
    intro i s' h
    unfold checkDosingLoop at h
    by_cases hd : dosingDue s now t i = true
    · rw [if_pos hd] at h
      exact Or.inr ⟨i, le_refl i, by omega, hd, h⟩
    · rw [if_neg hd] at h
      rcases ih (i + 1) s' h with h1 | ⟨j, h1, h2, h3, h4⟩
      · exact Or.inl h1
      · exact Or.inr ⟨j, by omega, by omega, h3, h4⟩

/-- C28: starting from the state `initMenuSystem` sets up (every slot
disabled, count 0), after any sequence of dosing Save, delete-confirm and
Delete All operations that the handlers carry out with defined behaviour (a
delete with an index below the count is one), the count is within 0..24 and
every dosing slot with index at or above `dosingScheduleCount` has
`enabled = false`; hence no such slot passes the test of the scan loop, and a
scan by `checkDosingSchedules` that changes the engine has started a schedule
whose index is below the count. -/
theorem C28_slots_above_count_disabled (s0 s : State) (calls : List StoreCall)
    (hrun : runStore (initMenuSystem s0) calls = some s) :
    (0 ≤ s.dosingScheduleCount ∧ s.dosingScheduleCount ≤ 24) ∧
    (∀ j : Nat, j < 24 → s.dosingScheduleCount ≤ (j : Int) →
      (s.dosingSchedules j).enabled = false) ∧
    (∀ (now : DateTime) (t j : Nat), j < 24 → dosingDue s now t j = true →
      (j : Int) < s.dosingScheduleCount) ∧
    (∀ (now : DateTime) (t : Nat) (s' : State), checkDosingSchedules s now t = some s' →
      s'.activeDosing ≠ s.activeDosing →
      s'.activeDosing.state = DosingState.DOSING_RUNNING ∧
      (s'.activeDosing.scheduleIndex : Int) < s.dosingScheduleCount) := by
  have hinv : ∀ (calls : List StoreCall) (s1 s : State),
      (0 ≤ s1.dosingScheduleCount ∧ s1.dosingScheduleCount ≤ 24) →
      (∀ j : Nat, j < 24 → s1.dosingScheduleCount ≤ (j : Int) →
        (s1.dosingSchedules j).enabled = false) →
      runStore s1 calls = some s →
      (0 ≤ s.dosingScheduleCount ∧ s.dosingScheduleCount ≤ 24) ∧
      ∀ j : Nat, j < 24 → s.dosingScheduleCount ≤ (j : Int) →
        (s.dosingSchedules j).enabled = false := by
    intro calls
    induction calls with
    | nil =>
      intro s1 s hc hi hr
      simp only [runStore, Option.some.injEq] at hr
      subst hr
      exact ⟨hc, hi⟩
    | cons c cs ih =>
      intro s1 s hc hi hr
      simp only [runStore] at hr
      cases hcr : c.run s1 with
      | none => rw [hcr] at hr; exact absurd hr (by simp)
      | some s2 =>
        rw [hcr] at hr
        obtain ⟨hc2, hi2⟩ := storeCall_keeps_slots_disabled s1 s2 c hc hi hcr
        exact ih s2 s hc2 hi2 hr
  obtain ⟨hc, hi⟩ := hinv calls (initMenuSystem s0) s
    ⟨le_refl _, by show (0 : Int) ≤ 24; decide⟩
    (fun j hj _ => by
      show (if j < MAX_DOSING_SCHEDULES then _ else _ : DosingSchedule).enabled = false
      rw [if_pos hj]) hrun
  have hdue : ∀ (s1 : State), s1.dosingSchedules = s.dosingSchedules →
      ∀ (now : DateTime) (t j : Nat), j < 24 → dosingDue s1 now t j = true →
      (j : Int) < s.dosingScheduleCount := by
    intro s1 hs1 now t j hj hd
    by_contra hge
    have hdis := hi j hj (by omega)
    unfold dosingDue at hd
    rw [hs1] at hd
    simp [hdis] at hd
  refine ⟨hc, hi, hdue s rfl, ?_⟩
  intro now t s' hscan hne
  unfold checkDosingSchedules at hscan
  split_ifs at hscan with h1 h2
  · simp only [Option.some.injEq] at hscan
    exact absurd (by rw [hscan]) hne
  · simp only [Option.some.injEq] at hscan
    exact absurd (by rw [hscan]) hne
  · rcases checkDosingLoop_cases _ now t _ _ s' hscan with h | ⟨j, _, hj2, hjd, hst⟩
    · exact absurd (by rw [h]) hne
    · obtain ⟨hr, hidx, _⟩ := startDosing_some _ s' j t hst
      refine ⟨hr, ?_⟩
      rw [hidx]
      exact hdue _ rfl now t j (by simpa using hj2) hjd

/-- C28, after two saves, the delete of row 0, a third save, Delete All and a
fourth save from the state `initMenuSystem` sets up: one schedule is stored
and slots 1 and 2, which held schedules before, are disabled. -/
theorem C28_slots_above_count_disabled_witness :
    ∃ s, runStore (initMenuSystem {}) demoStoreCalls = some s ∧
      s.dosingScheduleCount = 1 ∧ (s.dosingSchedules 0).enabled = true ∧
      (s.dosingSchedules 1).enabled = false ∧ (s.dosingSchedules 2).enabled = false := by
  have hsome : (runStore (initMenuSystem {}) demoStoreCalls).isSome = true := by rfl
  obtain ⟨s, hs⟩ := Option.isSome_iff_exists.mp hsome
  have h2 : (runStore (initMenuSystem {}) demoStoreCalls).map
      (fun s => (s.dosingScheduleCount, (s.dosingSchedules 0).enabled)) = some (1, true) := by
    rfl
  rw [hs] at h2
  simp only [Option.map_some', Option.some.injEq, Prod.mk.injEq] at h2
  exact ⟨s, hs, h2.1, h2.2,
    (C28_slots_above_count_disabled {} s demoStoreCalls hs).2.1 1 (by decide)
      (by rw [h2.1]; decide),
    (C28_slots_above_count_disabled {} s demoStoreCalls hs).2.1 2 (by decide)
      (by rw [h2.1]; decide)⟩

/-! ### Records saved by the dosing editor -/

theorem toUInt16_of_range (x : Int) (h0 : 0 ≤ x) (h1 : x < 65536) :
    ((toUInt16 x : Nat) : Int) = x := by
  unfold toUInt16
  rw [Int.emod_eq_of_lt h0 h1, Int.toNat_of_nonneg h0]

/-- The invariant only reads the temporary record, the mask scratch, the edit
flag, the cursor and the day cursor. -/
theorem DosingEditorInv_congr (s s' : State)
    (h1 : s'.tempDosingSchedule = s.tempDosingSchedule)
    (h2 : s'.menuNav.tempDaysBitmap = s.menuNav.tempDaysBitmap)
    (h3 : s'.menuNav.inEditMode = s.menuNav.inEditMode)
    (h4 : s'.menuNav.selectedIndex = s.menuNav.selectedIndex)
    (h5 : s'.menuNav.daySelectIndex = s.menuNav.daySelectIndex)
    (h : DosingEditorInv s) : DosingEditorInv s' := by
  unfold DosingEditorInv at h ⊢
  rw [h1, h2, h3, h4, h5]
  exact h

/-- In edit mode with a non-zero delta, what `handleDosingAddMenu` returns,
row by row. -/
theorem handleDosingAddMenu_edit (s : State)
    (hedit : s.menuNav.inEditMode = true)
    (hd : s.encoderPosition - s.menuNav.editValue ≠ 0) :
    handleDosingAddMenu s =
      if s.menuNav.selectedIndex = 0 then
        { s with
          tempDosingSchedule :=
            { s.tempDosingSchedule with
              pumpNumber := toUInt8 (subWhileAbove 4 4 (by decide) (addWhileBelow 1 4 (by decide)
                ((s.tempDosingSchedule.pumpNumber : Int) +
                  (s.encoderPosition - s.menuNav.editValue)))) }
          menuNav := { s.menuNav with editValue := s.encoderPosition, needsRedraw := true } }
      else if s.menuNav.selectedIndex = 1 then
        { s with
          menuNav :=
            { s.menuNav with
              daySelectIndex :=
                toUInt8 (subWhileAbove 7 8 (by decide) (addWhileBelow 0 8 (by decide)
                  ((s.menuNav.daySelectIndex : Int) +
                    (s.encoderPosition - s.menuNav.editValue))))
              editValue := s.encoderPosition
              needsRedraw := true } }
      else if s.menuNav.selectedIndex = 2 then
        if s.menuNav.editingHour = true then
          { s with
            tempDosingSchedule :=
              { s.tempDosingSchedule with
                hour := toUInt8 (subWhileAbove 23 24 (by decide) (addWhileBelow 0 24 (by decide)
                  ((s.tempDosingSchedule.hour : Int) +
                    (s.encoderPosition - s.menuNav.editValue)))) }
            menuNav := { s.menuNav with editValue := s.encoderPosition, needsRedraw := true } }
        else
          { s with
            tempDosingSchedule :=
              { s.tempDosingSchedule with
                minute := toUInt8 (subWhileAbove 59 60 (by decide) (addWhileBelow 0 60 (by decide)
                  ((s.tempDosingSchedule.minute : Int) +
                    (s.encoderPosition - s.menuNav.editValue) * 5))) }
            menuNav := { s.menuNav with editValue := s.encoderPosition, needsRedraw := true } }
      else if s.menuNav.selectedIndex = 3 then
        { s with
          tempDosingSchedule :=
            { s.tempDosingSchedule with
              amountML :=
                toUInt16
                  (if (s.tempDosingSchedule.amountML : Int) +
                      (s.encoderPosition - s.menuNav.editValue) * 1 < 0 then 5000
                    else if (s.tempDosingSchedule.amountML : Int) +
                      (s.encoderPosition - s.menuNav.editValue) * 1 > 5000 then 0
                    else (s.tempDosingSchedule.amountML : Int) +
                      (s.encoderPosition - s.menuNav.editValue) * 1) }
          menuNav := { s.menuNav with editValue := s.encoderPosition, needsRedraw := true } }
      else
        { s with menuNav := { s.menuNav with editValue := s.encoderPosition, needsRedraw := true } } := by
  unfold handleDosingAddMenu
  simp only [hedit, Bool.not_true, Bool.false_eq_true, if_false, ne_eq, hd, not_false_eq_true,
    if_true]
  by_cases h0 : s.menuNav.selectedIndex = 0
  · simp [h0, hedit]
  · by_cases h1 : s.menuNav.selectedIndex = 1
    · simp [h1, hedit]
    · by_cases h2 : s.menuNav.selectedIndex = 2
      · by_cases hh : s.menuNav.editingHour = true <;> simp [h2, hh, hedit]
      · by_cases h3 : s.menuNav.selectedIndex = 3
        · simp [h3, hedit]
        · simp [h0, h1, h2, h3, hedit]

/-- `handleDosingAddMenu` keeps the editor invariant and touches neither the
menu, the button flag nor the dosing store. -/
theorem handleDosingAddMenu_inv (s : State) (h : DosingEditorInv s) :
    DosingEditorInv (handleDosingAddMenu s) ∧
    (handleDosingAddMenu s).menuNav.currentMenu = s.menuNav.currentMenu ∧
    (handleDosingAddMenu s).hardware = s.hardware ∧
    (handleDosingAddMenu s).dosingScheduleCount = s.dosingScheduleCount ∧
    (handleDosingAddMenu s).dosingSchedules = s.dosingSchedules := by
  obtain ⟨p1, p4, hh, hm, ha, hk, hday⟩ := h
  by_cases hedit : s.menuNav.inEditMode = true
  · by_cases hd : s.encoderPosition - s.menuNav.editValue = 0
    · rw [handleDosingAddMenu_zero_delta s hedit hd]
      exact ⟨⟨p1, p4, hh, hm, ha, hk, hday⟩, rfl, rfl, rfl, rfl⟩
    · rw [handleDosingAddMenu_edit s hedit hd]
      split_ifs with h0 h1 h2 h3 h4 h5 h6
      · obtain ⟨w1, w2, _⟩ := wrap_range 1 4 4 (by decide) (by decide)
          ((s.tempDosingSchedule.pumpNumber : Int) + (s.encoderPosition - s.menuNav.editValue))
        have hv := toUInt8_of_range (subWhileAbove 4 4 (by decide) (addWhileBelow 1 4 (by decide)
          ((s.tempDosingSchedule.pumpNumber : Int) + (s.encoderPosition - s.menuNav.editValue))))
          (by omega) (by omega)
        refine ⟨⟨?_, ?_, hh, hm, ha, hk, fun _ h => ?_⟩, rfl, rfl, rfl, rfl⟩
        · show 1 ≤ toUInt8 _
          omega
        · show toUInt8 _ ≤ 4
          omega
        · exact absurd (h0.symm.trans h) (by decide)
      · obtain ⟨w1, w2, _⟩ := wrap_range 0 7 8 (by decide) (by decide)
          ((s.menuNav.daySelectIndex : Int) + (s.encoderPosition - s.menuNav.editValue))
        have hv := toUInt8_of_range (subWhileAbove 7 8 (by decide) (addWhileBelow 0 8 (by decide)
          ((s.menuNav.daySelectIndex : Int) + (s.encoderPosition - s.menuNav.editValue))))
          (by omega) (by omega)
        refine ⟨⟨p1, p4, hh, hm, ha, hk, fun _ _ => ?_⟩, rfl, rfl, rfl, rfl⟩
        show toUInt8 _ ≤ 7
        omega
      · obtain ⟨w1, w2, _⟩ := wrap_range 0 23 24 (by decide) (by decide)
          ((s.tempDosingSchedule.hour : Int) + (s.encoderPosition - s.menuNav.editValue))
        have hv := toUInt8_of_range (subWhileAbove 23 24 (by decide) (addWhileBelow 0 24 (by decide)
          ((s.tempDosingSchedule.hour : Int) + (s.encoderPosition - s.menuNav.editValue))))
          (by omega) (by omega)
        refine ⟨⟨p1, p4, ?_, hm, ha, hk, fun _ h => absurd h h1⟩, rfl, rfl, rfl, rfl⟩
        show toUInt8 _ ≤ 23
        omega
      · obtain ⟨w1, w2, _⟩ := wrap_range 0 59 60 (by decide) (by decide)
          ((s.tempDosingSchedule.minute : Int) + (s.encoderPosition - s.menuNav.editValue) * 5)
        have hv := toUInt8_of_range (subWhileAbove 59 60 (by decide) (addWhileBelow 0 60 (by decide)
          ((s.tempDosingSchedule.minute : Int) + (s.encoderPosition - s.menuNav.editValue) * 5)))
          (by omega) (by omega)
        refine ⟨⟨p1, p4, hh, ?_, ha, hk, fun _ h => absurd h h1⟩, rfl, rfl, rfl, rfl⟩
        show toUInt8 _ ≤ 59
        omega
      · refine ⟨⟨p1, p4, hh, hm, ?_, hk, fun _ h => absurd h h1⟩, rfl, rfl, rfl, rfl⟩
        show toUInt16 5000 ≤ 5000
        decide
      · refine ⟨⟨p1, p4, hh, hm, ?_, hk, fun _ h => absurd h h1⟩, rfl, rfl, rfl, rfl⟩
        show toUInt16 0 ≤ 5000
        decide
      · refine ⟨⟨p1, p4, hh, hm, ?_, hk, fun _ h => absurd h h1⟩, rfl, rfl, rfl, rfl⟩
        show toUInt16 _ ≤ 5000
        have hv := toUInt16_of_range ((s.tempDosingSchedule.amountML : Int) +
          (s.encoderPosition - s.menuNav.editValue) * 1) (by omega) (by omega)
        omega
      · exact ⟨⟨p1, p4, hh, hm, ha, hk, fun _ h => absurd h h1⟩, rfl, rfl, rfl, rfl⟩
  · have hval : handleDosingAddMenu s = clampEncoderPosition s 0 5 := by
      unfold handleDosingAddMenu
      simp [hedit]
    rw [hval]
    refine ⟨⟨p1, p4, hh, hm, ha, hk, fun h _ => absurd h hedit⟩, rfl, rfl, rfl, rfl⟩

/-- Toggling one of the seven day bits keeps the mask within the seven day
bits. -/
theorem toggle_bit_le (mask d : Nat) (hm : mask ≤ 127) (hd : d ≤ 6) :
    (mask ^^^ (1 <<< d) % 256) % 256 ≤ 127 := by
  have h1 : mask < 2 ^ 7 := by omega
  have h2 : (1 <<< d) % 256 < 2 ^ 7 := by
    interval_cases d <;> decide
  have h3 := Nat.xor_lt_two_pow h1 h2
  have h4 : mask ^^^ (1 <<< d) % 256 < 256 := by omega
  rw [Nat.mod_eq_of_lt h4]
  omega

/-- A button press in the dosing editor keeps the editor invariant, and when
it raises the count by one (a successful Save) the record it stored at the old
count is the temporary record with the scratch mask, enabled. -/
theorem legacyDosingAdd_inv (s s' : State) (ms : Nat) (h : DosingEditorInv s)
    (hrun : legacyDosingAdd s ms = some s') :
    DosingEditorInv s' ∧
    (s'.dosingScheduleCount = s.dosingScheduleCount + 1 →
      0 ≤ s.dosingScheduleCount ∧ s.dosingScheduleCount < 24 ∧
      s.menuNav.tempDaysBitmap ≠ 0 ∧
      s'.dosingSchedules s.dosingScheduleCount.toNat =
        { s.tempDosingSchedule with
          daysOfWeek := s.menuNav.tempDaysBitmap, enabled := true, isInterval := false,
          intervalMinutes := 0 }) := by
  obtain ⟨p1, p4, hh, hm, ha, hk, hday⟩ := h
  unfold legacyDosingAdd at hrun
  by_cases h0 : s.menuNav.selectedIndex = 0
  · rw [if_pos h0] at hrun
    simp only [Option.some.injEq] at hrun
    subst hrun
    refine ⟨⟨?_, ?_, ?_, ?_, ?_, ?_, ?_⟩, fun hc => ?_⟩
    · split_ifs <;> exact p1
    · split_ifs <;> exact p4
    · split_ifs <;> exact hh
    · split_ifs <;> exact hm
    · split_ifs <;> exact ha
    · split_ifs <;> exact hk
    · intro _ hs
      have hs' : s.menuNav.selectedIndex = 1 := by
        revert hs; split_ifs <;> exact id
      exact absurd (h0.symm.trans hs') (by decide)
    · have hc' : s.dosingScheduleCount = s.dosingScheduleCount + 1 := by
        revert hc; split_ifs <;> exact id
      omega
  rw [if_neg h0] at hrun
  by_cases h1 : s.menuNav.selectedIndex = 1
  · rw [if_pos h1] at hrun
    simp only [Option.some.injEq] at hrun
    subst hrun
    by_cases hedit : s.menuNav.inEditMode = true
    · by_cases h7 : s.menuNav.daySelectIndex = 7
      · simp only [hedit, Bool.not_true, Bool.false_eq_true, if_false, h7, if_true]
        exact ⟨⟨p1, p4, hh, hm, ha, hk, fun he _ => (Bool.false_ne_true he).elim⟩,
          fun hc => absurd hc (by show ¬ s.dosingScheduleCount = s.dosingScheduleCount + 1; omega)⟩
      · simp only [hedit, Bool.not_true, Bool.false_eq_true, if_false, h7]
        have hd6 : s.menuNav.daySelectIndex ≤ 6 := by
          have := hday hedit h1
          omega
        refine ⟨⟨p1, p4, hh, hm, ha, ?_, fun _ _ => hday hedit h1⟩,
          fun hc => absurd hc (by show ¬ s.dosingScheduleCount = s.dosingScheduleCount + 1; omega)⟩
        exact toggle_bit_le _ _ hk hd6
    · have hf : s.menuNav.inEditMode = false := by simpa using hedit
      simp only [hf, Bool.not_false, if_true]
      exact ⟨⟨p1, p4, hh, hm, ha, hk, fun _ _ => Nat.zero_le 7⟩,
        fun hc => absurd hc (by show ¬ s.dosingScheduleCount = s.dosingScheduleCount + 1; omega)⟩
  rw [if_neg h1] at hrun
  by_cases h2 : s.menuNav.selectedIndex = 2
  · rw [if_pos h2] at hrun
    simp only [Option.some.injEq] at hrun
    subst hrun
    refine ⟨⟨?_, ?_, ?_, ?_, ?_, ?_, ?_⟩, fun hc => ?_⟩
    · split_ifs <;> exact p1
    · split_ifs <;> exact p4
    · split_ifs <;> exact hh
    · split_ifs <;> exact hm
    · split_ifs <;> exact ha
    · split_ifs <;> exact hk
    · intro _ hs
      have hs' : s.menuNav.selectedIndex = 1 := by
        revert hs; split_ifs <;> exact id
      exact absurd hs' h1
    · have hc' : s.dosingScheduleCount = s.dosingScheduleCount + 1 := by
        revert hc; split_ifs <;> exact id
      omega
  rw [if_neg h2] at hrun
  by_cases h3 : s.menuNav.selectedIndex = 3
  · rw [if_pos h3] at hrun
    simp only [Option.some.injEq] at hrun
    subst hrun
    exact ⟨⟨p1, p4, hh, hm, ha, hk, fun _ hs => absurd hs h1⟩,
      fun hc => absurd hc (by show ¬ s.dosingScheduleCount = s.dosingScheduleCount + 1; omega)⟩
  rw [if_neg h3] at hrun
  by_cases h4 : s.menuNav.selectedIndex = 4
  · rw [if_pos h4] at hrun
    by_cases hz : s.menuNav.tempDaysBitmap = 0
    · rw [if_pos hz] at hrun
      simp only [Option.some.injEq] at hrun
      subst hrun
      exact ⟨⟨p1, p4, hh, hm, ha, hk, hday⟩,
        fun hc => absurd hc (by show ¬ s.dosingScheduleCount = s.dosingScheduleCount + 1; omega)⟩
    · rw [if_neg hz] at hrun
      by_cases hfull : s.dosingScheduleCount ≥ ((MAX_DOSING_SCHEDULES : Nat) : Int)
      · rw [if_pos hfull] at hrun
        simp only [Option.some.injEq] at hrun
        subst hrun
        exact ⟨⟨p1, p4, hh, hm, ha, hk, hday⟩,
          fun hc => absurd hc (by show ¬ s.dosingScheduleCount = s.dosingScheduleCount + 1; omega)⟩
      · rw [if_neg hfull] at hrun
        cases hidx : arrayIndex MAX_DOSING_SCHEDULES s.dosingScheduleCount with
        | none => rw [hidx] at hrun; exact absurd hrun (by simp)
        | some idx =>
          rw [hidx] at hrun
          simp only [Option.some.injEq] at hrun
          subst hrun
          have hrange : 0 ≤ s.dosingScheduleCount ∧ idx = s.dosingScheduleCount.toNat := by
            unfold arrayIndex at hidx
            split_ifs at hidx with hc
            simp only [Option.some.injEq] at hidx
            exact ⟨hc.1, hidx.symm⟩
          have h24 : ((MAX_DOSING_SCHEDULES : Nat) : Int) = 24 := rfl
          refine ⟨⟨p1, p4, hh, hm, ha, hk, fun he _ => (Bool.false_ne_true he).elim⟩, fun _ => ?_⟩
          refine ⟨hrange.1, by omega, hz, ?_⟩
          show Function.update s.dosingSchedules idx _ s.dosingScheduleCount.toNat = _
          rw [hrange.2, Function.update_same]
  rw [if_neg h4] at hrun
  by_cases h5 : s.menuNav.selectedIndex = 5
  · rw [if_pos h5] at hrun
    simp only [Option.some.injEq] at hrun
    subst hrun
    exact ⟨⟨p1, p4, hh, hm, ha, hk, fun he _ => (Bool.false_ne_true he).elim⟩,
      fun hc => absurd hc (by show ¬ s.dosingScheduleCount = s.dosingScheduleCount + 1; omega)⟩
  rw [if_neg h5] at hrun
  simp only [Option.some.injEq] at hrun
  subst hrun
  exact ⟨⟨p1, p4, hh, hm, ha, hk, hday⟩,
    fun hc => absurd hc (by show ¬ s.dosingScheduleCount = s.dosingScheduleCount + 1; omega)⟩

/-- In the dosing editor the navigation tick is `handleDosingAddMenu`. -/
theorem dispatchNav_dosingAdd (s : State)
    (h : s.menuNav.currentMenu = MenuState.MENU_DOSING_ADD) :
    dispatchNav s = some (handleDosingAddMenu s) := by
  unfold dispatchNav
  rw [h]
  rfl

/-- In the dosing editor a press goes to the `MENU_DOSING_ADD` branch of the
legacy switch. -/
theorem handleMenuSelection_dosingAdd (s : State) (ms : Nat)
    (h : s.menuNav.currentMenu = MenuState.MENU_DOSING_ADD) :
    handleMenuSelection s ms = Outcome.ofOption (legacyDosingAdd s ms) := by
  unfold handleMenuSelection handleMenuSelectionLegacy
  rw [h]
  rfl

/-- One front-panel event inside the dosing editor keeps the editor invariant;
if it raises the count by one, the record it stored at the old count is within
the ranges of the data model. -/
theorem dosingEditor_step (s s' : State) (e : UiEvent)
    (hin : s.menuNav.currentMenu = MenuState.MENU_DOSING_ADD)
    (hinv : DosingEditorInv s) (hrun : e.run s = Outcome.next s') :
    DosingEditorInv s' ∧
    (s'.dosingScheduleCount = s.dosingScheduleCount + 1 →
      0 ≤ s.dosingScheduleCount ∧ s.dosingScheduleCount < 24 ∧
      1 ≤ (s'.dosingSchedules s.dosingScheduleCount.toNat).pumpNumber ∧
      (s'.dosingSchedules s.dosingScheduleCount.toNat).pumpNumber ≤ 4 ∧
      (s'.dosingSchedules s.dosingScheduleCount.toNat).hour ≤ 23 ∧
      (s'.dosingSchedules s.dosingScheduleCount.toNat).minute ≤ 59 ∧
      (s'.dosingSchedules s.dosingScheduleCount.toNat).amountML ≤ 5000 ∧
      (s'.dosingSchedules s.dosingScheduleCount.toNat).daysOfWeek ≠ 0 ∧
      (s'.dosingSchedules s.dosingScheduleCount.toNat).daysOfWeek ≤ 127 ∧
      (s'.dosingSchedules s.dosingScheduleCount.toNat).enabled = true) := by
  cases e with
  | turn k =>
    simp only [UiEvent.run, Outcome.next.injEq] at hrun
    subst hrun
    exact ⟨DosingEditorInv_congr s _ rfl rfl rfl rfl rfl hinv,
      fun hc => absurd hc (by show ¬ s.dosingScheduleCount = s.dosingScheduleCount + 1; omega)⟩
  | pass pressed ms =>
    simp only [UiEvent.run] at hrun
    have hb_inv : DosingEditorInv (if pressed = true then buttonPressed s else s) := by
      split_ifs
      · exact DosingEditorInv_congr s _ rfl rfl rfl rfl rfl hinv
      · exact hinv
    have hb_menu : (if pressed = true then buttonPressed s else s).menuNav.currentMenu =
        MenuState.MENU_DOSING_ADD := by
      split_ifs <;> exact hin
    have hb_count : (if pressed = true then buttonPressed s else s).dosingScheduleCount =
        s.dosingScheduleCount := by
      split_ifs <;> rfl
    generalize (if pressed = true then buttonPressed s else s) = sb at hrun hb_inv hb_menu hb_count
    have hn_inv : DosingEditorInv (noteEncoderActivity sb ms) := by
      unfold noteEncoderActivity
      split_ifs
      · exact DosingEditorInv_congr sb _ rfl rfl rfl rfl rfl hb_inv
      · exact hb_inv
    have hn_menu : (noteEncoderActivity sb ms).menuNav.currentMenu = MenuState.MENU_DOSING_ADD :=
      (noteEncoderActivity_currentMenu sb ms).trans hb_menu
    have hn_count : (noteEncoderActivity sb ms).dosingScheduleCount = s.dosingScheduleCount := by
      rw [← hb_count]
      unfold noteEncoderActivity
      split_ifs <;> rfl
    rw [handleMenuNavigation_of_nav sb _ ms (dispatchNav_dosingAdd _ hn_menu)] at hrun
    obtain ⟨hd_inv, hd_menu, _, hd_count, _⟩ := handleDosingAddMenu_inv _ hn_inv
    rw [hn_menu] at hd_menu
    rw [hn_count] at hd_count
    generalize handleDosingAddMenu (noteEncoderActivity sb ms) = sd at hrun hd_inv hd_menu hd_count
    unfold dispatchButton at hrun
    by_cases hbtn : sd.hardware.encoderButton = true
    · rw [if_pos hbtn] at hrun
      simp only at hrun
      rw [handleMenuSelection_dosingAdd
        { sd with
          hardware := { sd.hardware with encoderButton := false }
          menuNav := { sd.menuNav with lastActivity := ms } } ms hd_menu] at hrun
      cases hsel : legacyDosingAdd
          { sd with
            hardware := { sd.hardware with encoderButton := false }
            menuNav := { sd.menuNav with lastActivity := ms } } ms with
      | none =>
        rw [hsel] at hrun
        simp only [Outcome.ofOption] at hrun
        exact absurd hrun (by simp)
      | some s2 =>
        rw [hsel] at hrun
        simp only [Outcome.ofOption, Outcome.next.injEq] at hrun
        subst hrun
        obtain ⟨h2_inv, h2_rec⟩ := legacyDosingAdd_inv
          { sd with
            hardware := { sd.hardware with encoderButton := false }
            menuNav := { sd.menuNav with lastActivity := ms } } s2 ms
          (DosingEditorInv_congr sd _ rfl rfl rfl rfl rfl hd_inv) hsel
        refine ⟨DosingEditorInv_congr s2 _ rfl rfl rfl rfl rfl h2_inv, fun hc => ?_⟩
        have hc2 : s2.dosingScheduleCount = sd.dosingScheduleCount + 1 := by
          rw [hd_count]; exact hc
        obtain ⟨r0, r1, rz, rrec⟩ := h2_rec hc2
        have r0' : 0 ≤ sd.dosingScheduleCount := r0
        have r1' : sd.dosingScheduleCount < 24 := r1
        have rrec' : s2.dosingSchedules sd.dosingScheduleCount.toNat =
            { sd.tempDosingSchedule with
              daysOfWeek := sd.menuNav.tempDaysBitmap, enabled := true, isInterval := false,
              intervalMinutes := 0 } := rrec
        rw [hd_count] at r0' r1' rrec'
        obtain ⟨p1, p4, hh, hm, ha, hk, _⟩ := hd_inv
        refine ⟨r0', r1', ?_⟩
        show 1 ≤ (s2.dosingSchedules s.dosingScheduleCount.toNat).pumpNumber ∧ _
        rw [rrec']
        exact ⟨p1, p4, hh, hm, ha, rz, hk, rfl⟩
    · rw [if_neg hbtn] at hrun
      simp only [Outcome.next.injEq] at hrun
      subst hrun
      exact ⟨hd_inv, fun hc => absurd (hd_count ▸ hc) (by omega)⟩

/-- C25: let the dosing editor be entered through Add Schedule (the press of
`selectDosingScheduleMenu` with the cursor on item 1, from any state), let
any sequence of encoder rotations and loop passes with or without a press
follow inside the editor, and let one more event raise
`dosingScheduleCount` by one (a successful Save). Then the old count was
within 0..23 and the record stored at it has `pumpNumber` in 1..4,
`hour <= 23`, `minute <= 59`, `amountML <= 5000`, a day mask that is non-zero
and at most 127, and is enabled. -/
theorem C25_saved_record_in_range (s0 s s' : State) (ms0 : Nat) (evs : List UiEvent)
    (e : UiEvent)
    (hadd : s0.menuNav.selectedIndex = 1)
    (hrun : runUiIn MenuState.MENU_DOSING_ADD (selectDosingScheduleMenu s0 ms0) evs = some s)
    (hin : s.menuNav.currentMenu = MenuState.MENU_DOSING_ADD)
    (hlast : e.run s = Outcome.next s')
    (hsaved : s'.dosingScheduleCount = s.dosingScheduleCount + 1) :
    0 ≤ s.dosingScheduleCount ∧ s.dosingScheduleCount < 24 ∧
    1 ≤ (s'.dosingSchedules s.dosingScheduleCount.toNat).pumpNumber ∧
    (s'.dosingSchedules s.dosingScheduleCount.toNat).pumpNumber ≤ 4 ∧
    (s'.dosingSchedules s.dosingScheduleCount.toNat).hour ≤ 23 ∧
    (s'.dosingSchedules s.dosingScheduleCount.toNat).minute ≤ 59 ∧
    (s'.dosingSchedules s.dosingScheduleCount.toNat).amountML ≤ 5000 ∧
    (s'.dosingSchedules s.dosingScheduleCount.toNat).daysOfWeek ≠ 0 ∧
    (s'.dosingSchedules s.dosingScheduleCount.toNat).daysOfWeek ≤ 127 ∧
    (s'.dosingSchedules s.dosingScheduleCount.toNat).enabled = true := by
  have hstart : DosingEditorInv (selectDosingScheduleMenu s0 ms0) := by
    unfold selectDosingScheduleMenu
    have n0 : ¬ s0.menuNav.selectedIndex = 0 := by rw [hadd]; decide
    rw [if_neg n0, if_pos hadd]
    exact ⟨Nat.le_refl 1, (by decide : (1 : Nat) ≤ 4), (by decide : (8 : Nat) ≤ 23),
      (by decide : (0 : Nat) ≤ 59), (by decide : (10 : Nat) ≤ 5000),
      (by decide : (0 : Nat) ≤ 127),
      fun _ h => absurd (show (0 : Int) = 1 from h) (by decide)⟩
  have hall : ∀ (evs : List UiEvent) (s1 s : State), DosingEditorInv s1 →
      runUiIn MenuState.MENU_DOSING_ADD s1 evs = some s →
      s.menuNav.currentMenu = MenuState.MENU_DOSING_ADD → DosingEditorInv s := by
    intro evs
    induction evs with
    | nil =>
      intro s1 s h1 hr _
      simp only [runUiIn, Option.some.injEq] at hr
      subst hr
      exact h1
    | cons e es ih =>
      intro s1 s h1 hr hm
      simp only [runUiIn] at hr
      split_ifs at hr with hmenu
      cases he : e.run s1 with
      | next s2 =>
        rw [he] at hr
        exact ih s2 s (dosingEditor_step s1 s2 e hmenu h1 he).1 hr hm
      | undefined => rw [he] at hr; exact absurd hr (by simp)
      | restart => rw [he] at hr; exact absurd hr (by simp)
  exact (dosingEditor_step s s' e hin (hall evs _ s hstart hrun hin) hlast).2 hsaved

theorem runUiIn_append (menu : MenuState) (s : State) (a b : List UiEvent) :
    runUiIn menu s (a ++ b) =
      match runUiIn menu s a with
      | some s1 => runUiIn menu s1 b
      | none => none := by
  induction a generalizing s with
  | nil => rfl
  | cons e es ih =>
    simp only [List.cons_append, runUiIn]
    split_ifs
    · cases e.run s with
      | next s1 => exact ih s1
      | undefined => rfl
      | restart => rfl
    · rfl

/-- C25, for the editor opened from the dosing schedule menu: Sunday is
marked on the Days row, the cursor goes to Save, and the press stores in slot
0 the record pump 1, 08:00, 10 tenths of a millilitre, mask 1, enabled. -/
theorem C25_saved_record_in_range_witness :
    demoAddCursor.menuNav.selectedIndex = 1 ∧
    runUiIn MenuState.MENU_DOSING_ADD (selectDosingScheduleMenu demoAddCursor 0)
        demoEditorEvents = some (demoDosingDays false 7 4 7 300) ∧
    ∃ s', (UiEvent.pass true 400).run (demoDosingDays false 7 4 7 300) = Outcome.next s' ∧
      s'.dosingScheduleCount = 1 ∧
      (s'.dosingSchedules 0).pumpNumber = 1 ∧ (s'.dosingSchedules 0).daysOfWeek = 1 ∧
      ((0 : Int) ≤ 0 ∧ (0 : Int) < 24 ∧
        1 ≤ (s'.dosingSchedules 0).pumpNumber ∧ (s'.dosingSchedules 0).pumpNumber ≤ 4 ∧
        (s'.dosingSchedules 0).hour ≤ 23 ∧ (s'.dosingSchedules 0).minute ≤ 59 ∧
        (s'.dosingSchedules 0).amountML ≤ 5000 ∧ (s'.dosingSchedules 0).daysOfWeek ≠ 0 ∧
        (s'.dosingSchedules 0).daysOfWeek ≤ 127 ∧ (s'.dosingSchedules 0).enabled = true) := by
  have h1 : runUiIn MenuState.MENU_DOSING_ADD (selectDosingScheduleMenu demoAddCursor 0)
      [UiEvent.turn 1, UiEvent.pass true 100, UiEvent.pass true 200] =
      some (demoDosingDays true 0 0 0 200) := by rfl
  have h2 : runUiIn MenuState.MENU_DOSING_ADD (demoDosingDays true 0 0 0 200)
      [UiEvent.turn 7, UiEvent.pass true 300] = some (demoDosingDays false 7 1 7 300) := by
    have hnav : handleMenuNavigation (buttonPressed (turnEncoder (demoDosingDays true 0 0 0 200) 7))
        300 = Outcome.next (demoDosingDays false 7 1 7 300) := by
      rw [handleMenuNavigation_of_nav
          (buttonPressed (turnEncoder (demoDosingDays true 0 0 0 200) 7)) _ 300
          (dispatchNav_dosingAdd _ (by decide)),
        handleDosingAddMenu_days _ (by decide) (by decide) (by decide),
        wrap_eq_emod 0 7 8 (by decide) (by decide)]
      rfl
    show (if _ then (match (UiEvent.turn 7).run (demoDosingDays true 0 0 0 200) with
      | Outcome.next s1 => runUiIn MenuState.MENU_DOSING_ADD s1 [UiEvent.pass true 300]
      | _ => none) else none) = _
    rw [if_pos (by decide)]
    show (if _ then (match handleMenuNavigation
        (buttonPressed (turnEncoder (demoDosingDays true 0 0 0 200) 7)) 300 with
      | Outcome.next s1 => runUiIn MenuState.MENU_DOSING_ADD s1 []
      | _ => none) else none) = _
    rw [if_pos (by decide), hnav]
    rfl
  have h3 : runUiIn MenuState.MENU_DOSING_ADD (demoDosingDays false 7 1 7 300)
      [UiEvent.turn 3] = some (demoDosingDays false 7 4 7 300) := by rfl
  have hrun : runUiIn MenuState.MENU_DOSING_ADD (selectDosingScheduleMenu demoAddCursor 0)
      demoEditorEvents = some (demoDosingDays false 7 4 7 300) := by
    show runUiIn MenuState.MENU_DOSING_ADD (selectDosingScheduleMenu demoAddCursor 0)
      ([UiEvent.turn 1, UiEvent.pass true 100, UiEvent.pass true 200] ++
        ([UiEvent.turn 7, UiEvent.pass true 300] ++ [UiEvent.turn 3])) = _
    rw [runUiIn_append, h1]
    simp only []
    rw [runUiIn_append, h2]
    simp only []
    exact h3
  have hstate : ((UiEvent.pass true 400).run (demoDosingDays false 7 4 7 300)).state.map
      (fun s => (s.dosingScheduleCount, (s.dosingSchedules 0).pumpNumber,
        (s.dosingSchedules 0).daysOfWeek)) = some (1, 1, 1) := by rfl
  refine ⟨rfl, hrun, ?_⟩
  cases hlast : (UiEvent.pass true 400).run (demoDosingDays false 7 4 7 300) with
  | next s' =>
    rw [hlast] at hstate
    simp only [Outcome.state, Option.map_some', Option.some.injEq, Prod.mk.injEq] at hstate
    exact ⟨s', rfl, hstate.1, hstate.2.1, hstate.2.2,
      C25_saved_record_in_range demoAddCursor (demoDosingDays false 7 4 7 300) s' 0
        demoEditorEvents (UiEvent.pass true 400) rfl hrun rfl hlast hstate.1⟩
  | undefined => rw [hlast] at hstate; exact absurd hstate (by simp [Outcome.state])
  | restart => rw [hlast] at hstate; exact absurd hstate (by simp [Outcome.state])

end Hydro
